import Mathlib

/-!
# Request lifecycle of the pharmacy supply backend

A shallow embedding of `apps/backend/controllers/requestController.js` and of
`updateProduct` from `apps/backend/controllers/productController.js`.

The relational store is a record of tables, every table a list of rows in
insertion order.  A `SELECT ... WHERE` is a `List.filter` (rows come back in
table order), `rows[0]` is the head of the filtered list, an `UPDATE ... WHERE` is a `List.map` that rewrites the
matching rows and reports the number of matched rows as `affectedRows` (the
mysql2 driver connects with the found-rows flag), an `INSERT` appends.

Modelling conventions, fixed once for the whole development:

* column comparison in a `WHERE` clause is exact string equality;
* money in a table (`price`, `total_amount`) is an exact decimal, kept as an
  integer number of hundredths; a product that JavaScript computes and sends to
  the client (`price * quantity` of createRequest) is a double, `Dbl`, computed
  with the rounding of IEEE 754, and the two-place decimal column `total_amount`
  keeps that double rounded to hundredths, which for an integer quantity is the
  exact product in hundredths;
* the body field `quantity` is a JSON integer number or is absent; what the
  database makes of a string or of a fraction in an integer column depends on the
  schema and the SQL mode, which are not part of the repository, so such bodies
  are outside this development;
* the clock and the random source a handler reads are passed in as `Env`;
* `req.user.<id>` is an `Option String` (`none` when the token lacks the field),
  body fields that a handler validates are `Option`s as well;
* columns an `INSERT` does not list are `none`;
* every query succeeds: the `catch` branch of a handler (status 500) is not
  reached, and no key constraint is enforced on `request` or `notifications`;
  the only key the handlers rely on is `(pharmacy_id, product_id)` of
  `pharmacy_inventory`, through `ON DUPLICATE KEY UPDATE`.  The handlers whose
  names end in `F` are the same handlers with queries that may fail; with no
  failure they agree with the plain ones.
-/

namespace Pscms

/-! ## Environment and identifiers -/

/-- What a handler reads from outside the store: the calendar year of
`new Date()`, the value of SQL `CURRENT_DATE` and `NOW()`, and the stream of
random draws, `rand k` being the `k`-th draw made during the call. -/
structure Env where
  year : Nat
  today : Nat
  now : Nat
  rand : Nat → Nat

/-- One upper-case hexadecimal digit. -/
def hexDigit (n : Nat) : Char :=
  if n % 16 < 10 then Char.ofNat (48 + n % 16) else Char.ofNat (55 + n % 16)

/-- The four upper-case hex digits of a 16-bit value:
`crypto.randomBytes(2).toString('hex').toUpperCase()`. -/
def hex4 (n : Nat) : String :=
  String.mk [hexDigit (n / 4096), hexDigit (n / 256), hexDigit (n / 16), hexDigit n]

/-- The `generateId(prefix)` of requestController.js: `PREFIX-YYYY-XXXX`, the last
part being two random bytes. -/
def generateId (pfx : String) (year : Nat) (draw : Nat) : String :=
  pfx ++ "-" ++ toString year ++ "-" ++ hex4 (draw % 65536)

/-- Left-padding to five digits, `String(random).padStart(5, '0')`. -/
def padStart5 (n : Nat) : String :=
  let d := toString n
  String.mk (List.replicate (5 - d.length) '0') ++ d

/-- The `generateProductId()` of productController.js: `PROD-YYYY-NNNNN`, with
`Math.floor(Math.random() * 100000)` as the last part. -/
def generateProductId (year : Nat) (draw : Nat) : String :=
  "PROD-" ++ toString year ++ "-" ++ padStart5 (draw % 100000)

/-- A decimal amount held in hundredths, as text with two fraction digits, the
form in which the driver hands a two-place `DECIMAL` column to a template
string. -/
def showAmount (a : Int) : String :=
  (if a < 0 then "-" else "") ++ toString (a.natAbs / 100) ++ "." ++
    (if a.natAbs % 100 < 10 then "0" else "") ++ toString (a.natAbs % 100)

/-! ## JavaScript numbers -/

/-- A finite JavaScript number, an IEEE 754 double: `mant * 2 ^ exp`, negated
when `neg`.  Zero is `⟨false, 0, 0⟩`, every other value has
`2 ^ 52 ≤ mant < 2 ^ 53`, so equal numbers are equal records.  The exponent is
not bounded: infinities, subnormal numbers, `NaN` and the sign of zero are not
represented. -/
structure Dbl where
  neg : Bool
  mant : Nat
  exp : Int
deriving DecidableEq, Repr

/-- The position of the leading binary digit of `n` (zero for `n < 2`), with
`fuel` halvings allowed; `log2Aux n n` is the binary logarithm of `n` rounded
down. -/
def log2Aux : Nat → Nat → Nat
  | 0, _ => 0
  | fuel + 1, n => if n < 2 then 0 else log2Aux fuel (n / 2) + 1

/-- The fraction `n / (d * 2 ^ e)` as a pair of naturals. -/
def Dbl.scale (n d : Nat) (e : Int) : Nat × Nat :=
  if 0 ≤ e then (n, d * 2 ^ e.toNat) else (n * 2 ^ (-e).toNat, d)

/-- The double nearest to `n / d`, ties going to the even significand: the
exponent `e` is chosen with `2 ^ 52 ≤ n / (d * 2 ^ e) < 2 ^ 53`, the quotient is
rounded, and a significand that rounds up to `2 ^ 53` moves to the next
exponent. -/
def Dbl.ofRatio (neg : Bool) (n d : Nat) : Dbl :=
  if n = 0 ∨ d = 0 then ⟨false, 0, 0⟩
  else
    let k : Int := (log2Aux n n : Int) - (log2Aux d d : Int) - 52
    let e : Int := if (Dbl.scale n d k).1 / (Dbl.scale n d k).2 < 2 ^ 52 then k - 1 else k
    let num := (Dbl.scale n d e).1
    let den := (Dbl.scale n d e).2
    let q := num / den
    let r := num % den
    let m := if den < 2 * r ∨ (2 * r = den ∧ q % 2 = 1) then q + 1 else q
    if m = 2 ^ 53 then ⟨neg, 2 ^ 52, e + 1⟩ else ⟨neg, m, e⟩

/-- The number JavaScript makes of a two-place decimal that the driver hands
over as text (`"0.10"` in a multiplication), the amount given in hundredths. -/
def Dbl.ofHundredths (a : Int) : Dbl := Dbl.ofRatio (decide (a < 0)) a.natAbs 100

/-- The number JavaScript makes of an integer of the JSON body. -/
def Dbl.ofInt (a : Int) : Dbl := Dbl.ofRatio (decide (a < 0)) a.natAbs 1

/-- The `*` of JavaScript on two finite numbers: the exact product, rounded to
the nearest double. -/
def Dbl.mul (a b : Dbl) : Dbl :=
  Dbl.ofRatio (a.neg != b.neg) (Dbl.scale (a.mant * b.mant) 1 (-(a.exp + b.exp))).1
    (Dbl.scale (a.mant * b.mant) 1 (-(a.exp + b.exp))).2

/-! ## Tables -/

/-- A row of table `request`. -/
structure Request where
  request_id : String
  product_name : String
  quantity : Int
  total_amount : Int
  order_date : Nat
  request_datetime : Nat
  status : String
  pharmacy_id : String
  wholesaler_id : String
  order_id : Option String
  approved_datetime : Option Nat
  notification_sent : Option Bool
  notification_message : Option String
deriving DecidableEq, Repr

/-- A row of table `notifications` (the columns the handlers write; the copies
of the helper in adminController.js and pharmacyController.js also write
`created_at` and `is_read`). -/
structure Notification where
  notification_id : String
  recipient_id : String
  recipient_role : String
  message : String
  type : String
  trigger_role : String
  created_at : Option Nat
  is_read : Option Bool
deriving DecidableEq, Repr

/-- A row of table `products`. -/
structure Product where
  product_id : String
  name : String
  description : String
  price : Int
  quantity : Int
  expire_date : String
  wholesaler_id : String
deriving DecidableEq, Repr

/-- A row of table `pharmacy_inventory`, keyed by `(pharmacy_id, product_id)`. -/
structure InventoryRow where
  pharmacy_id : String
  product_id : String
  quantity : Int
  last_updated : Option Nat
deriving DecidableEq, Repr

/-- The tables the request workflow reads and writes. -/
structure Store where
  request : List Request
  notifications : List Notification
  products : List Product
  pharmacy_inventory : List InventoryRow
deriving DecidableEq, Repr

/-- What a handler sends back: a failure with its HTTP status and message, or
the success payload of the handler. -/
inductive Response where
  | error (code : Nat) (message : String)
  | created (requestId pharmacyId wholesalerId productName : String)
      (quantity : Int) (total_amount : Dbl)
  | approved (requestId orderId : String) (total_amount : Int)
  | rejected (requestId : String) (total_amount : Int)
  | canceled (requestId : String) (total_amount : Int)
  | productUpdated
deriving DecidableEq, Repr

/-- The distinct elements in order of first occurrence, `[...new Set(ids)]`. -/
def uniqueIds : List String → List String
  | [] => []
  | x :: xs => x :: (uniqueIds xs).filter (fun y => y ≠ x)

/-- The `WHERE request_id = ? AND wholesaler_id = ?` condition of the three
lifecycle updates. -/
def ownedBy (requestId w : String) (r : Request) : Bool :=
  r.request_id = requestId && r.wholesaler_id = w

/-- The `SELECT ... FROM request WHERE request_id = ?` of the lifecycle handlers. -/
def selectRequest (rs : List Request) (requestId : String) : List Request :=
  rs.filter (fun r => r.request_id = requestId)

/-- The `SELECT ... FROM products WHERE name = ? AND wholesaler_id = ?` lookup. -/
def selectProduct (ps : List Product) (name w : String) : List Product :=
  ps.filter (fun p => p.name = name && p.wholesaler_id = w)

/-- The key test of `pharmacy_inventory`. -/
def invKey (p d : String) (r : InventoryRow) : Bool :=
  r.pharmacy_id = p && r.product_id = d

/-- The accrual statement `INSERT INTO pharmacy_inventory (pharmacy_id, product_id,
quantity) VALUES (?, ?, ?) ON DUPLICATE KEY UPDATE quantity = quantity +
VALUES(quantity), last_updated = NOW()`: a row with the key has the quantity
added and its `last_updated` refreshed, otherwise a row is inserted. -/
def upsertInventory (inv : List InventoryRow) (p d : String) (q : Int) (now : Nat) :
    List InventoryRow :=
  if inv.any (invKey p d) then
    inv.map (fun r =>
      if invKey p d r then { r with quantity := r.quantity + q, last_updated := some now }
      else r)
  else
    inv ++ [{ pharmacy_id := p, product_id := d, quantity := q, last_updated := none }]

/-- The quantity a pharmacy holds of a product, `none` when it has no row. -/
def inventoryQty (inv : List InventoryRow) (p d : String) : Option Int :=
  (inv.find? (invKey p d)).map (fun r => r.quantity)

/-! ## requestController.js -/

namespace requestController

/-- The inner `insertNotification(recipientId)`: look for a row with the same
`(recipient_id, message, type, trigger_role)` and insert one, under a fresh
`NTF` identifier, when there is none.  The state is the table together with
the number of random draws made so far. -/
def insertNotification (env : Env) (recipientRole message type triggerRole : String)
    (acc : List Notification × Nat) (recipientId : String) : List Notification × Nat :=
  if (acc.1.filter (fun n => n.recipient_id = recipientId && n.message = message &&
      n.type = type && n.trigger_role = triggerRole)).length = 0 then
    (acc.1 ++ [{ notification_id := generateId "NTF" env.year (env.rand acc.2),
                 recipient_id := recipientId, recipient_role := recipientRole,
                 message := message, type := type, trigger_role := triggerRole,
                 created_at := none, is_read := none }],
     acc.2 + 1)
  else acc

/-- The helper `createNotification(recipientRole, message, type, triggerRole,
specificRecipientIds)`: nothing for an empty list, otherwise one
`insertNotification` per distinct recipient, in order. -/
def createNotification (env : Env) (recipientRole message type triggerRole : String)
    (specificRecipientIds : List String) (acc : List Notification × Nat) :
    List Notification × Nat :=
  if specificRecipientIds.length > 0 then
    (uniqueIds specificRecipientIds).foldl
      (insertNotification env recipientRole message type triggerRole) acc
  else acc

/-- The message stored on an approved request and sent to the pharmacy. -/
def approvedPharmacyMessage (quantity : Int) (product_name : String) (total_amount : Int)
    (orderId : String) : String :=
  "Your request for " ++ toString quantity ++ " units of " ++ product_name ++ " (Total: " ++
    showAmount total_amount ++ ") has been approved. Order ID: " ++ orderId

/-- The message sent to the wholesaler who approved. -/
def approvedWholesalerMessage (quantity : Int) (product_name : String) (total_amount : Int)
    (pharmacy_id : String) : String :=
  "You approved a request for " ++ toString quantity ++ " units of " ++ product_name ++
    " (Total: " ++ showAmount total_amount ++ ") for pharmacy " ++ pharmacy_id ++ "."

/-- The message stored on a rejected request and sent to the pharmacy. -/
def rejectedPharmacyMessage (quantity : Int) (product_name : String) (total_amount : Int) :
    String :=
  "Your request for " ++ toString quantity ++ " units of " ++ product_name ++ " (Total: " ++
    showAmount total_amount ++ ") has been rejected."

/-- The message sent to the wholesaler who rejected. -/
def rejectedWholesalerMessage (quantity : Int) (product_name : String) (total_amount : Int)
    (pharmacy_id : String) : String :=
  "You rejected a request for " ++ toString quantity ++ " units of " ++ product_name ++
    " (Total: " ++ showAmount total_amount ++ ") for pharmacy " ++ pharmacy_id ++ "."

/-- Handler `exports.createRequest`: `pharmacyId` is `req.user.pharmacyId`, the other
three arguments are the body fields.  The JavaScript value `price * quantity`
is the double `total`, which the response returns; the row keeps it as a
two-place decimal, `total_amount`. -/
def createRequest (env : Env) (s : Store) (pharmacyId : Option String)
    (product_name : Option String) (quantity : Option Int) (wholesaler_id : Option String) :
    Response × Store :=
  match pharmacyId with
  | none => (.error 403 "Only pharmacies can create requests", s)
  | some pid =>
    if pid = "" then (.error 403 "Only pharmacies can create requests", s)
    else
      match product_name, quantity, wholesaler_id with
      | some name, some qty, some wid =>
        if name = "" ∨ qty = 0 ∨ wid = "" then
          (.error 400 "Product name, quantity, and wholesaler ID are required", s)
        else
          match (selectProduct s.products name wid).take 1 with
          | [] => (.error 400 "Product not found for this wholesaler", s)
          | prod :: _ =>
            let price := prod.price
            let total := Dbl.mul (Dbl.ofHundredths price) (Dbl.ofInt qty)
            let total_amount := price * qty
            let requestId := generateId "REQ" env.year (env.rand 0)
            let request' := s.request ++
              [{ request_id := requestId, product_name := name, quantity := qty,
                 total_amount := total_amount, order_date := env.today,
                 request_datetime := env.now, status := "Pending", pharmacy_id := pid,
                 wholesaler_id := wid, order_id := none, approved_datetime := none,
                 notification_sent := none, notification_message := none }]
            let ns := createNotification env "wholesaler"
              ("New request for " ++ toString qty ++ " units of " ++ name)
              "request" "pharmacy" [wid] (s.notifications, 1)
            (.created requestId pid wid name qty total,
             { s with request := request', notifications := ns.1 })
      | _, _, _ =>
        (.error 400 "Product name, quantity, and wholesaler ID are required", s)

/-- Handler `exports.approveRequest`: `wholesalerId` is `req.user.wholesalerId`,
`requestId` the route parameter. -/
def approveRequest (env : Env) (s : Store) (wholesalerId : Option String)
    (requestId : String) : Response × Store :=
  match wholesalerId with
  | none => (.error 403 "Only wholesalers can approve requests", s)
  | some w =>
    if w = "" then (.error 403 "Only wholesalers can approve requests", s)
    else
      let orderId := generateId "ORD" env.year (env.rand 0)
      match selectRequest s.request requestId with
      | [] => (.error 404 "Request not found", s)
      | d :: _ =>
        let pharmacyMessage :=
          approvedPharmacyMessage d.quantity d.product_name d.total_amount orderId
        let wholesalerMessage :=
          approvedWholesalerMessage d.quantity d.product_name d.total_amount d.pharmacy_id
        let affectedRows := (s.request.filter (ownedBy requestId w)).length
        let s1 : Store := { s with request := s.request.map (fun r =>
          if ownedBy requestId w r then
            { r with status := "Approved", order_id := some orderId,
                     approved_datetime := some env.now, notification_sent := some false,
                     notification_message := some pharmacyMessage }
          else r) }
        if affectedRows = 0 then (.error 404 "Request not found or not authorized", s1)
        else
          let n1 := createNotification env "pharmacy" pharmacyMessage "requestApproved"
            "wholesaler" [d.pharmacy_id] (s1.notifications, 1)
          let n2 := createNotification env "wholesaler" wholesalerMessage "requestApproved"
            "wholesaler" [w] n1
          let s2 : Store := { s1 with notifications := n2.1 }
          let s3 : Store :=
            match selectProduct s2.products d.product_name w with
            | [] => s2
            | prod :: _ =>
              let inv := upsertInventory s2.pharmacy_inventory d.pharmacy_id prod.product_id
                d.quantity env.now
              { s2 with pharmacy_inventory := inv }
          (.approved requestId orderId d.total_amount, s3)

/-- Handler `exports.rejectRequest`, with the arguments of `approveRequest`. -/
def rejectRequest (env : Env) (s : Store) (wholesalerId : Option String)
    (requestId : String) : Response × Store :=
  match wholesalerId with
  | none => (.error 403 "Only wholesalers can reject requests", s)
  | some w =>
    if w = "" then (.error 403 "Only wholesalers can reject requests", s)
    else
      match selectRequest s.request requestId with
      | [] => (.error 404 "Request not found", s)
      | d :: _ =>
        let pharmacyMessage :=
          rejectedPharmacyMessage d.quantity d.product_name d.total_amount
        let wholesalerMessage :=
          rejectedWholesalerMessage d.quantity d.product_name d.total_amount d.pharmacy_id
        let affectedRows := (s.request.filter (ownedBy requestId w)).length
        let s1 : Store := { s with request := s.request.map (fun r =>
          if ownedBy requestId w r then
            { r with status := "Rejected", notification_sent := some false,
                     notification_message := some pharmacyMessage }
          else r) }
        if affectedRows = 0 then (.error 404 "Request not found or not authorized", s1)
        else
          let n1 := createNotification env "pharmacy" pharmacyMessage "requestRejected"
            "wholesaler" [d.pharmacy_id] (s1.notifications, 0)
          let n2 := createNotification env "wholesaler" wholesalerMessage "requestRejected"
            "wholesaler" [w] n1
          (.rejected requestId d.total_amount, { s1 with notifications := n2.1 })

/-- Handler `exports.cancelRequest`, with the arguments of `approveRequest`; it
reads neither the clock nor the random source. -/
def cancelRequest (s : Store) (wholesalerId : Option String) (requestId : String) :
    Response × Store :=
  match wholesalerId with
  | none => (.error 403 "Only wholesalers can cancel requests", s)
  | some w =>
    if w = "" then (.error 403 "Only wholesalers can cancel requests", s)
    else
      match selectRequest s.request requestId with
      | [] => (.error 404 "Request not found", s)
      | d :: _ =>
        let affectedRows := (s.request.filter (ownedBy requestId w)).length
        let s1 : Store := { s with request := s.request.map (fun r =>
          if ownedBy requestId w r then
            { r with status := "Pending", order_id := none, approved_datetime := none,
                     notification_sent := some false, notification_message := none }
          else r) }
        if affectedRows = 0 then (.error 404 "Request not found or not authorized", s1)
        else (.canceled requestId d.total_amount, s1)

end requestController

/-! ## productController.js -/

namespace productController

/-- The inner `insertNotification(recipientId)` of productController.js; the
new row takes its identifier from `generateProductId()`. -/
def insertNotification (env : Env) (recipientRole message type triggerRole : String)
    (acc : List Notification × Nat) (recipientId : String) : List Notification × Nat :=
  if (acc.1.filter (fun n => n.recipient_id = recipientId && n.message = message &&
      n.type = type && n.trigger_role = triggerRole)).length = 0 then
    (acc.1 ++ [{ notification_id := generateProductId env.year (env.rand acc.2),
                 recipient_id := recipientId, recipient_role := recipientRole,
                 message := message, type := type, trigger_role := triggerRole,
                 created_at := none, is_read := none }],
     acc.2 + 1)
  else acc

/-- The helper `createNotification` of productController.js. -/
def createNotification (env : Env) (recipientRole message type triggerRole : String)
    (specificRecipientIds : List String) (acc : List Notification × Nat) :
    List Notification × Nat :=
  if specificRecipientIds.length > 0 then
    (uniqueIds specificRecipientIds).foldl
      (insertNotification env recipientRole message type triggerRole) acc
  else acc

/-- Handler `exports.updateProduct`: `product_id` is the route parameter, `wholesalerId`
is `req.user.wholesalerId` (a missing one reaches the query as `NULL` and matches
no row), the remaining arguments are the body fields. -/
def updateProduct (env : Env) (s : Store) (wholesalerId : Option String) (product_id : String)
    (name description : String) (price quantity : Int) (expire_date : String) :
    Response × Store :=
  if product_id = "" then (.error 400 "Product ID is required", s)
  else
    let mine (p : Product) : Bool :=
      p.product_id = product_id && some p.wholesaler_id = wholesalerId
    match s.products.filter mine with
    | [] => (.error 404 "Product not found or not authorized", s)
    | cur :: _ =>
      let oldPrice := cur.price
      let productName := cur.name
      let s1 : Store := { s with products := s.products.map (fun p =>
        if mine p then
          { p with name := name, description := description, price := price,
                   quantity := quantity, expire_date := expire_date }
        else p) }
      let n1 := createNotification env "wholesaler" ("You updated your product: " ++ name)
        "product" "wholesaler" wholesalerId.toList (s1.notifications, 0)
      let n2 :=
        if oldPrice ≠ price then
          let pharmacyIds := uniqueIds
            ((s1.request.filter (fun r => r.product_name = productName &&
              r.status = "pending")).map (fun r => r.pharmacy_id))
          if pharmacyIds.length > 0 then
            createNotification env "pharmacy"
              ("Price for " ++ productName ++ " changed from $" ++ showAmount oldPrice ++
                " to $" ++ showAmount price)
              "product" "wholesaler" pharmacyIds n1
          else n1
        else n1
      (.productUpdated, { s1 with notifications := n2.1 })

end productController

/-! ## adminController.js and pharmacyController.js

Both files carry the same copy of the notification helper: it loops over the
recipient list as given, names a row `NTF-<Date.now()>-<random below 10000>`,
fills `created_at` and `is_read`, and runs inside a `try` whose `catch` logs the
error.  `clock k` is the reading of `Date.now()` at the `k`-th insertion. -/

namespace adminController

/-- The loop body of `createNotification` in adminController.js: the duplicate
check, then the insertion. -/
def insertNotification (env : Env) (clock : Nat → Nat)
    (recipientRole message type triggerRole : String)
    (acc : List Notification × Nat) (recipientId : String) : List Notification × Nat :=
  if (acc.1.filter (fun n => n.recipient_id = recipientId && n.message = message &&
      n.type = type && n.trigger_role = triggerRole)).length = 0 then
    (acc.1 ++ [{ notification_id := "NTF-" ++ toString (clock acc.2) ++ "-" ++
                   toString (env.rand acc.2 % 10000),
                 recipient_id := recipientId, recipient_role := recipientRole,
                 message := message, type := type, trigger_role := triggerRole,
                 created_at := some env.now, is_read := some false }],
     acc.2 + 1)
  else acc

/-- The helper `createNotification` of adminController.js, when no query fails. -/
def createNotification (env : Env) (clock : Nat → Nat)
    (recipientRole message type triggerRole : String)
    (specificRecipientIds : List String) (acc : List Notification × Nat) :
    List Notification × Nat :=
  specificRecipientIds.foldl
    (insertNotification env clock recipientRole message type triggerRole) acc

end adminController

namespace pharmacyController

/-- The loop body of `createNotification` in pharmacyController.js. -/
def insertNotification (env : Env) (clock : Nat → Nat)
    (recipientRole message type triggerRole : String)
    (acc : List Notification × Nat) (recipientId : String) : List Notification × Nat :=
  if (acc.1.filter (fun n => n.recipient_id = recipientId && n.message = message &&
      n.type = type && n.trigger_role = triggerRole)).length = 0 then
    (acc.1 ++ [{ notification_id := "NTF-" ++ toString (clock acc.2) ++ "-" ++
                   toString (env.rand acc.2 % 10000),
                 recipient_id := recipientId, recipient_role := recipientRole,
                 message := message, type := type, trigger_role := triggerRole,
                 created_at := some env.now, is_read := some false }],
     acc.2 + 1)
  else acc

/-- The helper `createNotification` of pharmacyController.js, when no query fails. -/
def createNotification (env : Env) (clock : Nat → Nat)
    (recipientRole message type triggerRole : String)
    (specificRecipientIds : List String) (acc : List Notification × Nat) :
    List Notification × Nat :=
  specificRecipientIds.foldl
    (insertNotification env clock recipientRole message type triggerRole) acc

end pharmacyController

/-! ## The duplicate check shared by the copies of the helper -/

/-- The `WHERE recipient_id = ? AND message = ? AND type = ? AND trigger_role = ?`
test of the duplicate check. -/
def sameNotification (recipientId message type triggerRole : String) (n : Notification) :
    Bool :=
  n.recipient_id = recipientId && n.message = message && n.type = type &&
    n.trigger_role = triggerRole

/-- The number of stored rows a duplicate check for `recipientId` finds. -/
def stored (ns : List Notification) (recipientId message type triggerRole : String) : Nat :=
  (ns.filter (sameNotification recipientId message type triggerRole)).length

/-- The shape every copy of `insertNotification` has: skip when the duplicate
check finds a row, otherwise append the row `mk k recipientId`, `k` being the
number of insertions made so far. -/
def insertIfAbsent (mk : Nat → String → Notification) (message type triggerRole : String)
    (acc : List Notification × Nat) (recipientId : String) : List Notification × Nat :=
  if stored acc.1 recipientId message type triggerRole = 0 then
    (acc.1 ++ [mk acc.2 recipientId], acc.2 + 1)
  else acc

/-- The row the copy in requestController.js inserts at its `k`-th insertion. -/
def requestController.newRow (env : Env) (recipientRole message type triggerRole : String)
    (k : Nat) (recipientId : String) : Notification :=
  { notification_id := generateId "NTF" env.year (env.rand k),
    recipient_id := recipientId, recipient_role := recipientRole,
    message := message, type := type, trigger_role := triggerRole,
    created_at := none, is_read := none }

/-- The row the copies in adminController.js and pharmacyController.js insert at
their `k`-th insertion. -/
def adminController.newRow (env : Env) (clock : Nat → Nat)
    (recipientRole message type triggerRole : String)
    (k : Nat) (recipientId : String) : Notification :=
  { notification_id := "NTF-" ++ toString (clock k) ++ "-" ++ toString (env.rand k % 10000),
    recipient_id := recipientId, recipient_role := recipientRole,
    message := message, type := type, trigger_role := triggerRole,
    created_at := some env.now, is_read := some false }

/-! ## The handlers when a query may fail

Every `pool.query` of a call is numbered from zero in the order in which the
call issues them, and `fails k` tells whether query `k` throws.  Nothing is
rolled back: the handlers open no transaction.  An exception leaves the
`try` block of the handler, whose `catch` answers 500 `Server error`. -/

/-- The state of a fanout in progress: the table, the random draws made, the
queries issued by the call so far and whether an exception is in flight. -/
structure Fanout where
  notifications : List Notification
  draws : Nat
  queries : Nat
  thrown : Bool
deriving DecidableEq, Repr

namespace requestController

/-- The inner `insertNotification(recipientId)` with failing queries: the
`SELECT` may throw, and so may the `INSERT` (after its identifier was drawn);
nothing in the helper catches. -/
def insertNotificationF (fails : Nat → Bool) (env : Env)
    (recipientRole message type triggerRole : String)
    (st : Fanout) (recipientId : String) : Fanout :=
  if st.thrown then st
  else if fails st.queries then { st with queries := st.queries + 1, thrown := true }
  else if (st.notifications.filter (fun n => n.recipient_id = recipientId &&
      n.message = message && n.type = type && n.trigger_role = triggerRole)).length = 0 then
    if fails (st.queries + 1) then
      { st with draws := st.draws + 1, queries := st.queries + 2, thrown := true }
    else
      { notifications := st.notifications ++
          [{ notification_id := generateId "NTF" env.year (env.rand st.draws),
             recipient_id := recipientId, recipient_role := recipientRole,
             message := message, type := type, trigger_role := triggerRole,
             created_at := none, is_read := none }],
        draws := st.draws + 1, queries := st.queries + 2, thrown := false }
  else { st with queries := st.queries + 1 }

/-- The helper `createNotification` of requestController.js with failing
queries: an exception ends the loop and leaves the helper. -/
def createNotificationF (fails : Nat → Bool) (env : Env)
    (recipientRole message type triggerRole : String)
    (specificRecipientIds : List String) (st : Fanout) : Fanout :=
  if specificRecipientIds.length > 0 then
    (uniqueIds specificRecipientIds).foldl
      (insertNotificationF fails env recipientRole message type triggerRole) st
  else st

/-- Handler `exports.createRequest` with failing queries. -/
def createRequestF (fails : Nat → Bool) (env : Env) (s : Store) (pharmacyId : Option String)
    (product_name : Option String) (quantity : Option Int) (wholesaler_id : Option String) :
    Response × Store :=
  match pharmacyId with
  | none => (.error 403 "Only pharmacies can create requests", s)
  | some pid =>
    if pid = "" then (.error 403 "Only pharmacies can create requests", s)
    else
      match product_name, quantity, wholesaler_id with
      | some name, some qty, some wid =>
        if name = "" ∨ qty = 0 ∨ wid = "" then
          (.error 400 "Product name, quantity, and wholesaler ID are required", s)
        else if fails 0 then (.error 500 "Server error", s)
        else
          match (selectProduct s.products name wid).take 1 with
          | [] => (.error 400 "Product not found for this wholesaler", s)
          | prod :: _ =>
            let price := prod.price
            let total := Dbl.mul (Dbl.ofHundredths price) (Dbl.ofInt qty)
            let total_amount := price * qty
            let requestId := generateId "REQ" env.year (env.rand 0)
            if fails 1 then (.error 500 "Server error", s)
            else
              let request' := s.request ++
                [{ request_id := requestId, product_name := name, quantity := qty,
                   total_amount := total_amount, order_date := env.today,
                   request_datetime := env.now, status := "Pending", pharmacy_id := pid,
                   wholesaler_id := wid, order_id := none, approved_datetime := none,
                   notification_sent := none, notification_message := none }]
              let f := createNotificationF fails env "wholesaler"
                ("New request for " ++ toString qty ++ " units of " ++ name)
                "request" "pharmacy" [wid]
                { notifications := s.notifications, draws := 1, queries := 2,
                  thrown := false }
              let s1 : Store := { s with request := request', notifications := f.notifications }
              if f.thrown then (.error 500 "Server error", s1)
              else (.created requestId pid wid name qty total, s1)
      | _, _, _ =>
        (.error 400 "Product name, quantity, and wholesaler ID are required", s)

/-- Handler `exports.approveRequest` with failing queries. -/
def approveRequestF (fails : Nat → Bool) (env : Env) (s : Store)
    (wholesalerId : Option String) (requestId : String) : Response × Store :=
  match wholesalerId with
  | none => (.error 403 "Only wholesalers can approve requests", s)
  | some w =>
    if w = "" then (.error 403 "Only wholesalers can approve requests", s)
    else
      let orderId := generateId "ORD" env.year (env.rand 0)
      if fails 0 then (.error 500 "Server error", s)
      else
        match selectRequest s.request requestId with
        | [] => (.error 404 "Request not found", s)
        | d :: _ =>
          let pharmacyMessage :=
            approvedPharmacyMessage d.quantity d.product_name d.total_amount orderId
          let wholesalerMessage :=
            approvedWholesalerMessage d.quantity d.product_name d.total_amount d.pharmacy_id
          if fails 1 then (.error 500 "Server error", s)
          else
            let affectedRows := (s.request.filter (ownedBy requestId w)).length
            let s1 : Store := { s with request := s.request.map (fun r =>
              if ownedBy requestId w r then
                { r with status := "Approved", order_id := some orderId,
                         approved_datetime := some env.now, notification_sent := some false,
                         notification_message := some pharmacyMessage }
              else r) }
            if affectedRows = 0 then (.error 404 "Request not found or not authorized", s1)
            else
              let f1 := createNotificationF fails env "pharmacy" pharmacyMessage
                "requestApproved" "wholesaler" [d.pharmacy_id]
                { notifications := s1.notifications, draws := 1, queries := 2,
                  thrown := false }
              let f2 := createNotificationF fails env "wholesaler" wholesalerMessage
                "requestApproved" "wholesaler" [w] f1
              let s2 : Store := { s1 with notifications := f2.notifications }
              if f2.thrown then (.error 500 "Server error", s2)
              else if fails f2.queries then (.error 500 "Server error", s2)
              else
                match selectProduct s2.products d.product_name w with
                | [] => (.approved requestId orderId d.total_amount, s2)
                | prod :: _ =>
                  if fails (f2.queries + 1) then (.error 500 "Server error", s2)
                  else
                    let inv := upsertInventory s2.pharmacy_inventory d.pharmacy_id
                      prod.product_id d.quantity env.now
                    (.approved requestId orderId d.total_amount,
                     { s2 with pharmacy_inventory := inv })

/-- Handler `exports.rejectRequest` with failing queries. -/
def rejectRequestF (fails : Nat → Bool) (env : Env) (s : Store)
    (wholesalerId : Option String) (requestId : String) : Response × Store :=
  match wholesalerId with
  | none => (.error 403 "Only wholesalers can reject requests", s)
  | some w =>
    if w = "" then (.error 403 "Only wholesalers can reject requests", s)
    else if fails 0 then (.error 500 "Server error", s)
    else
      match selectRequest s.request requestId with
      | [] => (.error 404 "Request not found", s)
      | d :: _ =>
        let pharmacyMessage :=
          rejectedPharmacyMessage d.quantity d.product_name d.total_amount
        let wholesalerMessage :=
          rejectedWholesalerMessage d.quantity d.product_name d.total_amount d.pharmacy_id
        if fails 1 then (.error 500 "Server error", s)
        else
          let affectedRows := (s.request.filter (ownedBy requestId w)).length
          let s1 : Store := { s with request := s.request.map (fun r =>
            if ownedBy requestId w r then
              { r with status := "Rejected", notification_sent := some false,
                       notification_message := some pharmacyMessage }
            else r) }
          if affectedRows = 0 then (.error 404 "Request not found or not authorized", s1)
          else
            let f1 := createNotificationF fails env "pharmacy" pharmacyMessage
              "requestRejected" "wholesaler" [d.pharmacy_id]
              { notifications := s1.notifications, draws := 0, queries := 2,
                thrown := false }
            let f2 := createNotificationF fails env "wholesaler" wholesalerMessage
              "requestRejected" "wholesaler" [w] f1
            let s2 : Store := { s1 with notifications := f2.notifications }
            if f2.thrown then (.error 500 "Server error", s2)
            else (.rejected requestId d.total_amount, s2)

end requestController

namespace adminController

/-- The loop body of `createNotification` in adminController.js with failing
queries. -/
def insertNotificationF (fails : Nat → Bool) (env : Env) (clock : Nat → Nat)
    (recipientRole message type triggerRole : String)
    (st : Fanout) (recipientId : String) : Fanout :=
  if st.thrown then st
  else if fails st.queries then { st with queries := st.queries + 1, thrown := true }
  else if (st.notifications.filter (fun n => n.recipient_id = recipientId &&
      n.message = message && n.type = type && n.trigger_role = triggerRole)).length = 0 then
    if fails (st.queries + 1) then
      { st with draws := st.draws + 1, queries := st.queries + 2, thrown := true }
    else
      { notifications := st.notifications ++
          [{ notification_id := "NTF-" ++ toString (clock st.draws) ++ "-" ++
               toString (env.rand st.draws % 10000),
             recipient_id := recipientId, recipient_role := recipientRole,
             message := message, type := type, trigger_role := triggerRole,
             created_at := some env.now, is_read := some false }],
        draws := st.draws + 1, queries := st.queries + 2, thrown := false }
  else { st with queries := st.queries + 1 }

/-- The helper `createNotification` of adminController.js with failing queries:
the loop runs inside `try`, and the `catch` logs the error and returns. -/
def createNotificationF (fails : Nat → Bool) (env : Env) (clock : Nat → Nat)
    (recipientRole message type triggerRole : String)
    (specificRecipientIds : List String) (st : Fanout) : Fanout :=
  { specificRecipientIds.foldl
      (insertNotificationF fails env clock recipientRole message type triggerRole) st with
    thrown := false }

end adminController

/-- The failure pattern in which exactly query number `k` of the call throws. -/
def failsAt (k : Nat) : Nat → Bool :=
  fun i => i == k

/-! ## Accounts

The tables `pharmacy`, `wholesalers` and `admins`, and the handlers that read or
write them.  Password hashing, password comparison, the verification of a Google
credential and the rendering of a random password are collaborators outside the
repository; they are passed in as `Collab`.  A signed token is represented by
the claims it carries. -/

/-- A row of table `pharmacy`. -/
structure Pharmacy where
  pharmacy_id : String
  name : String
  address : String
  phone_No : String
  username : String
  password : String
  status : String
  is_active : Bool
deriving DecidableEq, Repr

/-- A row of table `wholesalers`. -/
structure Wholesaler where
  wholesaler_id : String
  name : String
  address : String
  username : String
  password : String
  status : String
  is_active : Bool
deriving DecidableEq, Repr

/-- A row of table `admins`. -/
structure Admin where
  admin_id : String
  name : String
  username : String
  password : String
  email : String
  role : String
  status : String
deriving DecidableEq, Repr

/-- The tables the account handlers read and write. -/
structure AccountStore where
  pharmacy : List Pharmacy
  wholesalers : List Wholesaler
  admins : List Admin
  notifications : List Notification
deriving DecidableEq, Repr

/-- The collaborators of the account handlers: `bcrypt.hash` (with the salt it
draws), `bcrypt.compare`, `verifyIdToken` followed by `getPayload` (the e-mail
and the display name, `none` when the credential is refused) and
`Math.random().toString(36).slice(-8)` as a function of the draw. -/
structure Collab where
  hash : String → Nat → String
  compare : String → String → Bool
  verifyIdToken : String → Option (String × Option String)
  randomPassword : Nat → String

/-- What the account, inventory and dashboard handlers send back. -/
inductive Reply where
  | error (code : Nat) (message : String)
  | token (subjectId username : String) (name : Option String)
  | awaitingApproval
  | registered (pharmacyId : String)
  | pharmacyApproved (pharmacyId : String)
  | pharmacyRejected (pharmacyId : String)
  | activeToggled (pharmacyId : String) (is_active : Bool)
  | inventoryUpdated (productId : String) (quantity : Int)
  | dashboard (totalOrders pendingRequests : Nat) (totalSpent : Int)
deriving DecidableEq, Repr

/-- The `generatePharmacyId()` of pharmacyController.js: `PHA-YYYY-NNNNN`. -/
def generatePharmacyId (year : Nat) (draw : Nat) : String :=
  "PHA-" ++ toString year ++ "-" ++ padStart5 (draw % 100000)

namespace pharmacyController

/-- Handler `exports.login` of pharmacyController.js. -/
def login (c : Collab) (s : AccountStore) (username password : Option String) : Reply :=
  match username, password with
  | some u, some pw =>
    if u = "" ∨ pw = "" then .error 400 "Username and password are required"
    else
      match s.pharmacy.filter (fun r => r.username = u) with
      | [] => .error 401 "Invalid credentials"
      | pharmacy :: _ =>
        if !c.compare pw pharmacy.password then .error 401 "Invalid credentials"
        else if !pharmacy.is_active then
          .error 403 "Your account has been deactivated. Please contact support."
        else if pharmacy.status ≠ "approved" then
          .error 403 "Account pending approval by admin"
        else .token pharmacy.pharmacy_id pharmacy.username none
  | _, _ => .error 400 "Username and password are required"

/-- Handler `exports.googleLogin`: a first sign-in inserts a `pending` account
under a random password and issues no token. -/
def googleLogin (c : Collab) (env : Env) (s : AccountStore) (credential : Option String) :
    Reply × AccountStore :=
  match credential with
  | none => (.error 400 "Google credential is required", s)
  | some cred =>
    if cred = "" then (.error 400 "Google credential is required", s)
    else
      match c.verifyIdToken cred with
      | none => (.error 500 "Google login failed", s)
      | some (email, name) =>
        match s.pharmacy.filter (fun r => r.username = email) with
        | [] =>
          let pharmacyId := generatePharmacyId env.year (env.rand 0)
          let randomPassword := c.randomPassword (env.rand 1)
          let shown := match name with
            | some n => if n = "" then "N/A" else n
            | none => "N/A"
          (.awaitingApproval,
           { s with pharmacy := s.pharmacy ++
               [{ pharmacy_id := pharmacyId, name := shown, address := "N/A",
                  phone_No := "N/A", username := email,
                  password := c.hash randomPassword (env.rand 2), status := "pending",
                  is_active := true }] })
        | pharmacy :: _ =>
          if !pharmacy.is_active then
            (.error 403 "Your account has been deactivated. Please contact support.", s)
          else if pharmacy.status ≠ "approved" then
            (.error 403
              "Your account is still pending approval by the administrator. Please wait until it is approved.",
             s)
          else (.token pharmacy.pharmacy_id pharmacy.username (some pharmacy.name), s)

/-- Handler `exports.register` of pharmacyController.js; the notification helper
is called without a recipient list, whose default is the empty list. -/
def register (c : Collab) (env : Env) (clock : Nat → Nat) (s : AccountStore)
    (name address phone_No username password : Option String) : Reply × AccountStore :=
  match name, address, phone_No, username, password with
  | some n, some a, some ph, some u, some pw =>
    if n = "" ∨ a = "" ∨ ph = "" ∨ u = "" ∨ pw = "" then
      (.error 400 "Name, address, phone_No, username, password are required", s)
    else if (s.pharmacy.filter (fun r => r.username = u)).length > 0 then
      (.error 409 "Username already registered", s)
    else
      let hashedPassword := c.hash pw (env.rand 0)
      let pharmacyId := generatePharmacyId env.year (env.rand 1)
      let pharmacy' := s.pharmacy ++
        [{ pharmacy_id := pharmacyId, name := n, address := a, phone_No := ph,
           username := u, password := hashedPassword, status := "pending",
           is_active := true }]
      let ns := createNotification env clock "admin"
        ("New pharmacy \"" ++ n ++ "\" registered and is awaiting approval.")
        "add_pharmacy" "pharmacy" [] (s.notifications, 2)
      (.registered pharmacyId, { s with pharmacy := pharmacy', notifications := ns.1 })
  | _, _, _, _, _ =>
    (.error 400 "Name, address, phone_No, username, password are required", s)

/-- Handler `exports.updateInventoryItem`: `productId` is the route parameter,
`quantity` the body field. -/
def updateInventoryItem (env : Env) (s : Store) (pharmacyId : Option String)
    (productId : String) (quantity : Option Int) : Reply × Store :=
  match pharmacyId with
  | none => (.error 403 "Authentication required", s)
  | some pid =>
    if pid = "" then (.error 403 "Authentication required", s)
    else
      match quantity with
      | none => (.error 400 "Quantity must be non-negative", s)
      | some q =>
        if q < 0 then (.error 400 "Quantity must be non-negative", s)
        else
          let affectedRows := (s.pharmacy_inventory.filter (invKey pid productId)).length
          let s1 : Store := { s with pharmacy_inventory := s.pharmacy_inventory.map (fun r =>
            if invKey pid productId r then
              { r with quantity := q, last_updated := some env.now }
            else r) }
          if affectedRows = 0 then (.error 404 "Product not found in your inventory", s1)
          else (.inventoryUpdated productId q, s1)

/-- The `totalSpent` query of `getDashboardStats`: `SUM(p.price * r.quantity)`
over the approved requests of the pharmacy joined with the product rows of the
same name and wholesaler, `0` for no row. -/
def totalSpent (s : Store) (pharmacyId : String) : Int :=
  ((s.request.filter (fun r => r.pharmacy_id = pharmacyId && r.status = "Approved")).map
    (fun r => ((selectProduct s.products r.product_name r.wholesaler_id).map
      (fun p => p.price * r.quantity)).sum)).sum

/-- Handler `exports.getDashboardStats` of pharmacyController.js, its three
figures (the payload also lists the five latest orders, a read of `request`
joined with `wholesalers`). -/
def getDashboardStats (s : Store) (pharmacyId : Option String) : Reply :=
  match pharmacyId with
  | none => .error 403 "Authentication required"
  | some pid =>
    if pid = "" then .error 403 "Authentication required"
    else
      .dashboard
        (s.request.filter (fun r => r.pharmacy_id = pid && r.status = "Approved" &&
          r.order_id.isSome)).length
        (s.request.filter (fun r => r.pharmacy_id = pid && r.status = "Pending")).length
        (totalSpent s pid)

end pharmacyController

namespace wholesalerController

/-- Handler `exports.login` of wholesalerController.js. -/
def login (c : Collab) (s : AccountStore) (username password : Option String) : Reply :=
  match username, password with
  | some u, some pw =>
    if u = "" ∨ pw = "" then .error 400 "username and password are required"
    else
      match s.wholesalers.filter (fun r => r.username = u) with
      | [] => .error 401 "Invalid credentials"
      | wholesaler :: _ =>
        if !wholesaler.is_active then
          .error 403
            "Your account is currently inactive. Please contact support for assistance."
        else if !c.compare pw wholesaler.password then .error 401 "Invalid credentials"
        else .token wholesaler.wholesaler_id wholesaler.username none
  | _, _ => .error 400 "username and password are required"

end wholesalerController

namespace adminController

/-- The recipient `req.user?.adminId || 'system'`. -/
def actingAdmin (adminId : Option String) : String :=
  match adminId with
  | some a => if a = "" then "system" else a
  | none => "system"

/-- Handler `exports.approvePharmacy`: `pharmacyId` is the route parameter. -/
def approvePharmacy (env : Env) (clock : Nat → Nat) (s : AccountStore)
    (adminId : Option String) (pharmacyId : String) : Reply × AccountStore :=
  if pharmacyId = "" then (.error 400 "pharmacyId is required", s)
  else
    let affectedRows := (s.pharmacy.filter (fun r => r.pharmacy_id = pharmacyId)).length
    let s1 : AccountStore := { s with pharmacy := s.pharmacy.map (fun r =>
      if r.pharmacy_id = pharmacyId then { r with status := "approved" } else r) }
    if affectedRows = 0 then (.error 404 "Pharmacy not found", s1)
    else
      let n1 := createNotification env clock "pharmacy"
        "Your pharmacy account has been approved." "approve_pharmacy_request" "admin"
        [pharmacyId] (s1.notifications, 0)
      let n2 := createNotification env clock "admin"
        ("Pharmacy with ID " ++ pharmacyId ++ " has been approved.")
        "approve_pharmacy_request" "admin" [actingAdmin adminId] n1
      (.pharmacyApproved pharmacyId, { s1 with notifications := n2.1 })

/-- Handler `exports.rejectPharmacy`. -/
def rejectPharmacy (env : Env) (clock : Nat → Nat) (s : AccountStore)
    (adminId : Option String) (pharmacyId : String) : Reply × AccountStore :=
  if pharmacyId = "" then (.error 400 "pharmacyId is required", s)
  else
    let affectedRows := (s.pharmacy.filter (fun r => r.pharmacy_id = pharmacyId)).length
    let s1 : AccountStore := { s with pharmacy := s.pharmacy.map (fun r =>
      if r.pharmacy_id = pharmacyId then { r with status := "rejected" } else r) }
    if affectedRows = 0 then (.error 404 "Pharmacy not found", s1)
    else
      let n1 := createNotification env clock "pharmacy"
        "Your pharmacy account request was rejected." "disapprove_pharmacy_request" "admin"
        [pharmacyId] (s1.notifications, 0)
      let n2 := createNotification env clock "admin"
        ("Pharmacy with ID " ++ pharmacyId ++ " has been rejected.")
        "disapprove_pharmacy_request" "admin" [actingAdmin adminId] n1
      (.pharmacyRejected pharmacyId, { s1 with notifications := n2.1 })

/-- Handler `exports.togglePharmacyActiveStatus`: `is_active` is the body field,
`none` when it is undefined. -/
def togglePharmacyActiveStatus (env : Env) (clock : Nat → Nat) (s : AccountStore)
    (adminId : Option String) (pharmacyId : String) (is_active : Option Bool) :
    Reply × AccountStore :=
  match is_active with
  | none => (.error 400 "pharmacyId and is_active (true/false) are required", s)
  | some b =>
    if pharmacyId = "" then
      (.error 400 "pharmacyId and is_active (true/false) are required", s)
    else
      let affectedRows := (s.pharmacy.filter (fun r => r.pharmacy_id = pharmacyId)).length
      let s1 : AccountStore := { s with pharmacy := s.pharmacy.map (fun r =>
        if r.pharmacy_id = pharmacyId then { r with is_active := b } else r) }
      if affectedRows = 0 then (.error 404 "Pharmacy not found", s1)
      else
        let word := if b then "activated" else "deactivated"
        let kind := if b then "activate_pharmacy" else "deactivate_pharmacy"
        let n1 := createNotification env clock "pharmacy"
          ("Your account has been " ++ word ++ ".") kind "admin" [pharmacyId]
          (s1.notifications, 0)
        let n2 := createNotification env clock "admin"
          ("Pharmacy with ID " ++ pharmacyId ++ " has been " ++ word ++ ".") kind "admin"
          [actingAdmin adminId] n1
        (.activeToggled pharmacyId b, { s1 with notifications := n2.1 })

/-- Left-padding to two digits, `String(month).padStart(2, '0')`. -/
def padStart2 (n : Nat) : String :=
  let d := toString n
  String.mk (List.replicate (2 - d.length) '0') ++ d

/-- The first day of the month `i` months before month `month` (counted from
zero) of `year`, as `new Date(year, month - i, 1)` normalises it: the year and
the month counted from zero.  The arithmetic is that of a year of at least one. -/
def monthsBack (year month i : Nat) : Nat × Nat :=
  ((year * 12 + month - i) / 12, (year * 12 + month - i) % 12)

/-- The key of a month, `YYYY-MM`, as the loop of `getWholesalerGrowth` builds
it. -/
def periodKey (d : Nat × Nat) : String :=
  toString d.1 ++ "-" ++ padStart2 (d.2 + 1)

/-- The zero fill of `exports.getWholesalerGrowth`: `year` and `month` (counted
from zero) are those of `new Date()`, `rows` what the query returned as
`(period, count)`. -/
def getWholesalerGrowth (year month : Nat) (rows : List (String × Nat)) :
    List (String × Nat) :=
  (List.range 12).map (fun j =>
    let key := periodKey (monthsBack year month (11 - j))
    match rows.find? (fun r => r.1 = key) with
    | some r => (key, r.2)
    | none => (key, 0))

end adminController

/-- The row the copy in productController.js inserts at its `k`-th insertion. -/
def productController.newRow (env : Env) (recipientRole message type triggerRole : String)
    (k : Nat) (recipientId : String) : Notification :=
  { notification_id := generateProductId env.year (env.rand k),
    recipient_id := recipientId, recipient_role := recipientRole,
    message := message, type := type, trigger_role := triggerRole,
    created_at := none, is_read := none }

/-- What a lifecycle call on `requestId` may do to a row: nothing when the row
has another id, and in any case nothing to the identity columns. -/
def keptBy (requestId : String) (a b : Request) : Prop :=
  (a.request_id ≠ requestId → b = a) ∧ b.request_id = a.request_id ∧
    b.product_name = a.product_name ∧ b.quantity = a.quantity ∧
    b.pharmacy_id = a.pharmacy_id ∧ b.wholesaler_id = a.wholesaler_id ∧
    b.request_datetime = a.request_datetime

/-- The columns of a notification that every copy of the helper fills from its
arguments. -/
def Notification.core (n : Notification) : String × String × String × String × String :=
  (n.recipient_id, n.recipient_role, n.message, n.type, n.trigger_role)

/-! ## Sequences of calls -/

/-- One call of the request workflow, with the environment it runs in. -/
inductive Call where
  | createRequest (env : Env) (pharmacyId product_name : Option String)
      (quantity : Option Int) (wholesaler_id : Option String)
  | approveRequest (env : Env) (wholesalerId : Option String) (requestId : String)
  | rejectRequest (env : Env) (wholesalerId : Option String) (requestId : String)
  | cancelRequest (wholesalerId : Option String) (requestId : String)

/-- The store after one call. -/
def step (s : Store) : Call → Store
  | .createRequest env p n q w => (requestController.createRequest env s p n q w).2
  | .approveRequest env w r => (requestController.approveRequest env s w r).2
  | .rejectRequest env w r => (requestController.rejectRequest env s w r).2
  | .cancelRequest w r => (requestController.cancelRequest s w r).2

/-- The store after a sequence of calls, oldest first. -/
def run (s : Store) (cs : List Call) : Store :=
  cs.foldl step s

/-- Whether a response is a failure. -/
def Response.isError : Response → Bool
  | .error _ _ => true
  | _ => false

/-- The `(request_id, total_amount)` column pair of table `request`, in row order. -/
def amounts (s : Store) : List (String × Int) :=
  s.request.map (fun r => (r.request_id, r.total_amount))

/-! ## Sample data

The end-to-end scenario of the specification: wholesaler `WHL-1` sells
Amoxicillin at 2.00, pharmacy `PH-1` asks for 10 units. -/

/-- A sample environment: year 2025, the `k`-th random draw is `7 + k`. -/
def sampleEnv : Env :=
  { year := 2025, today := 20000, now := 1700000000, rand := fun k => 7 + k }

/-- A later environment with other random draws. -/
def laterEnv : Env :=
  { year := 2025, today := 20001, now := 1700086400, rand := fun k => 48879 + k }

/-- The catalogue row of the scenario. -/
def amoxicillin : Product :=
  { product_id := "PROD-2025-00001", name := "Amoxicillin", description := "capsules",
    price := 200, quantity := 500, expire_date := "2027-01-01", wholesaler_id := "WHL-1" }

/-- A store with one product and no request yet. -/
def emptyStore : Store :=
  { request := [], notifications := [], products := [amoxicillin], pharmacy_inventory := [] }

/-- The request of the scenario right after its creation. -/
def pendingRow : Request :=
  { request_id := "REQ-2025-0007", product_name := "Amoxicillin", quantity := 10,
    total_amount := 2000, order_date := 20000, request_datetime := 1700000000,
    status := "Pending", pharmacy_id := "PH-1", wholesaler_id := "WHL-1", order_id := none,
    approved_datetime := none, notification_sent := none, notification_message := none }

/-- A store holding the pending request of the scenario. -/
def pendingStore : Store :=
  { emptyStore with request := [pendingRow] }

/-- The store after `WHL-1` approved the request of the scenario. -/
def approvedStore : Store :=
  (requestController.approveRequest sampleEnv pendingStore (some "WHL-1") "REQ-2025-0007").2

/-- The request of the scenario as `approvedStore` holds it. -/
def approvedRow : Request :=
  { pendingRow with
    status := "Approved", order_id := some "ORD-2025-0007",
    approved_datetime := some 1700000000, notification_sent := some false,
    notification_message := some
      "Your request for 10 units of Amoxicillin (Total: 20.00) has been approved. Order ID: ORD-2025-0007" }

/-- The store after `WHL-1` rejected the pending request of the scenario. -/
def rejectedStore : Store :=
  (requestController.rejectRequest sampleEnv pendingStore (some "WHL-1") "REQ-2025-0007").2

/-- The request of the scenario as `rejectedStore` holds it. -/
def rejectedRow : Request :=
  { pendingRow with
    status := "Rejected", notification_sent := some false,
    notification_message := some
      "Your request for 10 units of Amoxicillin (Total: 20.00) has been rejected." }

/-- The scenario followed by a second request of `PH-1`, for minus five units. -/
def negativeOrderCalls : List Call :=
  [.createRequest sampleEnv (some "PH-1") (some "Amoxicillin") (some 10) (some "WHL-1"),
   .approveRequest sampleEnv (some "WHL-1") "REQ-2025-0007",
   .createRequest laterEnv (some "PH-1") (some "Amoxicillin") (some (-5)) (some "WHL-1")]

/-- The store the calls of `negativeOrderCalls` lead to from `emptyStore`. -/
def negativeOrderStore : Store :=
  run emptyStore negativeOrderCalls

/-- The pending request of the scenario after the wholesaler deleted the
product. -/
def noProductStore : Store :=
  { pendingStore with products := [] }

/-- The store after `WHL-1` cancelled the approval of the scenario. -/
def canceledStore : Store :=
  (requestController.cancelRequest approvedStore (some "WHL-1") "REQ-2025-0007").2

/-- Sample collaborators: the hash of `pw` is `h(pw)` whatever the salt, and a
credential is accepted when it is `good`. -/
def sampleCollab : Collab :=
  { hash := fun pw _ => "h(" ++ pw ++ ")",
    compare := fun pw h => h = "h(" ++ pw ++ ")",
    verifyIdToken := fun cred =>
      if cred = "good" then some ("new@example.org", some "New Pharmacy") else none,
    randomPassword := fun d => toString d }

/-- An approved and active pharmacy account. -/
def alicePharmacy : Pharmacy :=
  { pharmacy_id := "PHA-2025-00001", name := "Alice Pharmacy", address := "Main St 1",
    phone_No := "0911", username := "alice", password := "h(secret)", status := "approved",
    is_active := true }

/-- An active wholesaler account whose status is `pending`. -/
def pendingWholesaler : Wholesaler :=
  { wholesaler_id := "WHO-2025-00001", name := "Bulk Ltd", address := "Dock 2",
    username := "bulk", password := "h(secret)", status := "pending", is_active := true }

/-- An administrator. -/
def sampleAdmin : Admin :=
  { admin_id := "ADM-1", name := "Root", username := "root", password := "h(admin)",
    email := "root@example.org", role := "admin", status := "active" }

/-- Accounts of the sample: one pharmacy, one wholesaler, one administrator and
no notification. -/
def sampleAccounts : AccountStore :=
  { pharmacy := [alicePharmacy], wholesalers := [pendingWholesaler], admins := [sampleAdmin],
    notifications := [] }

/-- The scenario after the approval, with the price raised to 3.00. -/
def repricedStore : Store :=
  (productController.updateProduct laterEnv approvedStore (some "WHL-1") "PROD-2025-00001"
    "Amoxicillin" "capsules" 300 500 "2027-01-01").2

/-- The scenario after the approval, with the product deleted. -/
def deletedProductStore : Store :=
  { approvedStore with products := [] }

/-- The scenario after the approval, with a second product of the same name
under the same wholesaler. -/
def twinProductStore : Store :=
  { approvedStore with
    products := [amoxicillin, { amoxicillin with product_id := "PROD-2025-00002" }] }

/-- The pending request of the scenario, the wholesaler listing a second
product of the same name. -/
def twinPendingStore : Store :=
  { pendingStore with
    products := [amoxicillin, { amoxicillin with product_id := "PROD-2025-00002" }] }

/-- A store in which `WHL-1` sells Amoxicillin at 0.10 and no request exists. -/
def tenCentStore : Store :=
  { emptyStore with products := [{ amoxicillin with price := 10 }] }

/-- The scenario up to a rejection that follows the approval. -/
def approveThenReject : List Call :=
  [.createRequest sampleEnv (some "PH-1") (some "Amoxicillin") (some 10) (some "WHL-1"),
   .approveRequest sampleEnv (some "WHL-1") "REQ-2025-0007",
   .rejectRequest sampleEnv (some "WHL-1") "REQ-2025-0007"]

/-! ## Lemmas on the query primitives -/

open requestController

theorem map_ite_of_filter_nil {α : Type} (p : α → Bool) (f : α → α) (l : List α)
    (h : (l.filter p).length = 0) : l.map (fun r => if p r then f r else r) = l := by
  induction l with
  | nil => rfl
  | cons a t ih =>
    by_cases hp : p a
    · simp [List.filter, hp] at h
    · simp only [List.filter, hp] at h
      simp [hp, ih h]

theorem filter_ownedBy_nil (rs : List Request) (requestId w : String)
    (h : ∀ r ∈ rs, r.request_id = requestId → r.wholesaler_id ≠ w) :
    (rs.filter (ownedBy requestId w)).length = 0 := by
  rw [List.length_eq_zero, List.filter_eq_nil_iff]
  intro r hr
  simp only [ownedBy, Bool.and_eq_true, decide_eq_true_eq, not_and]
  exact h r hr

theorem selectRequest_map (rs : List Request) (requestId : String) (g : Request → Request)
    (hg : ∀ r, (g r).request_id = r.request_id) :
    selectRequest (rs.map g) requestId = (selectRequest rs requestId).map g := by
  unfold selectRequest
  rw [List.filter_map]
  congr 2
  funext r
  simp [Function.comp, hg]

theorem selectRequest_cons_of_head (rs : List Request) (requestId : String) (r : Request)
    (h : (selectRequest rs requestId).head? = some r) :
    ∃ tl, selectRequest rs requestId = r :: tl := by
  cases hq : selectRequest rs requestId with
  | nil => rw [hq] at h; simp at h
  | cons a tl =>
    rw [hq] at h
    simp only [List.head?_cons, Option.some.injEq] at h
    exact ⟨tl, by rw [h]⟩

theorem request_id_of_head (rs : List Request) (requestId : String) (r : Request)
    (h : (selectRequest rs requestId).head? = some r) : r.request_id = requestId := by
  obtain ⟨tl, htl⟩ := selectRequest_cons_of_head rs requestId r h
  have hmem : r ∈ selectRequest rs requestId := by rw [htl]; exact List.mem_cons_self _ _
  unfold selectRequest at hmem
  simpa using (List.mem_filter.mp hmem).2

theorem mem_of_head (rs : List Request) (requestId : String) (r : Request)
    (h : (selectRequest rs requestId).head? = some r) : r ∈ rs := by
  obtain ⟨tl, htl⟩ := selectRequest_cons_of_head rs requestId r h
  have hmem : r ∈ selectRequest rs requestId := by rw [htl]; exact List.mem_cons_self _ _
  unfold selectRequest at hmem
  exact (List.mem_filter.mp hmem).1

theorem owned_filter_pos (rs : List Request) (requestId w : String) (r : Request)
    (h : (selectRequest rs requestId).head? = some r) (ho : r.wholesaler_id = w) :
    (rs.filter (ownedBy requestId w)).length ≠ 0 := by
  have hid := request_id_of_head rs requestId r h
  have hmem : r ∈ rs.filter (ownedBy requestId w) := by
    rw [List.mem_filter]
    exact ⟨mem_of_head rs requestId r h, by simp [ownedBy, hid, ho]⟩
  intro h0
  rw [List.length_eq_zero] at h0
  rw [h0] at hmem
  exact absurd hmem (List.not_mem_nil _)

/-! ## The lifecycle handlers on a request of the acting wholesaler -/

theorem approveRequest_owned (env : Env) (s : Store) (w requestId : String) (r : Request)
    (hw : w ≠ "") (h : (selectRequest s.request requestId).head? = some r)
    (ho : r.wholesaler_id = w) :
    (approveRequest env s (some w) requestId).1 =
        .approved requestId (generateId "ORD" env.year (env.rand 0)) r.total_amount ∧
    (approveRequest env s (some w) requestId).2.request = s.request.map (fun x =>
        if ownedBy requestId w x then
          { x with status := "Approved",
                   order_id := some (generateId "ORD" env.year (env.rand 0)),
                   approved_datetime := some env.now, notification_sent := some false,
                   notification_message := some (approvedPharmacyMessage r.quantity
                     r.product_name r.total_amount (generateId "ORD" env.year (env.rand 0))) }
        else x) ∧
    (approveRequest env s (some w) requestId).2.pharmacy_inventory =
      (match selectProduct s.products r.product_name w with
       | [] => s.pharmacy_inventory
       | prod :: _ => upsertInventory s.pharmacy_inventory r.pharmacy_id prod.product_id
           r.quantity env.now) ∧
    (approveRequest env s (some w) requestId).2.products = s.products := by
  obtain ⟨tl, htl⟩ := selectRequest_cons_of_head _ _ _ h
  have hpos := owned_filter_pos _ _ w _ h ho
  unfold approveRequest
  simp only [hw, if_false, htl, hpos]
  cases hp : selectProduct s.products r.product_name w <;> simp

theorem rejectRequest_owned (env : Env) (s : Store) (w requestId : String) (r : Request)
    (hw : w ≠ "") (h : (selectRequest s.request requestId).head? = some r)
    (ho : r.wholesaler_id = w) :
    (rejectRequest env s (some w) requestId).1 = .rejected requestId r.total_amount ∧
    (rejectRequest env s (some w) requestId).2.request = s.request.map (fun x =>
        if ownedBy requestId w x then
          { x with status := "Rejected", notification_sent := some false,
                   notification_message := some (rejectedPharmacyMessage r.quantity
                     r.product_name r.total_amount) }
        else x) ∧
    (rejectRequest env s (some w) requestId).2.pharmacy_inventory = s.pharmacy_inventory := by
  obtain ⟨tl, htl⟩ := selectRequest_cons_of_head _ _ _ h
  have hpos := owned_filter_pos _ _ w _ h ho
  unfold rejectRequest
  simp only [hw, if_false, htl, hpos]
  simp

theorem cancelRequest_owned (s : Store) (w requestId : String) (r : Request)
    (hw : w ≠ "") (h : (selectRequest s.request requestId).head? = some r)
    (ho : r.wholesaler_id = w) :
    (cancelRequest s (some w) requestId).1 = .canceled requestId r.total_amount ∧
    (cancelRequest s (some w) requestId).2.request = s.request.map (fun x =>
        if ownedBy requestId w x then
          { x with status := "Pending", order_id := none, approved_datetime := none,
                   notification_sent := some false, notification_message := none }
        else x) := by
  obtain ⟨tl, htl⟩ := selectRequest_cons_of_head _ _ _ h
  have hpos := owned_filter_pos _ _ w _ h ho
  unfold cancelRequest
  simp only [hw, if_false, htl, hpos]
  simp

theorem head_selectRequest_map (rs : List Request) (requestId w : String) (r : Request)
    (g : Request → Request) (hg : ∀ x, (g x).request_id = x.request_id)
    (h : (selectRequest rs requestId).head? = some r) (ho : r.wholesaler_id = w) :
    (selectRequest (rs.map (fun x => if ownedBy requestId w x then g x else x))
      requestId).head? = some (g r) := by
  obtain ⟨tl, htl⟩ := selectRequest_cons_of_head _ _ _ h
  have hid := request_id_of_head _ _ _ h
  rw [selectRequest_map _ _ _ (by intro x; split; exact hg x; rfl), htl]
  simp [ownedBy, hid, ho]


/-! ## Claims on the request lifecycle -/

/-- C2: approve, reject and cancel by wholesaler `w` on an id that no request
has, or whose request belongs to another wholesaler, answer 404 and leave the
whole store (request, notifications, products, pharmacy_inventory) as it was. -/
theorem foreign_or_absent_request_not_found (env : Env) (s : Store) (w requestId : String)
    (hw : w ≠ "")
    (h : ∀ r ∈ s.request, r.request_id = requestId → r.wholesaler_id ≠ w) :
    ((∃ m, (approveRequest env s (some w) requestId).1 = .error 404 m) ∧
      (approveRequest env s (some w) requestId).2 = s) ∧
    ((∃ m, (rejectRequest env s (some w) requestId).1 = .error 404 m) ∧
      (rejectRequest env s (some w) requestId).2 = s) ∧
    ((∃ m, (cancelRequest s (some w) requestId).1 = .error 404 m) ∧
      (cancelRequest s (some w) requestId).2 = s) := by
  have h0 := filter_ownedBy_nil s.request requestId w h
  refine ⟨?_, ?_, ?_⟩
  · unfold approveRequest
    simp only [hw, if_false]
    split
    · exact ⟨⟨_, rfl⟩, rfl⟩
    · simp only [h0, if_true]
      refine ⟨⟨_, rfl⟩, ?_⟩
      rw [map_ite_of_filter_nil _ _ _ h0]
  · unfold rejectRequest
    simp only [hw, if_false]
    split
    · exact ⟨⟨_, rfl⟩, rfl⟩
    · simp only [h0, if_true]
      refine ⟨⟨_, rfl⟩, ?_⟩
      rw [map_ite_of_filter_nil _ _ _ h0]
  · unfold cancelRequest
    simp only [hw, if_false]
    split
    · exact ⟨⟨_, rfl⟩, rfl⟩
    · simp only [h0, if_true]
      refine ⟨⟨_, rfl⟩, ?_⟩
      rw [map_ite_of_filter_nil _ _ _ h0]

/-- C2 at a concrete input: wholesaler `WHL-2` acts on the pending request of
`WHL-1`. -/
theorem foreign_or_absent_request_not_found_witness :
    ((∃ m, (approveRequest sampleEnv pendingStore (some "WHL-2") "REQ-2025-0007").1 =
        .error 404 m) ∧
      (approveRequest sampleEnv pendingStore (some "WHL-2") "REQ-2025-0007").2 =
        pendingStore) ∧
    ((∃ m, (rejectRequest sampleEnv pendingStore (some "WHL-2") "REQ-2025-0007").1 =
        .error 404 m) ∧
      (rejectRequest sampleEnv pendingStore (some "WHL-2") "REQ-2025-0007").2 =
        pendingStore) ∧
    ((∃ m, (cancelRequest pendingStore (some "WHL-2") "REQ-2025-0007").1 = .error 404 m) ∧
      (cancelRequest pendingStore (some "WHL-2") "REQ-2025-0007").2 = pendingStore) :=
  foreign_or_absent_request_not_found sampleEnv pendingStore "WHL-2" "REQ-2025-0007"
    (by decide) (by decide)

/-- C5: approving a request of the acting wholesaler succeeds; the row is left
`Approved`, with the order id that the response returns, an approval time,
`notification_sent` false and the approval message for the pharmacy, which is
built from the row's quantity, product name and total amount and ends with that
order id. -/
theorem approveRequest_sets_order (env : Env) (s : Store) (w requestId : String)
    (r : Request) (hw : w ≠ "")
    (h : (selectRequest s.request requestId).head? = some r) (ho : r.wholesaler_id = w) :
    ∃ orderId : String,
      (approveRequest env s (some w) requestId).1 =
        .approved requestId orderId r.total_amount ∧
      (selectRequest (approveRequest env s (some w) requestId).2.request requestId).head? =
        some { r with
          status := "Approved", order_id := some orderId,
          approved_datetime := some env.now, notification_sent := some false,
          notification_message := some
            ("Your request for " ++ toString r.quantity ++ " units of " ++ r.product_name ++
              " (Total: " ++ showAmount r.total_amount ++
              ") has been approved. Order ID: " ++ orderId) } := by
  obtain ⟨h1, h2, -, -⟩ := approveRequest_owned env s w requestId r hw h ho
  refine ⟨generateId "ORD" env.year (env.rand 0), h1, ?_⟩
  rw [h2]
  exact head_selectRequest_map s.request requestId w r _ (fun _ => rfl) h ho

/-- C5 at a concrete input: `WHL-1` approves the pending request of the
scenario. -/
theorem approveRequest_sets_order_witness :
    ∃ orderId : String,
      (approveRequest sampleEnv pendingStore (some "WHL-1") "REQ-2025-0007").1 =
        .approved "REQ-2025-0007" orderId pendingRow.total_amount ∧
      (selectRequest (approveRequest sampleEnv pendingStore (some "WHL-1")
          "REQ-2025-0007").2.request "REQ-2025-0007").head? =
        some { pendingRow with
          status := "Approved", order_id := some orderId,
          approved_datetime := some sampleEnv.now, notification_sent := some false,
          notification_message := some
            ("Your request for " ++ toString pendingRow.quantity ++ " units of " ++
              pendingRow.product_name ++ " (Total: " ++ showAmount pendingRow.total_amount ++
              ") has been approved. Order ID: " ++ orderId) } :=
  approveRequest_sets_order sampleEnv pendingStore "WHL-1" "REQ-2025-0007" pendingRow
    (by decide) (by decide) (by decide)

/-- C8: cancelling a request of the acting wholesaler, whatever its status,
succeeds, returns the stored total amount and leaves the row `Pending` with
`order_id`, `approved_datetime` and `notification_message` null and
`notification_sent` false. -/
theorem cancelRequest_resets_row (s : Store) (w requestId : String) (r : Request)
    (hw : w ≠ "")
    (h : (selectRequest s.request requestId).head? = some r) (ho : r.wholesaler_id = w) :
    (cancelRequest s (some w) requestId).1 = .canceled requestId r.total_amount ∧
    (selectRequest (cancelRequest s (some w) requestId).2.request requestId).head? =
      some { r with status := "Pending", order_id := none, approved_datetime := none,
                    notification_sent := some false, notification_message := none } := by
  obtain ⟨h1, h2⟩ := cancelRequest_owned s w requestId r hw h ho
  refine ⟨h1, ?_⟩
  rw [h2]
  exact head_selectRequest_map s.request requestId w r _ (fun _ => rfl) h ho

/-- C8 at a concrete input: `WHL-1` cancels the pending request of the scenario. -/
theorem cancelRequest_resets_row_witness :
    (cancelRequest pendingStore (some "WHL-1") "REQ-2025-0007").1 =
      .canceled "REQ-2025-0007" pendingRow.total_amount ∧
    (selectRequest (cancelRequest pendingStore (some "WHL-1") "REQ-2025-0007").2.request
        "REQ-2025-0007").head? =
      some { pendingRow with status := "Pending", order_id := none,
                             approved_datetime := none, notification_sent := some false,
                             notification_message := none } :=
  cancelRequest_resets_row pendingStore "WHL-1" "REQ-2025-0007" pendingRow
    (by decide) (by decide) (by decide)

/-- C9: no call of cancelRequest, successful or not, changes table
`pharmacy_inventory`; in particular what an approval accrued is still there
after the cancellation that follows it. -/
theorem cancelRequest_keeps_inventory (env : Env) (s : Store) (w w' : Option String)
    (requestId requestId' : String) :
    (cancelRequest s w requestId).2.pharmacy_inventory = s.pharmacy_inventory ∧
    (cancelRequest (approveRequest env s w' requestId').2 w requestId).2.pharmacy_inventory =
      (approveRequest env s w' requestId').2.pharmacy_inventory := by
  have key : ∀ (t : Store) (v : Option String) (i : String),
      (cancelRequest t v i).2.pharmacy_inventory = t.pharmacy_inventory := by
    intro t v i
    unfold cancelRequest
    split
    · rfl
    · split
      · rfl
      · split
        · rfl
        · dsimp only
          split <;> rfl
  exact ⟨key _ _ _, key _ _ _⟩

/-- C10: rejecting a request of the acting wholesaler succeeds; the row is left
`Rejected` with `notification_sent` false and the rejection message for the
pharmacy, and table `pharmacy_inventory` is as before. -/
theorem rejectRequest_sets_rejected (env : Env) (s : Store) (w requestId : String)
    (r : Request) (hw : w ≠ "")
    (h : (selectRequest s.request requestId).head? = some r) (ho : r.wholesaler_id = w) :
    (rejectRequest env s (some w) requestId).1 = .rejected requestId r.total_amount ∧
    (selectRequest (rejectRequest env s (some w) requestId).2.request requestId).head? =
      some { r with
        status := "Rejected", notification_sent := some false,
        notification_message := some
          ("Your request for " ++ toString r.quantity ++ " units of " ++ r.product_name ++
            " (Total: " ++ showAmount r.total_amount ++ ") has been rejected.") } ∧
    (rejectRequest env s (some w) requestId).2.pharmacy_inventory = s.pharmacy_inventory := by
  obtain ⟨h1, h2, h3⟩ := rejectRequest_owned env s w requestId r hw h ho
  refine ⟨h1, ?_, h3⟩
  rw [h2]
  exact head_selectRequest_map s.request requestId w r _ (fun _ => rfl) h ho

/-- C10 at a concrete input: `WHL-1` rejects the pending request of the
scenario. -/
theorem rejectRequest_sets_rejected_witness :
    (rejectRequest sampleEnv pendingStore (some "WHL-1") "REQ-2025-0007").1 =
      .rejected "REQ-2025-0007" pendingRow.total_amount ∧
    (selectRequest (rejectRequest sampleEnv pendingStore (some "WHL-1")
        "REQ-2025-0007").2.request "REQ-2025-0007").head? =
      some { pendingRow with
        status := "Rejected", notification_sent := some false,
        notification_message := some
          ("Your request for " ++ toString pendingRow.quantity ++ " units of " ++
            pendingRow.product_name ++ " (Total: " ++ showAmount pendingRow.total_amount ++
            ") has been rejected.") } ∧
    (rejectRequest sampleEnv pendingStore (some "WHL-1") "REQ-2025-0007").2.pharmacy_inventory =
      pendingStore.pharmacy_inventory :=
  rejectRequest_sets_rejected sampleEnv pendingStore "WHL-1" "REQ-2025-0007" pendingRow
    (by decide) (by decide) (by decide)

/-! ## Lemmas on inventory, amounts and creation -/

theorem inventoryQty_upsert (inv : List InventoryRow) (p d : String) (q : Int) (now : Nat) :
    inventoryQty (upsertInventory inv p d q now) p d =
      some (match inventoryQty inv p d with
            | none => q
            | some q0 => q0 + q) := by
  unfold upsertInventory inventoryQty
  by_cases hany : inv.any (invKey p d) = true
  · simp only [hany, if_true]
    rw [List.find?_map]
    have hcomp : (invKey p d ∘ fun r =>
        if invKey p d r = true then
          { r with quantity := r.quantity + q, last_updated := some now }
        else r) = invKey p d := by
      funext r
      by_cases hr : invKey p d r = true
      · simp only [Function.comp, hr, if_true]
        simpa [invKey] using hr
      · simp [Function.comp, hr]
    rw [hcomp]
    cases hf : inv.find? (invKey p d) with
    | none =>
      rw [List.find?_eq_none] at hf
      rw [List.any_eq_true] at hany
      obtain ⟨x, hx, hk⟩ := hany
      exact absurd hk (hf x hx)
    | some x =>
      have hk := List.find?_some hf
      simp [hk]
  · simp only [hany]
    have hnone : inv.find? (invKey p d) = none := by
      rw [List.find?_eq_none]
      intro x hx hk
      exact hany (List.any_eq_true.mpr ⟨x, hx, hk⟩)
    simp [List.find?_append, hnone, invKey]

theorem map_update_others (inv : List InventoryRow) (p d : String) (q : Int) (now : Nat) :
    (inv.map (fun r =>
        if invKey p d r then { r with quantity := r.quantity + q, last_updated := some now }
        else r)).filter (fun r => !invKey p d r) =
      inv.filter (fun r => !invKey p d r) := by
  induction inv with
  | nil => rfl
  | cons a t ih =>
    by_cases ha : invKey p d a = true
    · have ha' : invKey p d
          { a with quantity := a.quantity + q, last_updated := some now } = true := by
        simpa [invKey] using ha
      simp only [List.map_cons, ha, if_true, List.filter_cons, ha', Bool.not_true]
      exact ih
    · simp only [List.map_cons, ha, List.filter_cons]
      simp only [Bool.not_eq_true] at ha
      simp only [ha, Bool.not_false, if_true, Bool.false_eq_true, if_false]
      rw [ih]

theorem upsertInventory_others (inv : List InventoryRow) (p d : String) (q : Int) (now : Nat) :
    (upsertInventory inv p d q now).filter (fun r => !invKey p d r) =
      inv.filter (fun r => !invKey p d r) := by
  unfold upsertInventory
  split
  · exact map_update_others inv p d q now
  · simp [List.filter_append, invKey]

theorem amounts_map_ite (rs : List Request) (c : Request → Bool) (g : Request → Request)
    (hid : ∀ r, (g r).request_id = r.request_id)
    (hta : ∀ r, (g r).total_amount = r.total_amount) :
    (rs.map (fun r => if c r then g r else r)).map (fun r => (r.request_id, r.total_amount)) =
      rs.map (fun r => (r.request_id, r.total_amount)) := by
  rw [List.map_map]
  apply List.map_congr_left
  intro r _
  by_cases hc : c r = true <;> simp [Function.comp, hc, hid, hta]

theorem amounts_approveRequest (env : Env) (s : Store) (w : Option String) (requestId : String) :
    amounts (approveRequest env s w requestId).2 = amounts s := by
  unfold approveRequest amounts
  split
  · rfl
  · split
    · rfl
    · split
      · rfl
      · dsimp only
        split
        · exact amounts_map_ite _ _ _ (fun _ => rfl) (fun _ => rfl)
        · split <;> exact amounts_map_ite _ _ _ (fun _ => rfl) (fun _ => rfl)

theorem amounts_rejectRequest (env : Env) (s : Store) (w : Option String) (requestId : String) :
    amounts (rejectRequest env s w requestId).2 = amounts s := by
  unfold rejectRequest amounts
  split
  · rfl
  · split
    · rfl
    · split
      · rfl
      · dsimp only
        split <;> exact amounts_map_ite _ _ _ (fun _ => rfl) (fun _ => rfl)

theorem amounts_cancelRequest (s : Store) (w : Option String) (requestId : String) :
    amounts (cancelRequest s w requestId).2 = amounts s := by
  unfold cancelRequest amounts
  split
  · rfl
  · split
    · rfl
    · split
      · rfl
      · dsimp only
        split <;> exact amounts_map_ite _ _ _ (fun _ => rfl) (fun _ => rfl)

theorem request_createRequest (env : Env) (s : Store) (p n : Option String) (q : Option Int)
    (w : Option String) :
    (createRequest env s p n q w).2.request = s.request ∨
    ∃ row, (createRequest env s p n q w).2.request = s.request ++ [row] := by
  unfold createRequest
  split
  · exact Or.inl rfl
  · split
    · exact Or.inl rfl
    · split
      · split
        · exact Or.inl rfl
        · split
          · exact Or.inl rfl
          · exact Or.inr ⟨_, rfl⟩
      · exact Or.inl rfl

theorem request_updateProduct (env : Env) (s : Store) (w : Option String) (product_id : String)
    (name description : String) (price quantity : Int) (expire_date : String) :
    (productController.updateProduct env s w product_id name description price quantity
      expire_date).2.request = s.request := by
  unfold productController.updateProduct
  split
  · rfl
  · dsimp only
    split <;> rfl

theorem head_take_one {α : Type} (l : List α) (a : α) (tl : List α)
    (h : l.take 1 = a :: tl) : l.head? = some a := by
  cases l with
  | nil => simp at h
  | cons b t =>
    simp only [List.take_succ_cons, List.cons.injEq] at h
    simp [h.1]

set_option maxRecDepth 4000 in
/-- Known doubles: 1, 0.1, 0.3, the integers `2 ^ 53` and `2 ^ 53 + 1`, the
second of which rounds to the first, its even neighbour, and the products
`0.1 * 3` and `2 * 10`. -/
theorem dbl_known_values :
    Dbl.ofInt 1 = ⟨false, 4503599627370496, -52⟩ ∧
    Dbl.ofHundredths 10 = ⟨false, 7205759403792794, -56⟩ ∧
    Dbl.ofHundredths 30 = ⟨false, 5404319552844595, -54⟩ ∧
    Dbl.ofInt 9007199254740992 = ⟨false, 4503599627370496, 1⟩ ∧
    Dbl.ofInt 9007199254740993 = ⟨false, 4503599627370496, 1⟩ ∧
    Dbl.mul (Dbl.ofHundredths 10) (Dbl.ofInt 3) = ⟨false, 5404319552844596, -54⟩ ∧
    Dbl.mul (Dbl.ofHundredths 200) (Dbl.ofInt 10) = ⟨false, 5629499534213120, -48⟩ ∧
    Dbl.ofInt 20 = ⟨false, 5629499534213120, -48⟩ := by
  decide

/-! ## Claims on creation, amounts and accrual -/

set_option maxRecDepth 4000 in
/-- C3, refuted: at price 0.10 and quantity 3 the row stores 0.30, while the
response returns the double `0.1 * 3`, which is 0.30000000000000004
(`5404319552844596 * 2 ^ (-54)`) and not the number 0.3 that the stored amount
reads as (`5404319552844595 * 2 ^ (-54)`). -/
theorem created_total_differs_from_stored :
    (createRequest sampleEnv tenCentStore (some "PH-1") (some "Amoxicillin") (some 3)
        (some "WHL-1")).1 =
      .created "REQ-2025-0007" "PH-1" "WHL-1" "Amoxicillin" 3
        ⟨false, 5404319552844596, -54⟩ ∧
    (createRequest sampleEnv tenCentStore (some "PH-1") (some "Amoxicillin") (some 3)
        (some "WHL-1")).2.request.map (fun r => (r.request_id, r.total_amount)) =
      [("REQ-2025-0007", 30)] ∧
    Dbl.ofHundredths 30 = ⟨false, 5404319552844595, -54⟩ ∧
    (createRequest sampleEnv tenCentStore (some "PH-1") (some "Amoxicillin") (some 3)
        (some "WHL-1")).1 ≠
      .created "REQ-2025-0007" "PH-1" "WHL-1" "Amoxicillin" 3 (Dbl.ofHundredths 30) := by
  decide

/-- C3, amended: a createRequest that does not fail was called by a pharmacy `p`
with a product name, an integer quantity and a wholesaler id for which the
product lookup finds a row; it appends exactly one row to table `request`,
`Pending`, with `p`, the given wholesaler, name and quantity, and with
`total_amount` the price of that product row times the quantity; the response
returns the product of that price and the quantity as JavaScript computes it in
double precision. -/
theorem createRequest_persists_pending (env : Env) (s : Store)
    (pharmacyId product_name : Option String) (quantity : Option Int)
    (wholesaler_id : Option String)
    (hok : (createRequest env s pharmacyId product_name quantity wholesaler_id).1.isError =
      false) :
    ∃ (p n w : String) (q : Int) (prod : Product) (requestId : String),
      pharmacyId = some p ∧ product_name = some n ∧ quantity = some q ∧
      wholesaler_id = some w ∧
      (selectProduct s.products n w).head? = some prod ∧
      (createRequest env s pharmacyId product_name quantity wholesaler_id).1 =
        .created requestId p w n q (Dbl.mul (Dbl.ofHundredths prod.price) (Dbl.ofInt q)) ∧
      (createRequest env s pharmacyId product_name quantity wholesaler_id).2.request =
        s.request ++
          [{ request_id := requestId, product_name := n, quantity := q,
             total_amount := prod.price * q, order_date := env.today,
             request_datetime := env.now, status := "Pending", pharmacy_id := p,
             wholesaler_id := w, order_id := none, approved_datetime := none,
             notification_sent := none, notification_message := none }] := by
  unfold createRequest at hok ⊢
  cases pharmacyId with
  | none => simp [Response.isError] at hok
  | some p =>
    by_cases hp : p = ""
    · simp [hp, Response.isError] at hok
    · cases product_name with
      | none => simp [hp, Response.isError] at hok
      | some n =>
        cases quantity with
        | none => simp [hp, Response.isError] at hok
        | some q =>
          cases wholesaler_id with
          | none => simp [hp, Response.isError] at hok
          | some w =>
            by_cases hv : n = "" ∨ q = 0 ∨ w = ""
            · simp [hp, hv, Response.isError] at hok
            · cases hsel : (selectProduct s.products n w).take 1 with
              | nil => simp [hp, hv, hsel, Response.isError] at hok
              | cons prod tl =>
                refine ⟨p, n, w, q, prod, generateId "REQ" env.year (env.rand 0),
                  rfl, rfl, rfl, rfl, head_take_one _ _ _ hsel, ?_, ?_⟩
                · simp only [hp, hv, hsel, if_false]
                · simp only [hp, hv, hsel, if_false]

set_option maxRecDepth 4000 in
/-- C3, amended, at the concrete input of the specification: price 2.00 and
quantity 10 store a total of 20.00 and return the number 20. -/
theorem createRequest_persists_pending_witness :
    (createRequest sampleEnv emptyStore (some "PH-1") (some "Amoxicillin") (some 10)
        (some "WHL-1")).1 =
      .created "REQ-2025-0007" "PH-1" "WHL-1" "Amoxicillin" 10 (Dbl.ofInt 20) ∧
    (createRequest sampleEnv emptyStore (some "PH-1") (some "Amoxicillin") (some 10)
        (some "WHL-1")).2.request = [pendingRow] ∧
    ∃ (p n w : String) (q : Int) (prod : Product) (requestId : String),
      some "PH-1" = some p ∧ some "Amoxicillin" = some n ∧ some (10 : Int) = some q ∧
      some "WHL-1" = some w ∧
      (selectProduct emptyStore.products n w).head? = some prod ∧
      (createRequest sampleEnv emptyStore (some "PH-1") (some "Amoxicillin") (some 10)
          (some "WHL-1")).1 =
        .created requestId p w n q (Dbl.mul (Dbl.ofHundredths prod.price) (Dbl.ofInt q)) ∧
      (createRequest sampleEnv emptyStore (some "PH-1") (some "Amoxicillin") (some 10)
          (some "WHL-1")).2.request =
        emptyStore.request ++
          [{ request_id := requestId, product_name := n, quantity := q,
             total_amount := prod.price * q, order_date := sampleEnv.today,
             request_datetime := sampleEnv.now, status := "Pending", pharmacy_id := p,
             wholesaler_id := w, order_id := none, approved_datetime := none,
             notification_sent := none, notification_message := none }] :=
  ⟨by decide, by decide,
   createRequest_persists_pending sampleEnv emptyStore (some "PH-1") (some "Amoxicillin")
     (some 10) (some "WHL-1") (by decide)⟩

/-- C4: no call changes the `total_amount` of a request that exists: after
createRequest, approveRequest, rejectRequest or cancelRequest the rows present
before keep, in place, their `request_id` and `total_amount` (a creation only
appends), and updateProduct, price change included, leaves table `request` as
it was. -/
theorem total_amount_never_recomputed (s : Store) :
    (∀ c : Call, amounts s <+: amounts (step s c)) ∧
    (∀ (env : Env) (w : Option String) (product_id name description : String)
        (price quantity : Int) (expire_date : String),
      (productController.updateProduct env s w product_id name description price quantity
        expire_date).2.request = s.request) := by
  refine ⟨fun c => ?_, fun env w product_id name description price quantity expire_date =>
    request_updateProduct env s w product_id name description price quantity expire_date⟩
  cases c with
  | createRequest env p n q w =>
    rcases request_createRequest env s p n q w with h | ⟨row, h⟩
    · simp only [step, amounts, h]
      exact List.prefix_refl _
    · simp only [step, amounts, h, List.map_append]
      exact List.prefix_append _ _
  | approveRequest env w r =>
    simp only [step, amounts_approveRequest]
    exact List.prefix_refl _
  | rejectRequest env w r =>
    simp only [step, amounts_rejectRequest]
    exact List.prefix_refl _
  | cancelRequest w r =>
    simp only [step, amounts_cancelRequest]
    exact List.prefix_refl _

/-- C6, refuted: `WHL-1` lists two products named Amoxicillin; approving the
request of the scenario succeeds and accrues the 10 units under the first
product id only, so for the second product row, which has the name and the
wholesaler of the request as well, `PH-1` still has no inventory row, and the
row of another key, that of the first id, has changed. -/
theorem second_product_row_not_accrued :
    (selectProduct twinPendingStore.products "Amoxicillin" "WHL-1").map
        (fun p => p.product_id) = ["PROD-2025-00001", "PROD-2025-00002"] ∧
    (selectRequest twinPendingStore.request "REQ-2025-0007").head? = some pendingRow ∧
    (approveRequest sampleEnv twinPendingStore (some "WHL-1") "REQ-2025-0007").1 =
      .approved "REQ-2025-0007" "ORD-2025-0007" 2000 ∧
    inventoryQty twinPendingStore.pharmacy_inventory "PH-1" "PROD-2025-00002" = none ∧
    inventoryQty (approveRequest sampleEnv twinPendingStore (some "WHL-1")
        "REQ-2025-0007").2.pharmacy_inventory "PH-1" "PROD-2025-00002" = none ∧
    (approveRequest sampleEnv twinPendingStore (some "WHL-1")
        "REQ-2025-0007").2.pharmacy_inventory.filter
        (fun x => !invKey "PH-1" "PROD-2025-00002" x) ≠
      twinPendingStore.pharmacy_inventory.filter
        (fun x => !invKey "PH-1" "PROD-2025-00002" x) := by
  decide

/-- C6, amended: when wholesaler `w` approves its request `r` and the product
lookup by `(r.product_name, w)` returns the row `prod` first, the approval
succeeds and the quantity of `(r.pharmacy_id, prod.product_id)` in
`pharmacy_inventory` is `r.quantity` if there was no such row and the former
quantity plus `r.quantity` if there was one; the rows of every other key are
unchanged. -/
theorem approveRequest_accrues_inventory (env : Env) (s : Store) (w requestId : String)
    (r : Request) (prod : Product) (hw : w ≠ "")
    (h : (selectRequest s.request requestId).head? = some r) (ho : r.wholesaler_id = w)
    (hp : (selectProduct s.products r.product_name w).head? = some prod) :
    (approveRequest env s (some w) requestId).1.isError = false ∧
    inventoryQty (approveRequest env s (some w) requestId).2.pharmacy_inventory
        r.pharmacy_id prod.product_id =
      some (match inventoryQty s.pharmacy_inventory r.pharmacy_id prod.product_id with
            | none => r.quantity
            | some q0 => q0 + r.quantity) ∧
    (approveRequest env s (some w) requestId).2.pharmacy_inventory.filter
        (fun x => !invKey r.pharmacy_id prod.product_id x) =
      s.pharmacy_inventory.filter (fun x => !invKey r.pharmacy_id prod.product_id x) := by
  obtain ⟨h1, -, h3, -⟩ := approveRequest_owned env s w requestId r hw h ho
  cases hsel : selectProduct s.products r.product_name w with
  | nil => rw [hsel] at hp; simp at hp
  | cons a tl =>
    rw [hsel] at hp h3
    simp only [List.head?_cons, Option.some.injEq] at hp
    subst hp
    simp only at h3
    rw [h1, h3]
    exact ⟨rfl, inventoryQty_upsert _ _ _ _ _, upsertInventory_others _ _ _ _ _⟩

/-- C6, amended, at a concrete input: approving the pending request of the scenario gives
`PH-1` its first 10 units of the product. -/
theorem approveRequest_accrues_inventory_witness :
    inventoryQty pendingStore.pharmacy_inventory "PH-1" "PROD-2025-00001" = none ∧
    inventoryQty approvedStore.pharmacy_inventory "PH-1" "PROD-2025-00001" = some 10 ∧
    ((approveRequest sampleEnv pendingStore (some "WHL-1") "REQ-2025-0007").1.isError =
        false ∧
      inventoryQty (approveRequest sampleEnv pendingStore (some "WHL-1")
          "REQ-2025-0007").2.pharmacy_inventory pendingRow.pharmacy_id
          amoxicillin.product_id =
        some (match inventoryQty pendingStore.pharmacy_inventory pendingRow.pharmacy_id
                amoxicillin.product_id with
              | none => pendingRow.quantity
              | some q0 => q0 + pendingRow.quantity) ∧
      (approveRequest sampleEnv pendingStore (some "WHL-1")
          "REQ-2025-0007").2.pharmacy_inventory.filter
          (fun x => !invKey pendingRow.pharmacy_id amoxicillin.product_id x) =
        pendingStore.pharmacy_inventory.filter
          (fun x => !invKey pendingRow.pharmacy_id amoxicillin.product_id x)) :=
  ⟨by decide, by decide,
   approveRequest_accrues_inventory sampleEnv pendingStore "WHL-1" "REQ-2025-0007"
     pendingRow amoxicillin (by decide) (by decide) (by decide) (by decide)⟩

/-! ## Order ids along runs -/

theorem inv_map_ite (rs : List Request) (c : Request → Bool) (g : Request → Request)
    (hg : ∀ x, (g x).status = "Approved" → (g x).order_id ≠ none)
    (h : ∀ r ∈ rs, r.status = "Approved" → r.order_id ≠ none) :
    ∀ r ∈ rs.map (fun x => if c x then g x else x),
      r.status = "Approved" → r.order_id ≠ none := by
  intro r hr
  rw [List.mem_map] at hr
  obtain ⟨x, hx, rfl⟩ := hr
  by_cases hc : c x = true
  · simp only [hc, if_true]
    exact hg x
  · simp only [hc]
    exact h x hx

theorem inv_step (s : Store) (c : Call)
    (h : ∀ r ∈ s.request, r.status = "Approved" → r.order_id ≠ none) :
    ∀ r ∈ (step s c).request, r.status = "Approved" → r.order_id ≠ none := by
  cases c with
  | createRequest env p n q w =>
    simp only [step]
    unfold createRequest
    split
    · exact h
    · split
      · exact h
      · split
        · split
          · exact h
          · split
            · exact h
            · intro r hr hst
              rw [List.mem_append, List.mem_singleton] at hr
              rcases hr with hr | hr
              · exact h r hr hst
              · subst hr
                simp at hst
        · exact h
  | approveRequest env w i =>
    simp only [step]
    unfold approveRequest
    split
    · exact h
    · split
      · exact h
      · split
        · exact h
        · dsimp only
          split
          · exact inv_map_ite _ _ _ (fun _ _ => by simp) h
          · split <;> exact inv_map_ite _ _ _ (fun _ _ => by simp) h
  | rejectRequest env w i =>
    simp only [step]
    unfold rejectRequest
    split
    · exact h
    · split
      · exact h
      · split
        · exact h
        · dsimp only
          split <;> exact inv_map_ite _ _ _ (fun _ hx => by simp at hx) h
  | cancelRequest w i =>
    simp only [step]
    unfold cancelRequest
    split
    · exact h
    · split
      · exact h
      · split
        · exact h
        · dsimp only
          split <;> exact inv_map_ite _ _ _ (fun _ hx => by simp at hx) h

theorem inv_run (cs : List Call) (s : Store)
    (h : ∀ r ∈ s.request, r.status = "Approved" → r.order_id ≠ none) :
    ∀ r ∈ (run s cs).request, r.status = "Approved" → r.order_id ≠ none := by
  induction cs generalizing s with
  | nil => exact h
  | cons c t ih => exact ih (step s c) (inv_step s c h)

/-- Along every run of calls from an empty request table an `Approved` row
carries an order id: the half of the order-id invariant that every handler
keeps. -/
theorem approved_rows_have_order_id (s : Store) (cs : List Call) (h0 : s.request = []) :
    ∀ r ∈ (run s cs).request, r.status = "Approved" → r.order_id ≠ none :=
  inv_run cs s (by rw [h0]; intro r hr; exact absurd hr (List.not_mem_nil _))

/-- C1: the order-id invariant breaks on create, approve, reject: rejectRequest
sets the status to `Rejected` and leaves the order id that the approval wrote,
so the run ends with a row that has an order id and is not `Approved`. -/
theorem reject_after_approve_keeps_order_id :
    emptyStore.request = [] ∧
    (run emptyStore approveThenReject).request.map
        (fun r => (r.request_id, r.status, r.order_id)) =
      [("REQ-2025-0007", "Rejected", some "ORD-2025-0007")] := by
  decide

/-- C7, refuted: approving the approved request of the scenario a second time is
not rejected and is not a no-op; it returns success, replaces the order id and
raises the pharmacy's quantity from 10 to 20. -/
theorem reapproval_not_noop :
    (approvedStore.request.map (fun r => (r.request_id, r.wholesaler_id, r.status, r.order_id)) =
      [("REQ-2025-0007", "WHL-1", "Approved", some "ORD-2025-0007")]) ∧
    inventoryQty approvedStore.pharmacy_inventory "PH-1" "PROD-2025-00001" = some 10 ∧
    (approveRequest laterEnv approvedStore (some "WHL-1") "REQ-2025-0007").1 =
      .approved "REQ-2025-0007" "ORD-2025-BEEF" 2000 ∧
    ((approveRequest laterEnv approvedStore (some "WHL-1") "REQ-2025-0007").2.request.map
        (fun r => (r.request_id, r.status, r.order_id)) =
      [("REQ-2025-0007", "Approved", some "ORD-2025-BEEF")]) ∧
    inventoryQty (approveRequest laterEnv approvedStore (some "WHL-1")
      "REQ-2025-0007").2.pharmacy_inventory "PH-1" "PROD-2025-00001" = some 20 ∧
    ¬ ((approveRequest laterEnv approvedStore (some "WHL-1") "REQ-2025-0007").1.isError = true ∨
       ((approveRequest laterEnv approvedStore (some "WHL-1") "REQ-2025-0007").2.request =
          approvedStore.request ∧
        (approveRequest laterEnv approvedStore (some "WHL-1")
          "REQ-2025-0007").2.pharmacy_inventory = approvedStore.pharmacy_inventory)) := by
  decide

/-- C7, amended: approving a request of the acting wholesaler that is already
`Approved` succeeds again; the row stays `Approved` and takes the newly
generated order id, the new approval time and message, and when the product
lookup returns `prod` the quantity of the request is accrued once more (added
to the row of `(r.pharmacy_id, prod.product_id)`, or inserted when absent). -/
theorem reapproval_accrues_again (env : Env) (s : Store) (w requestId : String)
    (r : Request) (prod : Product) (hw : w ≠ "")
    (h : (selectRequest s.request requestId).head? = some r) (ho : r.wholesaler_id = w)
    (hst : r.status = "Approved")
    (hp : (selectProduct s.products r.product_name w).head? = some prod) :
    (approveRequest env s (some w) requestId).1 =
      .approved requestId (generateId "ORD" env.year (env.rand 0)) r.total_amount ∧
    (selectRequest (approveRequest env s (some w) requestId).2.request requestId).head? =
      some { r with
        order_id := some (generateId "ORD" env.year (env.rand 0)),
        approved_datetime := some env.now, notification_sent := some false,
        notification_message := some (approvedPharmacyMessage r.quantity r.product_name
          r.total_amount (generateId "ORD" env.year (env.rand 0))) } ∧
    inventoryQty (approveRequest env s (some w) requestId).2.pharmacy_inventory
        r.pharmacy_id prod.product_id =
      some (match inventoryQty s.pharmacy_inventory r.pharmacy_id prod.product_id with
            | none => r.quantity
            | some q0 => q0 + r.quantity) := by
  obtain ⟨h1, h2, h3, -⟩ := approveRequest_owned env s w requestId r hw h ho
  refine ⟨h1, ?_, ?_⟩
  · have hm := head_selectRequest_map s.request requestId w r
      (fun x => { x with
        status := "Approved", order_id := some (generateId "ORD" env.year (env.rand 0)),
        approved_datetime := some env.now, notification_sent := some false,
        notification_message := some (approvedPharmacyMessage r.quantity r.product_name
          r.total_amount (generateId "ORD" env.year (env.rand 0))) })
      (fun _ => rfl) h ho
    rw [h2, hm, ← hst]
  · cases hsel : selectProduct s.products r.product_name w with
    | nil => rw [hsel] at hp; simp at hp
    | cons a tl =>
      rw [hsel] at hp h3
      simp only [List.head?_cons, Option.some.injEq] at hp
      subst hp
      simp only at h3
      rw [h3]
      exact inventoryQty_upsert _ _ _ _ _

/-- C7, amended, at a concrete input: the second approval in the scenario. -/
theorem reapproval_accrues_again_witness :
    (approveRequest laterEnv approvedStore (some "WHL-1") "REQ-2025-0007").1 =
      .approved "REQ-2025-0007" (generateId "ORD" laterEnv.year (laterEnv.rand 0))
        approvedRow.total_amount ∧
    (selectRequest (approveRequest laterEnv approvedStore (some "WHL-1")
        "REQ-2025-0007").2.request "REQ-2025-0007").head? =
      some { approvedRow with
        order_id := some (generateId "ORD" laterEnv.year (laterEnv.rand 0)),
        approved_datetime := some laterEnv.now, notification_sent := some false,
        notification_message := some (approvedPharmacyMessage approvedRow.quantity
          approvedRow.product_name approvedRow.total_amount
          (generateId "ORD" laterEnv.year (laterEnv.rand 0))) } ∧
    inventoryQty (approveRequest laterEnv approvedStore (some "WHL-1")
        "REQ-2025-0007").2.pharmacy_inventory approvedRow.pharmacy_id
        amoxicillin.product_id =
      some (match inventoryQty approvedStore.pharmacy_inventory approvedRow.pharmacy_id
              amoxicillin.product_id with
            | none => approvedRow.quantity
            | some q0 => q0 + approvedRow.quantity) :=
  reapproval_accrues_again laterEnv approvedStore "WHL-1" "REQ-2025-0007" approvedRow
    amoxicillin (by decide) (by decide) (by decide) (by decide) (by decide)

/-! ## Lemmas on the notification fanout -/

theorem approved_messages_differ (q : Int) (n : String) (t : Int) (o p : String) :
    approvedPharmacyMessage q n t o ≠ approvedWholesalerMessage q n t p := by
  intro h
  have h2 := congrArg String.data h
  simp only [approvedPharmacyMessage, approvedWholesalerMessage, String.data_append] at h2
  simp only [List.append_assoc, List.cons_append, List.cons.injEq, true_and] at h2
  exact absurd h2.1 (by decide)

theorem mem_uniqueIds (l : List String) (x : String) : x ∈ uniqueIds l ↔ x ∈ l := by
  induction l with
  | nil => simp [uniqueIds]
  | cons a t ih =>
    simp only [uniqueIds, List.mem_cons, List.mem_filter, ih]
    by_cases hx : x = a
    · simp [hx]
    · simp [hx]

theorem stored_append (ns ms : List Notification) (id m t g : String) :
    stored (ns ++ ms) id m t g = stored ns id m t g + stored ms id m t g := by
  simp [stored, List.filter_append]

theorem stored_insertIfAbsent (mk : Nat → String → Notification) (m t g : String)
    (hmk : ∀ k id id', sameNotification id' m t g (mk k id) = decide (id' = id))
    (acc : List Notification × Nat) (id id' : String) :
    stored (insertIfAbsent mk m t g acc id).1 id' m t g =
      if id' = id ∧ stored acc.1 id m t g = 0 then 1 else stored acc.1 id' m t g := by
  unfold insertIfAbsent
  by_cases h0 : stored acc.1 id m t g = 0
  · simp only [h0, if_true, and_true]
    have hs : stored [mk acc.2 id] id' m t g = if id' = id then 1 else 0 := by
      by_cases he : id' = id <;> simp [stored, List.filter, hmk, he]
    rw [stored_append, hs]
    by_cases he : id' = id
    · subst he
      simp [h0]
    · simp [he]
  · simp [h0]

theorem stored_foldl (mk : Nat → String → Notification) (m t g : String)
    (hmk : ∀ k id id', sameNotification id' m t g (mk k id) = decide (id' = id))
    (l : List String) (acc : List Notification × Nat) (id' : String) :
    stored (l.foldl (insertIfAbsent mk m t g) acc).1 id' m t g =
      if stored acc.1 id' m t g = 0 ∧ id' ∈ l then 1 else stored acc.1 id' m t g := by
  induction l generalizing acc with
  | nil => simp
  | cons a tl ih =>
    rw [List.foldl_cons, ih, stored_insertIfAbsent mk m t g hmk]
    by_cases he : id' = a
    · subst he
      by_cases h0 : stored acc.1 id' m t g = 0
      · simp [h0]
      · simp [h0]
    · by_cases h0 : stored acc.1 id' m t g = 0
      · simp [h0, he]
      · simp [h0, he]

theorem foldl_insertIfAbsent_of_stored (mk : Nat → String → Notification) (m t g : String)
    (l : List String) (acc : List Notification × Nat)
    (h : ∀ id ∈ l, stored acc.1 id m t g ≠ 0) :
    l.foldl (insertIfAbsent mk m t g) acc = acc := by
  induction l with
  | nil => rfl
  | cons a tl ih =>
    have ha : insertIfAbsent mk m t g acc a = acc := by
      unfold insertIfAbsent
      simp [h a (List.mem_cons_self _ _)]
    rw [List.foldl_cons, ha]
    exact ih (fun id hid => h id (List.mem_cons_of_mem _ hid))

theorem foldl_insertIfAbsent_extends (mk : Nat → String → Notification) (m t g : String)
    (l : List String) (acc : List Notification × Nat) :
    ∃ extra, (l.foldl (insertIfAbsent mk m t g) acc).1 = acc.1 ++ extra ∧
      ∀ n ∈ extra, ∃ k id, id ∈ l ∧ n = mk k id := by
  induction l generalizing acc with
  | nil => exact ⟨[], by simp, by simp⟩
  | cons a tl ih =>
    obtain ⟨extra, he, hn⟩ := ih (insertIfAbsent mk m t g acc a)
    rw [List.foldl_cons, he]
    unfold insertIfAbsent
    by_cases h0 : stored acc.1 a m t g = 0
    · refine ⟨mk acc.2 a :: extra, by simp [h0], ?_⟩
      intro n hmem
      rw [List.mem_cons] at hmem
      rcases hmem with rfl | hmem
      · exact ⟨acc.2, a, List.mem_cons_self _ _, rfl⟩
      · obtain ⟨k, id, hid, hk⟩ := hn n hmem
        exact ⟨k, id, List.mem_cons_of_mem _ hid, hk⟩
    · refine ⟨extra, by simp [h0], ?_⟩
      intro n hmem
      obtain ⟨k, id, hid, hk⟩ := hn n hmem
      exact ⟨k, id, List.mem_cons_of_mem _ hid, hk⟩



theorem foldl_insertIfAbsent_twice (mk mk' : Nat → String → Notification) (m t g : String)
    (hmk : ∀ k id id', sameNotification id' m t g (mk k id) = decide (id' = id))
    (l : List String) (acc : List Notification × Nat) (k' : Nat) :
    l.foldl (insertIfAbsent mk' m t g) ((l.foldl (insertIfAbsent mk m t g) acc).1, k') =
      ((l.foldl (insertIfAbsent mk m t g) acc).1, k') := by
  apply foldl_insertIfAbsent_of_stored
  intro id hid
  show stored (l.foldl (insertIfAbsent mk m t g) acc).1 id m t g ≠ 0
  rw [stored_foldl mk m t g hmk]
  by_cases h0 : stored acc.1 id m t g = 0
  · simp [h0, hid]
  · simp [h0]

theorem stored_foldl_of_absent (mk : Nat → String → Notification) (m t g : String)
    (hmk : ∀ k id id', sameNotification id' m t g (mk k id) = decide (id' = id))
    (l : List String) (acc : List Notification × Nat) (id : String) (hid : id ∈ l)
    (h0 : stored acc.1 id m t g = 0) :
    stored (l.foldl (insertIfAbsent mk m t g) acc).1 id m t g = 1 := by
  rw [stored_foldl mk m t g hmk]
  simp [h0, hid]

theorem delivered_once (mk : Nat → String → Notification) (role m t g : String)
    (hmk : ∀ k id id', sameNotification id' m t g (mk k id) = decide (id' = id))
    (hrole : ∀ k id, (mk k id).recipient_role = role)
    (l : List String) (acc : List Notification × Nat) (id : String) (hid : id ∈ l)
    (h0 : stored acc.1 id m t g = 0) :
    ((l.foldl (insertIfAbsent mk m t g) acc).1.filter (fun n =>
      n.recipient_id = id && n.recipient_role = role && n.message = m && n.type = t &&
        n.trigger_role = g)).length = 1 := by
  obtain ⟨extra, he, hn⟩ := foldl_insertIfAbsent_extends mk m t g l acc
  have h1 := stored_foldl_of_absent mk m t g hmk l acc id hid h0
  rw [he, stored_append, h0, Nat.zero_add] at h1
  rw [he, List.filter_append, List.length_append]
  have hold : (acc.1.filter (fun n =>
      n.recipient_id = id && n.recipient_role = role && n.message = m && n.type = t &&
        n.trigger_role = g)) = [] := by
    rw [List.filter_eq_nil_iff]
    intro n hmem hP
    have hnil : acc.1.filter (sameNotification id m t g) = [] := by
      simpa [stored] using h0
    rw [List.filter_eq_nil_iff] at hnil
    apply hnil n hmem
    simp only [Bool.and_eq_true, decide_eq_true_eq] at hP
    simp [sameNotification, hP.1.1.1.1, hP.1.1.2, hP.1.2, hP.2]
  have hnew : (extra.filter (fun n =>
      n.recipient_id = id && n.recipient_role = role && n.message = m && n.type = t &&
        n.trigger_role = g)) = extra.filter (sameNotification id m t g) := by
    apply List.filter_congr
    intro n hmem
    obtain ⟨k, x, -, rfl⟩ := hn n hmem
    simp [sameNotification, hrole]
  rw [hold, hnew]
  simpa [stored] using h1

theorem request_insert_eq (env : Env) (r m t g : String) :
    requestController.insertNotification env r m t g =
      insertIfAbsent (requestController.newRow env r m t g) m t g := rfl

theorem admin_insert_eq (env : Env) (clock : Nat → Nat) (r m t g : String) :
    adminController.insertNotification env clock r m t g =
      insertIfAbsent (adminController.newRow env clock r m t g) m t g := rfl

theorem pharmacy_insert_eq (env : Env) (clock : Nat → Nat) (r m t g : String) :
    pharmacyController.insertNotification env clock r m t g =
      insertIfAbsent (adminController.newRow env clock r m t g) m t g := rfl

theorem request_newRow_same (env : Env) (r m t g : String) (k : Nat) (id id' : String) :
    sameNotification id' m t g (requestController.newRow env r m t g k id) =
      decide (id' = id) := by
  by_cases h : id = id'
  · subst h; simp [sameNotification, requestController.newRow]
  · have h' : ¬ id' = id := fun e => h e.symm
    simp [sameNotification, requestController.newRow, h, h']

theorem admin_newRow_same (env : Env) (clock : Nat → Nat) (r m t g : String) (k : Nat)
    (id id' : String) :
    sameNotification id' m t g (adminController.newRow env clock r m t g k id) =
      decide (id' = id) := by
  by_cases h : id = id'
  · subst h; simp [sameNotification, adminController.newRow]
  · have h' : ¬ id' = id := fun e => h e.symm
    simp [sameNotification, adminController.newRow, h, h']

theorem request_createNotification_eq (env : Env) (r m t g : String) (ids : List String)
    (acc : List Notification × Nat) :
    requestController.createNotification env r m t g ids acc =
      (uniqueIds ids).foldl (insertIfAbsent (requestController.newRow env r m t g) m t g)
        acc := by
  unfold requestController.createNotification
  rw [request_insert_eq]
  cases ids with
  | nil => rfl
  | cons a tl => simp

theorem admin_createNotification_eq (env : Env) (clock : Nat → Nat) (r m t g : String)
    (ids : List String) (acc : List Notification × Nat) :
    adminController.createNotification env clock r m t g ids acc =
      ids.foldl (insertIfAbsent (adminController.newRow env clock r m t g) m t g) acc := rfl

theorem pharmacy_createNotification_eq (env : Env) (clock : Nat → Nat) (r m t g : String)
    (ids : List String) (acc : List Notification × Nat) :
    pharmacyController.createNotification env clock r m t g ids acc =
      ids.foldl (insertIfAbsent (adminController.newRow env clock r m t g) m t g) acc := rfl

/-! ## Claims on the notification fanout -/

/-- C16: calling createNotification a second time with the same arguments, right
after the first call, leaves the table as the first call left it, and a
recipient for whom the duplicate check found nothing before the first call has
exactly one matching row afterwards; this holds for the copy in
requestController.js and for the copy in adminController.js. -/
theorem createNotification_idempotent (env env' : Env) (clock clock' : Nat → Nat)
    (role m t g : String) (ids : List String) (ns : List Notification) (k k' : Nat) :
    ((requestController.createNotification env' role m t g ids
          ((requestController.createNotification env role m t g ids (ns, k)).1, k')).1 =
        (requestController.createNotification env role m t g ids (ns, k)).1 ∧
      ∀ id ∈ ids, stored ns id m t g = 0 →
        stored (requestController.createNotification env role m t g ids (ns, k)).1
          id m t g = 1) ∧
    ((adminController.createNotification env' clock' role m t g ids
          ((adminController.createNotification env clock role m t g ids (ns, k)).1, k')).1 =
        (adminController.createNotification env clock role m t g ids (ns, k)).1 ∧
      ∀ id ∈ ids, stored ns id m t g = 0 →
        stored (adminController.createNotification env clock role m t g ids (ns, k)).1
          id m t g = 1) := by
  refine ⟨⟨?_, ?_⟩, ⟨?_, ?_⟩⟩
  · rw [request_createNotification_eq, request_createNotification_eq,
      foldl_insertIfAbsent_twice _ _ m t g (request_newRow_same env role m t g)]
  · intro id hid h0
    rw [request_createNotification_eq]
    exact stored_foldl_of_absent _ m t g (request_newRow_same env role m t g) _ _ id
      ((mem_uniqueIds ids id).mpr hid) h0
  · rw [admin_createNotification_eq, admin_createNotification_eq,
      foldl_insertIfAbsent_twice _ _ m t g (admin_newRow_same env clock role m t g)]
  · intro id hid h0
    rw [admin_createNotification_eq]
    exact stored_foldl_of_absent _ m t g (admin_newRow_same env clock role m t g) _ _ id
      hid h0

/-- C16 at a concrete input: the new-request notice for `WHL-1`, sent twice to
an empty table. -/
theorem createNotification_idempotent_witness :
    ((requestController.createNotification laterEnv "wholesaler" "New request" "request"
          "pharmacy" ["WHL-1", "WHL-1"]
          ((requestController.createNotification sampleEnv "wholesaler" "New request"
            "request" "pharmacy" ["WHL-1", "WHL-1"] ([], 0)).1, 5)).1 =
        (requestController.createNotification sampleEnv "wholesaler" "New request" "request"
          "pharmacy" ["WHL-1", "WHL-1"] ([], 0)).1 ∧
      ∀ id ∈ ["WHL-1", "WHL-1"], stored [] id "New request" "request" "pharmacy" = 0 →
        stored (requestController.createNotification sampleEnv "wholesaler" "New request"
          "request" "pharmacy" ["WHL-1", "WHL-1"] ([], 0)).1
          id "New request" "request" "pharmacy" = 1) ∧
    ((adminController.createNotification laterEnv (fun k => 1700000001000 + k) "wholesaler"
          "New request" "request" "pharmacy" ["WHL-1", "WHL-1"]
          ((adminController.createNotification sampleEnv (fun k => 1700000000000 + k)
            "wholesaler" "New request" "request" "pharmacy" ["WHL-1", "WHL-1"]
            ([], 0)).1, 5)).1 =
        (adminController.createNotification sampleEnv (fun k => 1700000000000 + k)
          "wholesaler" "New request" "request" "pharmacy" ["WHL-1", "WHL-1"] ([], 0)).1 ∧
      ∀ id ∈ ["WHL-1", "WHL-1"], stored [] id "New request" "request" "pharmacy" = 0 →
        stored (adminController.createNotification sampleEnv (fun k => 1700000000000 + k)
          "wholesaler" "New request" "request" "pharmacy" ["WHL-1", "WHL-1"] ([], 0)).1
          id "New request" "request" "pharmacy" = 1) :=
  createNotification_idempotent sampleEnv laterEnv (fun k => 1700000000000 + k)
    (fun k => 1700000001000 + k) "wholesaler" "New request" "request" "pharmacy"
    ["WHL-1", "WHL-1"] [] 0 5

/-- C17: when the duplicate check finds no row for any listed recipient, then
after createNotification every listed recipient, however often listed, has
exactly one row with its id and the given role, message, type and trigger role,
and the table is the old one followed by rows addressed to listed recipients
only; this holds for the copy in requestController.js and for the copy in
pharmacyController.js. -/
theorem createNotification_delivers_once (env : Env) (clock : Nat → Nat)
    (role m t g : String) (ids : List String) (ns : List Notification) (k : Nat)
    (h : ∀ id ∈ ids, stored ns id m t g = 0) :
    ((∀ id ∈ ids,
        ((requestController.createNotification env role m t g ids (ns, k)).1.filter
          (fun n => n.recipient_id = id && n.recipient_role = role && n.message = m &&
            n.type = t && n.trigger_role = g)).length = 1) ∧
      ∃ extra, (requestController.createNotification env role m t g ids (ns, k)).1 =
          ns ++ extra ∧ ∀ n ∈ extra, n.recipient_id ∈ ids) ∧
    ((∀ id ∈ ids,
        ((pharmacyController.createNotification env clock role m t g ids (ns, k)).1.filter
          (fun n => n.recipient_id = id && n.recipient_role = role && n.message = m &&
            n.type = t && n.trigger_role = g)).length = 1) ∧
      ∃ extra, (pharmacyController.createNotification env clock role m t g ids (ns, k)).1 =
          ns ++ extra ∧ ∀ n ∈ extra, n.recipient_id ∈ ids) := by
  refine ⟨⟨?_, ?_⟩, ⟨?_, ?_⟩⟩
  · intro id hid
    rw [request_createNotification_eq]
    exact delivered_once _ role m t g (request_newRow_same env role m t g) (fun _ _ => rfl)
      _ (ns, k) id ((mem_uniqueIds ids id).mpr hid) (h id hid)
  · rw [request_createNotification_eq]
    obtain ⟨extra, he, hn⟩ := foldl_insertIfAbsent_extends
      (requestController.newRow env role m t g) m t g (uniqueIds ids) (ns, k)
    refine ⟨extra, he, ?_⟩
    intro n hmem
    obtain ⟨j, x, hx, rfl⟩ := hn n hmem
    exact (mem_uniqueIds ids x).mp hx
  · intro id hid
    rw [pharmacy_createNotification_eq]
    exact delivered_once _ role m t g (admin_newRow_same env clock role m t g)
      (fun _ _ => rfl) _ (ns, k) id hid (h id hid)
  · rw [pharmacy_createNotification_eq]
    obtain ⟨extra, he, hn⟩ := foldl_insertIfAbsent_extends
      (adminController.newRow env clock role m t g) m t g ids (ns, k)
    refine ⟨extra, he, ?_⟩
    intro n hmem
    obtain ⟨j, x, hx, rfl⟩ := hn n hmem
    exact hx

/-- C17 at a concrete input: a list that names `PH-1` twice and `PH-2` once,
sent to an empty table. -/
theorem createNotification_delivers_once_witness :
    ((∀ id ∈ ["PH-1", "PH-2", "PH-1"],
        ((requestController.createNotification sampleEnv "pharmacy" "Price changed" "product"
            "wholesaler" ["PH-1", "PH-2", "PH-1"] ([], 0)).1.filter
          (fun n => n.recipient_id = id && n.recipient_role = "pharmacy" &&
            n.message = "Price changed" && n.type = "product" &&
            n.trigger_role = "wholesaler")).length = 1) ∧
      ∃ extra, (requestController.createNotification sampleEnv "pharmacy" "Price changed"
          "product" "wholesaler" ["PH-1", "PH-2", "PH-1"] ([], 0)).1 =
          [] ++ extra ∧ ∀ n ∈ extra, n.recipient_id ∈ ["PH-1", "PH-2", "PH-1"]) ∧
    ((∀ id ∈ ["PH-1", "PH-2", "PH-1"],
        ((pharmacyController.createNotification sampleEnv (fun k => 1700000000000 + k)
            "pharmacy" "Price changed" "product" "wholesaler" ["PH-1", "PH-2", "PH-1"]
            ([], 0)).1.filter
          (fun n => n.recipient_id = id && n.recipient_role = "pharmacy" &&
            n.message = "Price changed" && n.type = "product" &&
            n.trigger_role = "wholesaler")).length = 1) ∧
      ∃ extra, (pharmacyController.createNotification sampleEnv (fun k => 1700000000000 + k)
          "pharmacy" "Price changed" "product" "wholesaler" ["PH-1", "PH-2", "PH-1"]
          ([], 0)).1 =
          [] ++ extra ∧ ∀ n ∈ extra, n.recipient_id ∈ ["PH-1", "PH-2", "PH-1"]) :=
  createNotification_delivers_once sampleEnv (fun k => 1700000000000 + k) "pharmacy"
    "Price changed" "product" "wholesaler" ["PH-1", "PH-2", "PH-1"] [] 0 (by decide)

/-- C18: with an empty recipient list createNotification leaves the table as it
was, in each of the four copies of the helper. -/
theorem createNotification_empty_is_noop (env : Env) (clock : Nat → Nat)
    (role m t g : String) (acc : List Notification × Nat) :
    requestController.createNotification env role m t g [] acc = acc ∧
    productController.createNotification env role m t g [] acc = acc ∧
    adminController.createNotification env clock role m t g [] acc = acc ∧
    pharmacyController.createNotification env clock role m t g [] acc = acc :=
  ⟨rfl, rfl, rfl, rfl⟩

/-! ## Shape of the request table after a lifecycle call -/

theorem head_selectRequest_map_ite (rs : List Request) (requestId : String)
    (c : Request → Bool) (g : Request → Request)
    (hg : ∀ x, (g x).request_id = x.request_id) :
    (selectRequest (rs.map (fun x => if c x then g x else x)) requestId).head? =
      ((selectRequest rs requestId).head?).map (fun x => if c x then g x else x) := by
  rw [selectRequest_map _ _ _ (by intro x; split; exact hg x; rfl), List.head?_map]

theorem map_ite_false {α : Type} (g : α → α) (l : List α) :
    l.map (fun x => if (fun _ => false) x = true then g x else x) = l := by
  simp

theorem approveRequest_shape (env : Env) (s : Store) (v : Option String) (id' : String) :
    ∃ (c : Request → Bool) (o : String) (t : Nat) (m : String),
      (approveRequest env s v id').2.request = s.request.map (fun x =>
        if c x then
          { x with status := "Approved", order_id := some o, approved_datetime := some t,
                   notification_sent := some false, notification_message := some m }
        else x) := by
  have hid : ∃ (c : Request → Bool) (o : String) (t : Nat) (m : String),
      s.request = s.request.map (fun x =>
        if c x then
          { x with status := "Approved", order_id := some o, approved_datetime := some t,
                   notification_sent := some false, notification_message := some m }
        else x) :=
    ⟨fun _ => false, "", 0, "", (map_ite_false _ _).symm⟩
  unfold approveRequest
  split
  · exact hid
  · split
    · exact hid
    · split
      · exact hid
      · dsimp only
        split
        · exact ⟨_, _, _, _, rfl⟩
        · split <;> exact ⟨_, _, _, _, rfl⟩

theorem rejectRequest_shape (env : Env) (s : Store) (v : Option String) (id' : String) :
    ∃ (c : Request → Bool) (m : String),
      (rejectRequest env s v id').2.request = s.request.map (fun x =>
        if c x then
          { x with status := "Rejected", notification_sent := some false,
                   notification_message := some m }
        else x) := by
  have hid : ∃ (c : Request → Bool) (m : String),
      s.request = s.request.map (fun x =>
        if c x then
          { x with status := "Rejected", notification_sent := some false,
                   notification_message := some m }
        else x) :=
    ⟨fun _ => false, "", (map_ite_false _ _).symm⟩
  unfold rejectRequest
  split
  · exact hid
  · split
    · exact hid
    · split
      · exact hid
      · dsimp only
        split <;> exact ⟨_, _, rfl⟩

theorem cancelRequest_shape (s : Store) (v : Option String) (id' : String) :
    (cancelRequest s v id').2.request = s.request ∨
    ∃ w, v = some w ∧ (cancelRequest s v id').2.request = s.request.map (fun x =>
      if ownedBy id' w x then
        { x with status := "Pending", order_id := none, approved_datetime := none,
                 notification_sent := some false, notification_message := none }
      else x) := by
  unfold cancelRequest
  split
  · exact Or.inl rfl
  · split
    · exact Or.inl rfl
    · split
      · exact Or.inl rfl
      · dsimp only
        split <;> exact Or.inr ⟨_, rfl, rfl⟩

/-! ## Claims on reversal, monotonicity and validation -/

/-- C11, refuted: cancelRequest by the owning wholesaler turns the rejected
request of the scenario back into a `Pending` one. -/
theorem cancel_reverses_rejected :
    rejectedStore.request.map (fun r => (r.request_id, r.wholesaler_id, r.status)) =
      [("REQ-2025-0007", "WHL-1", "Rejected")] ∧
    (cancelRequest rejectedStore (some "WHL-1") "REQ-2025-0007").1 =
      .canceled "REQ-2025-0007" 2000 ∧
    (cancelRequest rejectedStore (some "WHL-1") "REQ-2025-0007").2.request.map
        (fun r => (r.request_id, r.status)) =
      [("REQ-2025-0007", "Pending")] := by
  decide

/-- C11, amended: for a `Rejected` request, approveRequest and rejectRequest by
any caller on any id never leave it `Pending`, and cancelRequest leaves the row
untouched unless it is called on this id by the owning wholesaler; that call
does reset the row to `Pending`, cancel being open to every status. -/
theorem rejected_reversed_only_by_owner_cancel (s : Store) (requestId : String) (r : Request)
    (h : (selectRequest s.request requestId).head? = some r)
    (hst : r.status = "Rejected") :
    (∀ (env : Env) (v : Option String) (id' : String), ∃ r',
      (selectRequest (approveRequest env s v id').2.request requestId).head? = some r' ∧
        r'.status ≠ "Pending") ∧
    (∀ (env : Env) (v : Option String) (id' : String), ∃ r',
      (selectRequest (rejectRequest env s v id').2.request requestId).head? = some r' ∧
        r'.status ≠ "Pending") ∧
    (∀ (v : Option String) (id' : String), id' ≠ requestId ∨ v ≠ some r.wholesaler_id →
      (selectRequest (cancelRequest s v id').2.request requestId).head? = some r) ∧
    (r.wholesaler_id ≠ "" → ∃ r',
      (selectRequest (cancelRequest s (some r.wholesaler_id) requestId).2.request
        requestId).head? = some r' ∧ r'.status = "Pending") := by
  have hid := request_id_of_head _ _ _ h
  refine ⟨?_, ?_, ?_, ?_⟩
  · intro env v id'
    obtain ⟨c, o, t, m, he⟩ := approveRequest_shape env s v id'
    have hm := head_selectRequest_map_ite s.request requestId c
      (fun x => { x with status := "Approved", order_id := some o,
                         approved_datetime := some t, notification_sent := some false,
                         notification_message := some m }) (fun _ => rfl)
    rw [he, hm, h]
    refine ⟨_, rfl, ?_⟩
    by_cases hc : c r = true
    · simp [hc]
    · simp [hc, hst]
  · intro env v id'
    obtain ⟨c, m, he⟩ := rejectRequest_shape env s v id'
    have hm := head_selectRequest_map_ite s.request requestId c
      (fun x => { x with status := "Rejected", notification_sent := some false,
                         notification_message := some m }) (fun _ => rfl)
    rw [he, hm, h]
    refine ⟨_, rfl, ?_⟩
    by_cases hc : c r = true
    · simp [hc]
    · simp [hc, hst]
  · intro v id' hne
    rcases cancelRequest_shape s v id' with he | ⟨w, hv, he⟩
    · rw [he, h]
    · have hm := head_selectRequest_map_ite s.request requestId (ownedBy id' w)
        (fun x => { x with status := "Pending", order_id := none, approved_datetime := none,
                           notification_sent := some false, notification_message := none })
        (fun _ => rfl)
      rw [he, hm, h]
      have hno : ownedBy id' w r = false := by
        rcases hne with h1 | h2
        · have h1' : ¬ requestId = id' := fun e => h1 e.symm
          simp [ownedBy, hid, h1']
        · have : r.wholesaler_id ≠ w := by
            intro e; apply h2; rw [hv, e]
          simp [ownedBy, this]
      simp [hno]
  · intro hw
    obtain ⟨-, h2⟩ := cancelRequest_owned s r.wholesaler_id requestId r hw h rfl
    have hm := head_selectRequest_map_ite s.request requestId (ownedBy requestId r.wholesaler_id)
      (fun x => { x with status := "Pending", order_id := none, approved_datetime := none,
                         notification_sent := some false, notification_message := none })
      (fun _ => rfl)
    rw [h2, hm, h]
    refine ⟨_, rfl, ?_⟩
    simp [ownedBy, hid]

/-- C11, amended, at a concrete input: the rejected request of the scenario. -/
theorem rejected_reversed_only_by_owner_cancel_witness :
    (∀ (env : Env) (v : Option String) (id' : String), ∃ r',
      (selectRequest (approveRequest env rejectedStore v id').2.request
        "REQ-2025-0007").head? = some r' ∧ r'.status ≠ "Pending") ∧
    (∀ (env : Env) (v : Option String) (id' : String), ∃ r',
      (selectRequest (rejectRequest env rejectedStore v id').2.request
        "REQ-2025-0007").head? = some r' ∧ r'.status ≠ "Pending") ∧
    (∀ (v : Option String) (id' : String),
      id' ≠ "REQ-2025-0007" ∨ v ≠ some rejectedRow.wholesaler_id →
      (selectRequest (cancelRequest rejectedStore v id').2.request "REQ-2025-0007").head? =
        some rejectedRow) ∧
    (rejectedRow.wholesaler_id ≠ "" → ∃ r',
      (selectRequest (cancelRequest rejectedStore (some rejectedRow.wholesaler_id)
        "REQ-2025-0007").2.request "REQ-2025-0007").head? = some r' ∧
        r'.status = "Pending") :=
  rejected_reversed_only_by_owner_cancel rejectedStore "REQ-2025-0007" rejectedRow
    (by decide) (by decide)

/-! ## Lemmas on inventory along calls -/

theorem inventoryQty_upsert_other (inv : List InventoryRow) (p d p' d' : String) (q : Int)
    (now : Nat) (hne : ¬ (p' = p ∧ d' = d)) :
    inventoryQty (upsertInventory inv p d q now) p' d' = inventoryQty inv p' d' := by
  unfold upsertInventory inventoryQty
  split
  · rw [List.find?_map]
    have hcomp : (invKey p' d' ∘ fun r =>
        if invKey p d r = true then
          { r with quantity := r.quantity + q, last_updated := some now }
        else r) = invKey p' d' := by
      funext r
      by_cases hr : invKey p d r = true
      · simp only [Function.comp, hr, if_true]
        rfl
      · simp only [Function.comp, hr]
        rfl
    rw [hcomp]
    cases hf : inv.find? (invKey p' d') with
    | none => rfl
    | some x =>
      have hk := List.find?_some hf
      have hno : invKey p d x = false := by
        simp only [invKey, Bool.and_eq_true, decide_eq_true_eq] at hk
        have : ¬ (x.pharmacy_id = p ∧ x.product_id = d) := by
          rintro ⟨e1, e2⟩
          exact hne ⟨by rw [← hk.1, e1], by rw [← hk.2, e2]⟩
        simpa [invKey] using this
      simp [hno]
  · rw [List.find?_append]
    have hnew : List.find? (invKey p' d')
        [{ pharmacy_id := p, product_id := d, quantity := q, last_updated := none }] =
        none := by
      have hk : invKey p' d'
          { pharmacy_id := p, product_id := d, quantity := q, last_updated := none } =
          false := by
        have : ¬ (p = p' ∧ d = d') := fun h => hne ⟨h.1.symm, h.2.symm⟩
        simpa [invKey] using this
      simp [List.find?, hk]
    rw [hnew]
    simp

theorem upsert_keeps_keys (inv : List InventoryRow) (p d : String) (q : Int) (now : Nat) :
    inv.map (fun r => (r.pharmacy_id, r.product_id)) <+:
      (upsertInventory inv p d q now).map (fun r => (r.pharmacy_id, r.product_id)) := by
  unfold upsertInventory
  split
  · rw [List.map_map]
    have : ((fun r : InventoryRow => (r.pharmacy_id, r.product_id)) ∘ fun r =>
        if invKey p d r = true then
          { r with quantity := r.quantity + q, last_updated := some now }
        else r) = fun r => (r.pharmacy_id, r.product_id) := by
      funext r
      by_cases hr : invKey p d r = true <;> simp [Function.comp, hr]
    rw [this]
  · rw [List.map_append]
    exact List.prefix_append _ _

theorem upsert_monotone (inv : List InventoryRow) (p d p' d' : String) (q q0 : Int)
    (now : Nat) (hq : 0 ≤ q) (h0 : inventoryQty inv p' d' = some q0) :
    ∃ q1, inventoryQty (upsertInventory inv p d q now) p' d' = some q1 ∧ q0 ≤ q1 := by
  by_cases he : p' = p ∧ d' = d
  · obtain ⟨rfl, rfl⟩ := he
    rw [inventoryQty_upsert, h0]
    exact ⟨q0 + q, rfl, by omega⟩
  · rw [inventoryQty_upsert_other _ _ _ _ _ _ _ he, h0]
    exact ⟨q0, rfl, le_refl _⟩

theorem approveRequest_inventory_shape (env : Env) (s : Store) (v : Option String)
    (id' : String) :
    (approveRequest env s v id').2.pharmacy_inventory = s.pharmacy_inventory ∨
    ∃ d ∈ s.request, ∃ pid : String,
      (approveRequest env s v id').2.pharmacy_inventory =
        upsertInventory s.pharmacy_inventory d.pharmacy_id pid d.quantity env.now := by
  unfold approveRequest
  split
  · exact Or.inl rfl
  · split
    · exact Or.inl rfl
    · split
      · exact Or.inl rfl
      · rename_i d tl hsel
        have hd : d ∈ s.request := by
          have : d ∈ selectRequest s.request id' := by rw [hsel]; exact List.mem_cons_self _ _
          unfold selectRequest at this
          exact (List.mem_filter.mp this).1
        dsimp only
        split
        · exact Or.inl rfl
        · split
          · exact Or.inl rfl
          · exact Or.inr ⟨d, hd, _, rfl⟩

theorem rejectRequest_inventory (env : Env) (s : Store) (v : Option String) (id' : String) :
    (rejectRequest env s v id').2.pharmacy_inventory = s.pharmacy_inventory := by
  unfold rejectRequest
  split
  · rfl
  · split
    · rfl
    · split
      · rfl
      · dsimp only
        split <;> rfl

theorem cancelRequest_inventory (s : Store) (v : Option String) (id' : String) :
    (cancelRequest s v id').2.pharmacy_inventory = s.pharmacy_inventory := by
  unfold cancelRequest
  split
  · rfl
  · split
    · rfl
    · split
      · rfl
      · dsimp only
        split <;> rfl

theorem createRequest_inventory (env : Env) (s : Store) (p n : Option String)
    (q : Option Int) (w : Option String) :
    (createRequest env s p n q w).2.pharmacy_inventory = s.pharmacy_inventory := by
  unfold createRequest
  split
  · rfl
  · split
    · rfl
    · split
      · split
        · rfl
        · split <;> rfl
      · rfl

/-! ## Claims on monotonicity and validation -/

/-- C12, refuted: after the scenario, `PH-1` asks for minus five units, which
createRequest accepts; approving that request lowers the pharmacy's quantity
from 10 to 5. -/
theorem negative_quantity_lowers_inventory :
    negativeOrderStore.request.map (fun r => (r.request_id, r.quantity, r.status)) =
      [("REQ-2025-0007", 10, "Approved"), ("REQ-2025-BEEF", -5, "Pending")] ∧
    inventoryQty negativeOrderStore.pharmacy_inventory "PH-1" "PROD-2025-00001" = some 10 ∧
    (approveRequest laterEnv negativeOrderStore (some "WHL-1") "REQ-2025-BEEF").1 =
      .approved "REQ-2025-BEEF" "ORD-2025-BEEF" (-1000) ∧
    inventoryQty (step negativeOrderStore
      (.approveRequest laterEnv (some "WHL-1") "REQ-2025-BEEF")).pharmacy_inventory
      "PH-1" "PROD-2025-00001" = some 5 := by
  decide

/-- C12, amended: no call of the request workflow removes a row of
`pharmacy_inventory` or changes a key (the keys before are a prefix of the keys
after), and when every stored request has a quantity of at least zero, every
quantity after the call is at least the quantity before. -/
theorem inventory_never_shrinks (s : Store) (c : Call) :
    (s.pharmacy_inventory.map (fun r => (r.pharmacy_id, r.product_id)) <+:
      (step s c).pharmacy_inventory.map (fun r => (r.pharmacy_id, r.product_id))) ∧
    ((∀ r ∈ s.request, 0 ≤ r.quantity) →
      ∀ (p d : String) (q0 : Int), inventoryQty s.pharmacy_inventory p d = some q0 →
        ∃ q1, inventoryQty (step s c).pharmacy_inventory p d = some q1 ∧ q0 ≤ q1) := by
  cases c with
  | createRequest env p n q w =>
    simp only [step, createRequest_inventory]
    exact ⟨List.prefix_refl _, fun _ p d q0 h => ⟨q0, h, le_refl _⟩⟩
  | rejectRequest env w i =>
    simp only [step, rejectRequest_inventory]
    exact ⟨List.prefix_refl _, fun _ p d q0 h => ⟨q0, h, le_refl _⟩⟩
  | cancelRequest w i =>
    simp only [step, cancelRequest_inventory]
    exact ⟨List.prefix_refl _, fun _ p d q0 h => ⟨q0, h, le_refl _⟩⟩
  | approveRequest env w i =>
    simp only [step]
    rcases approveRequest_inventory_shape env s w i with he | ⟨d, hd, pid, he⟩
    · rw [he]
      exact ⟨List.prefix_refl _, fun _ p d q0 h => ⟨q0, h, le_refl _⟩⟩
    · rw [he]
      exact ⟨upsert_keeps_keys _ _ _ _ _,
        fun hq p' d' q0 h => upsert_monotone _ _ _ _ _ _ _ _ (hq d hd) h⟩

/-- C12, amended, at a concrete input: a second approval on `approvedStore`. -/
theorem inventory_never_shrinks_witness :
    (∀ r ∈ approvedStore.request, 0 ≤ r.quantity) ∧
    (approvedStore.pharmacy_inventory.map (fun r => (r.pharmacy_id, r.product_id)) <+:
      (step approvedStore (.approveRequest laterEnv (some "WHL-1")
        "REQ-2025-0007")).pharmacy_inventory.map (fun r => (r.pharmacy_id, r.product_id))) ∧
    (∀ (p d : String) (q0 : Int),
      inventoryQty approvedStore.pharmacy_inventory p d = some q0 →
        ∃ q1, inventoryQty (step approvedStore (.approveRequest laterEnv (some "WHL-1")
          "REQ-2025-0007")).pharmacy_inventory p d = some q1 ∧ q0 ≤ q1) :=
  ⟨by decide,
   (inventory_never_shrinks approvedStore
     (.approveRequest laterEnv (some "WHL-1") "REQ-2025-0007")).1,
   (inventory_never_shrinks approvedStore
     (.approveRequest laterEnv (some "WHL-1") "REQ-2025-0007")).2 (by decide)⟩

/-- C13: when the wholesaler approves its request and has no product row under
the request's product name, the approval still succeeds, the row is `Approved`
with the order id of the response, and `pharmacy_inventory` is as before. -/
theorem approveRequest_without_product (env : Env) (s : Store) (w requestId : String)
    (r : Request) (hw : w ≠ "")
    (h : (selectRequest s.request requestId).head? = some r) (ho : r.wholesaler_id = w)
    (hp : ∀ pr ∈ s.products, ¬ (pr.name = r.product_name ∧ pr.wholesaler_id = w)) :
    ∃ orderId : String,
      (approveRequest env s (some w) requestId).1 =
        .approved requestId orderId r.total_amount ∧
      (∃ r', (selectRequest (approveRequest env s (some w) requestId).2.request
          requestId).head? = some r' ∧ r'.status = "Approved" ∧
          r'.order_id = some orderId) ∧
      (approveRequest env s (some w) requestId).2.pharmacy_inventory =
        s.pharmacy_inventory := by
  obtain ⟨h1, h2, h3, -⟩ := approveRequest_owned env s w requestId r hw h ho
  have hsel : selectProduct s.products r.product_name w = [] := by
    unfold selectProduct
    rw [List.filter_eq_nil_iff]
    intro pr hpr hk
    apply hp pr hpr
    simpa using hk
  refine ⟨generateId "ORD" env.year (env.rand 0), h1, ?_, ?_⟩
  · have hm := head_selectRequest_map s.request requestId w r
      (fun x => { x with
        status := "Approved", order_id := some (generateId "ORD" env.year (env.rand 0)),
        approved_datetime := some env.now, notification_sent := some false,
        notification_message := some (approvedPharmacyMessage r.quantity r.product_name
          r.total_amount (generateId "ORD" env.year (env.rand 0))) })
      (fun _ => rfl) h ho
    rw [h2, hm]
    exact ⟨_, rfl, rfl, rfl⟩
  · rw [h3, hsel]

/-- C13 at a concrete input: the product of the scenario was deleted before the
approval. -/
theorem approveRequest_without_product_witness :
    ∃ orderId : String,
      (approveRequest sampleEnv noProductStore (some "WHL-1") "REQ-2025-0007").1 =
        .approved "REQ-2025-0007" orderId pendingRow.total_amount ∧
      (∃ r', (selectRequest (approveRequest sampleEnv noProductStore (some "WHL-1")
          "REQ-2025-0007").2.request "REQ-2025-0007").head? = some r' ∧
          r'.status = "Approved" ∧ r'.order_id = some orderId) ∧
      (approveRequest sampleEnv noProductStore (some "WHL-1")
        "REQ-2025-0007").2.pharmacy_inventory = noProductStore.pharmacy_inventory :=
  approveRequest_without_product sampleEnv noProductStore "WHL-1" "REQ-2025-0007" pendingRow
    (by decide) (by decide) (by decide) (by decide)

/-- C14: when no product row has the given name under the given wholesaler,
createRequest fails and returns the store it was given (no request row, no
notification row); a call that passes the pharmacy check and the required-field
check fails with 400 `Product not found for this wholesaler`. -/
theorem createRequest_product_not_found (env : Env) (s : Store)
    (pharmacyId product_name : Option String) (quantity : Option Int)
    (wholesaler_id : Option String)
    (hp : ∀ pr ∈ s.products,
      ¬ (some pr.name = product_name ∧ some pr.wholesaler_id = wholesaler_id)) :
    (createRequest env s pharmacyId product_name quantity wholesaler_id).1.isError = true ∧
    (createRequest env s pharmacyId product_name quantity wholesaler_id).2 = s ∧
    (∀ p n q w, pharmacyId = some p → product_name = some n → quantity = some q →
      wholesaler_id = some w → p ≠ "" → n ≠ "" → q ≠ 0 → w ≠ "" →
      (createRequest env s pharmacyId product_name quantity wholesaler_id).1 =
        .error 400 "Product not found for this wholesaler") := by
  have hsel : ∀ n w, product_name = some n → wholesaler_id = some w →
      selectProduct s.products n w = [] := by
    intro n w hn hw'
    unfold selectProduct
    rw [List.filter_eq_nil_iff]
    intro pr hpr hk
    apply hp pr hpr
    simp only [Bool.and_eq_true, decide_eq_true_eq] at hk
    rw [hn, hw', hk.1, hk.2]
    exact ⟨rfl, rfl⟩
  refine ⟨?_, ?_, ?_⟩
  · unfold createRequest
    split
    · rfl
    · split
      · rfl
      · split
        · rename_i n q w
          split
          · rfl
          · rw [hsel n w rfl rfl]
            rfl
        · rfl
  · unfold createRequest
    split
    · rfl
    · split
      · rfl
      · split
        · rename_i n q w
          split
          · rfl
          · rw [hsel n w rfl rfl]
            rfl
        · rfl
  · intro p n q w hp' hn hq hw' hpe hne hqe hwe
    subst hp' hn hq hw'
    unfold createRequest
    simp [hpe, hne, hqe, hwe, hsel n w rfl rfl]

/-- C14 at a concrete input: `PH-1` asks `WHL-1` for a product it does not
sell. -/
theorem createRequest_product_not_found_witness :
    (createRequest sampleEnv emptyStore (some "PH-1") (some "Ibuprofen") (some 10)
      (some "WHL-1")).1.isError = true ∧
    (createRequest sampleEnv emptyStore (some "PH-1") (some "Ibuprofen") (some 10)
      (some "WHL-1")).2 = emptyStore ∧
    (∀ p n q w, some "PH-1" = some p → some "Ibuprofen" = some n → some (10 : Int) = some q →
      some "WHL-1" = some w → p ≠ "" → n ≠ "" → q ≠ 0 → w ≠ "" →
      (createRequest sampleEnv emptyStore (some "PH-1") (some "Ibuprofen") (some 10)
        (some "WHL-1")).1 = .error 400 "Product not found for this wholesaler") :=
  createRequest_product_not_found sampleEnv emptyStore (some "PH-1") (some "Ibuprofen")
    (some 10) (some "WHL-1") (by decide)

set_option maxRecDepth 4000 in
/-- C15, refuted: createRequest accepts a quantity of minus five and stores the
row. -/
theorem negative_quantity_accepted :
    (createRequest laterEnv approvedStore (some "PH-1") (some "Amoxicillin") (some (-5))
        (some "WHL-1")).1 =
      .created "REQ-2025-BEEF" "PH-1" "WHL-1" "Amoxicillin" (-5) (Dbl.ofInt (-10)) ∧
    (createRequest laterEnv approvedStore (some "PH-1") (some "Amoxicillin") (some (-5))
        (some "WHL-1")).2.request.map (fun r => (r.request_id, r.quantity)) =
      [("REQ-2025-0007", 10), ("REQ-2025-BEEF", -5)] := by
  decide

/-- C15, amended: whatever the store, a createRequest whose quantity is missing
or is the number zero fails and returns the store it was given, with the 400
required-fields message when the caller is a pharmacy. -/
theorem createRequest_rejects_missing_or_zero (env : Env) (s : Store)
    (pharmacyId product_name : Option String) (quantity : Option Int)
    (wholesaler_id : Option String)
    (hq : quantity = none ∨ quantity = some 0) :
    (createRequest env s pharmacyId product_name quantity wholesaler_id).1.isError = true ∧
    (createRequest env s pharmacyId product_name quantity wholesaler_id).2 = s ∧
    (∀ p, pharmacyId = some p → p ≠ "" →
      (createRequest env s pharmacyId product_name quantity wholesaler_id).1 =
        .error 400 "Product name, quantity, and wholesaler ID are required") := by
  unfold createRequest
  rcases hq with rfl | rfl
  · cases pharmacyId with
    | none => simp [Response.isError]
    | some p =>
      by_cases hp : p = ""
      · simp [hp, Response.isError]
      · cases product_name <;> cases wholesaler_id <;> simp [hp, Response.isError]
  · cases pharmacyId with
    | none => simp [Response.isError]
    | some p =>
      by_cases hp : p = ""
      · simp [hp, Response.isError]
      · cases product_name <;> cases wholesaler_id <;> simp [hp, Response.isError]

/-- C15, amended, at a concrete input: `PH-1` asks for zero units while the
approved request of the scenario is in the store. -/
theorem createRequest_rejects_missing_or_zero_witness :
    approvedStore.request = [approvedRow] ∧
    (createRequest laterEnv approvedStore (some "PH-1") (some "Amoxicillin") (some 0)
      (some "WHL-1")).1 =
      .error 400 "Product name, quantity, and wholesaler ID are required" ∧
    ((createRequest laterEnv approvedStore (some "PH-1") (some "Amoxicillin") (some 0)
      (some "WHL-1")).1.isError = true ∧
    (createRequest laterEnv approvedStore (some "PH-1") (some "Amoxicillin") (some 0)
      (some "WHL-1")).2 = approvedStore ∧
    (∀ p, some "PH-1" = some p → p ≠ "" →
      (createRequest laterEnv approvedStore (some "PH-1") (some "Amoxicillin") (some 0)
        (some "WHL-1")).1 =
        .error 400 "Product name, quantity, and wholesaler ID are required")) :=
  ⟨by decide, by decide,
   createRequest_rejects_missing_or_zero laterEnv approvedStore (some "PH-1")
     (some "Amoxicillin") (some 0) (some "WHL-1") (Or.inr rfl)⟩

/-! ## Notifications of an approval -/

theorem request_createNotification_single (env : Env) (r m t g x : String)
    (acc : List Notification × Nat) :
    requestController.createNotification env r m t g [x] acc =
      insertIfAbsent (requestController.newRow env r m t g) m t g acc x := by
  rw [request_createNotification_eq]
  rfl

theorem approveRequest_owned_notifications (env : Env) (s : Store) (w requestId : String)
    (r : Request) (hw : w ≠ "") (h : (selectRequest s.request requestId).head? = some r)
    (ho : r.wholesaler_id = w) :
    (approveRequest env s (some w) requestId).2.notifications =
      (requestController.createNotification env "wholesaler"
        (approvedWholesalerMessage r.quantity r.product_name r.total_amount r.pharmacy_id)
        "requestApproved" "wholesaler" [w]
        (requestController.createNotification env "pharmacy"
          (approvedPharmacyMessage r.quantity r.product_name r.total_amount
            (generateId "ORD" env.year (env.rand 0)))
          "requestApproved" "wholesaler" [r.pharmacy_id] (s.notifications, 1))).1 := by
  obtain ⟨tl, htl⟩ := selectRequest_cons_of_head _ _ _ h
  have hpos := owned_filter_pos _ _ w _ h ho
  unfold approveRequest
  simp only [hw, if_false, htl, hpos]
  cases hp : selectProduct s.products r.product_name w <;> simp

theorem stored_snoc (ns : List Notification) (n : Notification) (id m t g : String) :
    stored (ns ++ [n]) id m t g =
      stored ns id m t g + (if sameNotification id m t g n then 1 else 0) := by
  rw [stored_append]
  by_cases hn : sameNotification id m t g n = true <;> simp [stored, List.filter, hn]

/-- C19, refuted: approving the request of the scenario again after its
cancellation succeeds and adds one notification row, not two; the notice for
the wholesaler carries no order id, so the duplicate check finds the row of the
first approval. -/
theorem reapproval_adds_one_notification :
    canceledStore.notifications.length = 2 ∧
    (approveRequest laterEnv canceledStore (some "WHL-1") "REQ-2025-0007").1 =
      .approved "REQ-2025-0007" "ORD-2025-BEEF" 2000 ∧
    (approveRequest laterEnv canceledStore (some "WHL-1")
      "REQ-2025-0007").2.notifications.length = 3 := by
  decide

/-- C19, amended: a successful approveRequest runs the fanout for the requesting
pharmacy and then for the approving wholesaler, both with type
`requestApproved`; afterwards both notices are stored, the table has grown by
one row for each notice the duplicate check did not find, and when it found
neither the table has grown by exactly the two rows, the pharmacy's first. -/
theorem approveRequest_notifies (env : Env) (s : Store) (w requestId : String)
    (r : Request) (hw : w ≠ "")
    (h : (selectRequest s.request requestId).head? = some r) (ho : r.wholesaler_id = w) :
    0 < stored (approveRequest env s (some w) requestId).2.notifications r.pharmacy_id
      (approvedPharmacyMessage r.quantity r.product_name r.total_amount
        (generateId "ORD" env.year (env.rand 0))) "requestApproved" "wholesaler" ∧
    0 < stored (approveRequest env s (some w) requestId).2.notifications w
      (approvedWholesalerMessage r.quantity r.product_name r.total_amount r.pharmacy_id)
      "requestApproved" "wholesaler" ∧
    (approveRequest env s (some w) requestId).2.notifications.length =
      s.notifications.length +
        (if stored s.notifications r.pharmacy_id
            (approvedPharmacyMessage r.quantity r.product_name r.total_amount
              (generateId "ORD" env.year (env.rand 0))) "requestApproved" "wholesaler" = 0
          then 1 else 0) +
        (if stored s.notifications w
            (approvedWholesalerMessage r.quantity r.product_name r.total_amount
              r.pharmacy_id) "requestApproved" "wholesaler" = 0
          then 1 else 0) ∧
    (stored s.notifications r.pharmacy_id
        (approvedPharmacyMessage r.quantity r.product_name r.total_amount
          (generateId "ORD" env.year (env.rand 0))) "requestApproved" "wholesaler" = 0 →
      stored s.notifications w
        (approvedWholesalerMessage r.quantity r.product_name r.total_amount r.pharmacy_id)
        "requestApproved" "wholesaler" = 0 →
      ∃ n1 n2, (approveRequest env s (some w) requestId).2.notifications =
          s.notifications ++ [n1, n2] ∧
        n1.recipient_id = r.pharmacy_id ∧ n1.recipient_role = "pharmacy" ∧
        n1.type = "requestApproved" ∧
        n2.recipient_id = w ∧ n2.recipient_role = "wholesaler" ∧
        n2.type = "requestApproved") := by
  rw [approveRequest_owned_notifications env s w requestId r hw h ho,
    request_createNotification_single, request_createNotification_single]
  generalize hpm : approvedPharmacyMessage r.quantity r.product_name r.total_amount
    (generateId "ORD" env.year (env.rand 0)) = pm
  generalize hwm : approvedWholesalerMessage r.quantity r.product_name r.total_amount
    r.pharmacy_id = wm
  have hne : pm ≠ wm := by
    rw [← hpm, ← hwm]
    exact approved_messages_differ _ _ _ _ _
  have hrowP : ∀ k, sameNotification w wm "requestApproved" "wholesaler"
      (requestController.newRow env "pharmacy" pm "requestApproved" "wholesaler" k
        r.pharmacy_id) = false := by
    intro k
    simp [sameNotification, requestController.newRow, hne]
  have hrowW : ∀ k, sameNotification r.pharmacy_id pm "requestApproved" "wholesaler"
      (requestController.newRow env "wholesaler" wm "requestApproved" "wholesaler" k w) =
      false := by
    intro k
    have hne' : wm ≠ pm := fun e => hne e.symm
    simp [sameNotification, requestController.newRow, hne']
  have hselfP : ∀ k, sameNotification r.pharmacy_id pm "requestApproved" "wholesaler"
      (requestController.newRow env "pharmacy" pm "requestApproved" "wholesaler" k
        r.pharmacy_id) = true := by
    intro k
    simp [sameNotification, requestController.newRow]
  have hselfW : ∀ k, sameNotification w wm "requestApproved" "wholesaler"
      (requestController.newRow env "wholesaler" wm "requestApproved" "wholesaler" k w) =
      true := by
    intro k
    simp [sameNotification, requestController.newRow]
  by_cases hP : stored s.notifications r.pharmacy_id pm "requestApproved" "wholesaler" = 0
  · by_cases hW : stored s.notifications w wm "requestApproved" "wholesaler" = 0
    · have hW1 : stored (s.notifications ++
          [requestController.newRow env "pharmacy" pm "requestApproved" "wholesaler" 1
            r.pharmacy_id]) w wm "requestApproved" "wholesaler" = 0 := by
        rw [stored_snoc, hW, hrowP]; rfl
      simp only [insertIfAbsent, hP, hW, hW1, if_true]
      refine ⟨?_, ?_, ?_, ?_⟩
      · rw [stored_snoc, stored_snoc, hselfP]; simp
      · rw [stored_snoc, hselfW]; simp
      · simp
      · intro _ _
        exact ⟨requestController.newRow env "pharmacy" pm "requestApproved" "wholesaler" 1
            r.pharmacy_id,
          requestController.newRow env "wholesaler" wm "requestApproved" "wholesaler" 2 w,
          by simp, rfl, rfl, rfl, rfl, rfl, rfl⟩
    · have hW1 : stored (s.notifications ++
          [requestController.newRow env "pharmacy" pm "requestApproved" "wholesaler" 1
            r.pharmacy_id]) w wm "requestApproved" "wholesaler" ≠ 0 := by
        rw [stored_snoc, hrowP]; simpa using hW
      simp only [insertIfAbsent, hP, hW, hW1, if_true, if_false]
      refine ⟨?_, ?_, ?_, ?_⟩
      · rw [stored_snoc, hselfP]; simp
      · exact Nat.pos_of_ne_zero hW1
      · simp
      · intro _ h0
        exact h0.elim
  · by_cases hW : stored s.notifications w wm "requestApproved" "wholesaler" = 0
    · simp only [insertIfAbsent, hP, hW, if_true, if_false]
      refine ⟨?_, ?_, ?_, ?_⟩
      · rw [stored_snoc, hrowW]
        simpa using Nat.pos_of_ne_zero hP
      · rw [stored_snoc, hselfW]; simp
      · simp
      · intro h0
        exact h0.elim
    · simp only [insertIfAbsent, hP, hW, if_false]
      refine ⟨Nat.pos_of_ne_zero hP, Nat.pos_of_ne_zero hW, by simp, ?_⟩
      intro h0
      exact h0.elim

/-- C19, amended, at a concrete input: the first approval of the scenario. -/
theorem approveRequest_notifies_witness :
    0 < stored (approveRequest sampleEnv pendingStore (some "WHL-1")
      "REQ-2025-0007").2.notifications pendingRow.pharmacy_id
      (approvedPharmacyMessage pendingRow.quantity pendingRow.product_name
        pendingRow.total_amount (generateId "ORD" sampleEnv.year (sampleEnv.rand 0)))
      "requestApproved" "wholesaler" ∧
    0 < stored (approveRequest sampleEnv pendingStore (some "WHL-1")
      "REQ-2025-0007").2.notifications "WHL-1"
      (approvedWholesalerMessage pendingRow.quantity pendingRow.product_name
        pendingRow.total_amount pendingRow.pharmacy_id)
      "requestApproved" "wholesaler" ∧
    (approveRequest sampleEnv pendingStore (some "WHL-1")
        "REQ-2025-0007").2.notifications.length =
      pendingStore.notifications.length +
        (if stored pendingStore.notifications pendingRow.pharmacy_id
            (approvedPharmacyMessage pendingRow.quantity pendingRow.product_name
              pendingRow.total_amount (generateId "ORD" sampleEnv.year (sampleEnv.rand 0)))
            "requestApproved" "wholesaler" = 0
          then 1 else 0) +
        (if stored pendingStore.notifications "WHL-1"
            (approvedWholesalerMessage pendingRow.quantity pendingRow.product_name
              pendingRow.total_amount pendingRow.pharmacy_id) "requestApproved"
            "wholesaler" = 0
          then 1 else 0) ∧
    (stored pendingStore.notifications pendingRow.pharmacy_id
        (approvedPharmacyMessage pendingRow.quantity pendingRow.product_name
          pendingRow.total_amount (generateId "ORD" sampleEnv.year (sampleEnv.rand 0)))
        "requestApproved" "wholesaler" = 0 →
      stored pendingStore.notifications "WHL-1"
        (approvedWholesalerMessage pendingRow.quantity pendingRow.product_name
          pendingRow.total_amount pendingRow.pharmacy_id)
        "requestApproved" "wholesaler" = 0 →
      ∃ n1 n2, (approveRequest sampleEnv pendingStore (some "WHL-1")
          "REQ-2025-0007").2.notifications = pendingStore.notifications ++ [n1, n2] ∧
        n1.recipient_id = pendingRow.pharmacy_id ∧ n1.recipient_role = "pharmacy" ∧
        n1.type = "requestApproved" ∧
        n2.recipient_id = "WHL-1" ∧ n2.recipient_role = "wholesaler" ∧
        n2.type = "requestApproved") :=
  approveRequest_notifies sampleEnv pendingStore "WHL-1" "REQ-2025-0007" pendingRow
    (by decide) (by decide) (by decide)

/-! ## Failing queries -/


theorem insertNotificationF_no_failure (env : Env) (r m t g : String) (st : Fanout)
    (id : String) (h : st.thrown = false) :
    (insertNotificationF (fun _ => false) env r m t g st id).thrown = false ∧
    ((insertNotificationF (fun _ => false) env r m t g st id).notifications,
      (insertNotificationF (fun _ => false) env r m t g st id).draws) =
      insertNotification env r m t g (st.notifications, st.draws) id := by
  unfold insertNotificationF insertNotification
  simp only [h, Bool.false_eq_true, if_false]
  split <;> simp [h]

theorem foldl_insertNotificationF_no_failure (env : Env) (r m t g : String)
    (l : List String) (st : Fanout) (h : st.thrown = false) :
    (l.foldl (insertNotificationF (fun _ => false) env r m t g) st).thrown = false ∧
    ((l.foldl (insertNotificationF (fun _ => false) env r m t g) st).notifications,
      (l.foldl (insertNotificationF (fun _ => false) env r m t g) st).draws) =
      l.foldl (insertNotification env r m t g) (st.notifications, st.draws) := by
  induction l generalizing st with
  | nil => exact ⟨h, rfl⟩
  | cons a tl ih =>
    obtain ⟨h1, h2⟩ := insertNotificationF_no_failure env r m t g st a h
    obtain ⟨h3, h4⟩ := ih _ h1
    rw [List.foldl_cons, List.foldl_cons]
    exact ⟨h3, by rw [h4, h2]⟩

theorem createNotificationF_no_failure (env : Env) (r m t g : String)
    (ids : List String) (st : Fanout) (h : st.thrown = false) :
    (createNotificationF (fun _ => false) env r m t g ids st).thrown = false ∧
    ((createNotificationF (fun _ => false) env r m t g ids st).notifications,
      (createNotificationF (fun _ => false) env r m t g ids st).draws) =
      createNotification env r m t g ids (st.notifications, st.draws) := by
  unfold createNotificationF createNotification
  split
  · exact foldl_insertNotificationF_no_failure env r m t g _ st h
  · exact ⟨h, rfl⟩


theorem approveRequestF_no_failure (env : Env) (s : Store) (w : Option String)
    (requestId : String) :
    approveRequestF (fun _ => false) env s w requestId = approveRequest env s w requestId := by
  unfold approveRequestF approveRequest
  cases w with
  | none => rfl
  | some v =>
    by_cases hv : v = ""
    · simp [hv]
    · simp only [hv, if_false, Bool.false_eq_true]
      cases hsel : selectRequest s.request requestId with
      | nil => rfl
      | cons d tl =>
        dsimp only
        by_cases ha : (s.request.filter (ownedBy requestId v)).length = 0
        · simp only [ha, if_true]
        · simp only [ha, if_false]
          obtain ⟨h1, h2⟩ := createNotificationF_no_failure env "pharmacy"
            (approvedPharmacyMessage d.quantity d.product_name d.total_amount
              (generateId "ORD" env.year (env.rand 0)))
            "requestApproved" "wholesaler" [d.pharmacy_id]
            { notifications := s.notifications, draws := 1, queries := 2, thrown := false }
            rfl
          obtain ⟨h3, h4⟩ := createNotificationF_no_failure env "wholesaler"
            (approvedWholesalerMessage d.quantity d.product_name d.total_amount
              d.pharmacy_id)
            "requestApproved" "wholesaler" [v] _ h1
          rw [h2] at h4
          have h5 := congrArg Prod.fst h4
          simp only at h5
          simp only [h3, Bool.false_eq_true, if_false, h5]
          cases selectProduct s.products d.product_name v <;> rfl

theorem rejectRequestF_no_failure (env : Env) (s : Store) (w : Option String)
    (requestId : String) :
    rejectRequestF (fun _ => false) env s w requestId = rejectRequest env s w requestId := by
  unfold rejectRequestF rejectRequest
  cases w with
  | none => rfl
  | some v =>
    by_cases hv : v = ""
    · simp [hv]
    · simp only [hv, if_false, Bool.false_eq_true]
      cases hsel : selectRequest s.request requestId with
      | nil => rfl
      | cons d tl =>
        dsimp only
        by_cases ha : (s.request.filter (ownedBy requestId v)).length = 0
        · simp only [ha, if_true]
        · simp only [ha, if_false]
          obtain ⟨h1, h2⟩ := createNotificationF_no_failure env "pharmacy"
            (rejectedPharmacyMessage d.quantity d.product_name d.total_amount)
            "requestRejected" "wholesaler" [d.pharmacy_id]
            { notifications := s.notifications, draws := 0, queries := 2, thrown := false }
            rfl
          obtain ⟨h3, h4⟩ := createNotificationF_no_failure env "wholesaler"
            (rejectedWholesalerMessage d.quantity d.product_name d.total_amount
              d.pharmacy_id)
            "requestRejected" "wholesaler" [v] _ h1
          rw [h2] at h4
          have h5 := congrArg Prod.fst h4
          simp only at h5
          simp only [h3, Bool.false_eq_true, if_false, h5]

theorem createRequestF_no_failure (env : Env) (s : Store) (p n : Option String)
    (q : Option Int) (w : Option String) :
    createRequestF (fun _ => false) env s p n q w = createRequest env s p n q w := by
  unfold createRequestF createRequest
  cases p with
  | none => rfl
  | some pid =>
    by_cases hp : pid = ""
    · simp [hp]
    · simp only [hp, if_false]
      cases n with
      | none => rfl
      | some name =>
        cases q with
        | none => rfl
        | some qty =>
          cases w with
          | none => rfl
          | some wid =>
            dsimp only
            by_cases hv : name = "" ∨ qty = 0 ∨ wid = ""
            · simp only [hv, if_true]
            · simp only [hv, if_false, Bool.false_eq_true]
              cases hsel : (selectProduct s.products name wid).take 1 with
              | nil => rfl
              | cons prod tl =>
                dsimp only
                obtain ⟨h1, h2⟩ := createNotificationF_no_failure env "wholesaler"
                  ("New request for " ++ toString qty ++ " units of " ++ name)
                  "request" "pharmacy" [wid]
                  { notifications := s.notifications, draws := 1, queries := 2,
                    thrown := false } rfl
                have h5 := congrArg Prod.fst h2
                simp only at h5
                simp only [h1, Bool.false_eq_true, if_false, h5]

/-- The copy of the helper in adminController.js never lets an exception out,
whichever queries fail. -/
theorem admin_createNotificationF_never_throws (fails : Nat → Bool) (env : Env)
    (clock : Nat → Nat) (r m t g : String) (ids : List String) (st : Fanout) :
    (adminController.createNotificationF fails env clock r m t g ids st).thrown = false :=
  rfl

/-- C20: with the first notification query of the call failing (query number 2,
the duplicate check), createRequest, rejectRequest and approveRequest answer
500 `Server error` although the request row is already written, and the
approval leaves `pharmacy_inventory` empty where the undisturbed call accrues
the 10 units: the helper of requestController.js catches nothing. -/
theorem notification_failure_fails_handler :
    (createRequestF (failsAt 2) sampleEnv emptyStore (some "PH-1") (some "Amoxicillin")
        (some 10) (some "WHL-1")).1 = .error 500 "Server error" ∧
    (createRequestF (failsAt 2) sampleEnv emptyStore (some "PH-1") (some "Amoxicillin")
        (some 10) (some "WHL-1")).2.request = [pendingRow] ∧
    (rejectRequestF (failsAt 2) sampleEnv pendingStore (some "WHL-1") "REQ-2025-0007").1 =
      .error 500 "Server error" ∧
    (rejectRequestF (failsAt 2) sampleEnv pendingStore (some "WHL-1")
        "REQ-2025-0007").2.request = [rejectedRow] ∧
    (approveRequestF (failsAt 2) sampleEnv pendingStore (some "WHL-1") "REQ-2025-0007").1 =
      .error 500 "Server error" ∧
    (approveRequestF (failsAt 2) sampleEnv pendingStore (some "WHL-1")
        "REQ-2025-0007").2.request = [approvedRow] ∧
    (approveRequestF (failsAt 2) sampleEnv pendingStore (some "WHL-1")
        "REQ-2025-0007").2.pharmacy_inventory = [] ∧
    (approveRequest sampleEnv pendingStore (some "WHL-1")
        "REQ-2025-0007").2.pharmacy_inventory =
      [{ pharmacy_id := "PH-1", product_id := "PROD-2025-00001", quantity := 10,
         last_updated := none }] := by
  decide

/-! ## Lemmas on the logins and the registration -/

theorem pharmacy_login_token (c : Collab) (s : AccountStore) (uo pwo : Option String)
    (id un : String) (n : Option String)
    (h : pharmacyController.login c s uo pwo = .token id un n) :
    ∃ u pw row, uo = some u ∧ pwo = some pw ∧ u ≠ "" ∧ pw ≠ "" ∧
      (s.pharmacy.filter (fun r => r.username = u)).head? = some row ∧
      c.compare pw row.password = true ∧ row.is_active = true ∧ row.status = "approved" ∧
      row.pharmacy_id = id := by
  unfold pharmacyController.login at h
  cases uo with
  | none => simp at h
  | some u =>
    cases pwo with
    | none => simp at h
    | some pw =>
      by_cases hv : u = "" ∨ pw = ""
      · simp [hv] at h
      · simp only [hv, if_false] at h
        cases hsel : s.pharmacy.filter (fun r => r.username = u) with
        | nil => simp [hsel] at h
        | cons row tl =>
          simp only [hsel] at h
          by_cases hc : c.compare pw row.password = true
          · by_cases ha : row.is_active = true
            · by_cases hs : row.status = "approved"
              · simp [hc, ha, hs] at h
                push_neg at hv
                exact ⟨u, pw, row, rfl, rfl, hv.1, hv.2, by rw [hsel]; rfl, hc, ha, hs, h.1⟩
              · simp [hc, ha, hs] at h
            · simp [hc, ha] at h
          · simp [hc] at h

theorem pharmacy_login_of_row (c : Collab) (s : AccountStore) (u pw : String) (row : Pharmacy)
    (hu : u ≠ "") (hpw : pw ≠ "")
    (hrow : (s.pharmacy.filter (fun r => r.username = u)).head? = some row)
    (hmatch : c.compare pw row.password = true) :
    pharmacyController.login c s (some u) (some pw) =
      if row.is_active = false then
        .error 403 "Your account has been deactivated. Please contact support."
      else if row.status ≠ "approved" then .error 403 "Account pending approval by admin"
      else .token row.pharmacy_id row.username none := by
  unfold pharmacyController.login
  have hv : ¬ (u = "" ∨ pw = "") := by
    rintro (h | h)
    · exact hu h
    · exact hpw h
  cases hsel : s.pharmacy.filter (fun r => r.username = u) with
  | nil => rw [hsel] at hrow; simp at hrow
  | cons a tl =>
    rw [hsel] at hrow
    simp only [List.head?_cons, Option.some.injEq] at hrow
    subst hrow
    simp only [hv, if_false, hsel, hmatch]
    by_cases ha : a.is_active = true
    · by_cases hs : a.status = "approved" <;> simp [ha, hs]
    · simp [ha]

theorem google_login_token (c : Collab) (env : Env) (s : AccountStore)
    (cred : Option String) (id un : String) (n : Option String)
    (h : (pharmacyController.googleLogin c env s cred).1 = .token id un n) :
    (pharmacyController.googleLogin c env s cred).2 = s ∧
    ∃ cr email nm row, cred = some cr ∧ c.verifyIdToken cr = some (email, nm) ∧
      (s.pharmacy.filter (fun r => r.username = email)).head? = some row ∧
      row.is_active = true ∧ row.status = "approved" ∧ row.pharmacy_id = id := by
  cases cred with
  | none => simp [pharmacyController.googleLogin] at h
  | some cr =>
    by_cases hv : cr = ""
    · simp [pharmacyController.googleLogin, hv] at h
    · cases hver : c.verifyIdToken cr with
      | none => simp [pharmacyController.googleLogin, hv, hver] at h
      | some pr =>
        obtain ⟨email, nm⟩ := pr
        cases hsel : s.pharmacy.filter (fun r => r.username = email) with
        | nil => simp [pharmacyController.googleLogin, hv, hver, hsel] at h
        | cons row tl =>
          by_cases ha : row.is_active = true
          · by_cases hs : row.status = "approved"
            · have hid : row.pharmacy_id = id := by
                simp [pharmacyController.googleLogin, hv, hver, hsel, ha, hs] at h
                exact h.1
              refine ⟨?_, cr, email, nm, row, rfl, hver, by rw [hsel]; rfl, ha, hs, hid⟩
              simp [pharmacyController.googleLogin, hv, hver, hsel, ha, hs]
            · simp [pharmacyController.googleLogin, hv, hver, hsel, ha, hs] at h
          · simp [pharmacyController.googleLogin, hv, hver, hsel, ha] at h

theorem wholesaler_login_token (c : Collab) (s : AccountStore) (uo pwo : Option String)
    (id un : String) (n : Option String)
    (h : wholesalerController.login c s uo pwo = .token id un n) :
    ∃ u row, uo = some u ∧
      (s.wholesalers.filter (fun r => r.username = u)).head? = some row ∧
      row.is_active = true ∧ row.wholesaler_id = id := by
  unfold wholesalerController.login at h
  cases uo with
  | none => simp at h
  | some u =>
    cases pwo with
    | none => simp at h
    | some pw =>
      by_cases hv : u = "" ∨ pw = ""
      · simp [hv] at h
      · simp only [hv, if_false] at h
        cases hsel : s.wholesalers.filter (fun r => r.username = u) with
        | nil => simp [hsel] at h
        | cons row tl =>
          simp only [hsel] at h
          by_cases ha : row.is_active = true
          · by_cases hc : c.compare pw row.password = true
            · simp [hc, ha] at h
              exact ⟨u, row, rfl, by rw [hsel]; rfl, ha, h.1⟩
            · simp [hc, ha] at h
          · simp [ha] at h

theorem register_keeps_notifications (c : Collab) (env : Env) (clock : Nat → Nat)
    (s : AccountStore) (n a ph u pw : Option String) :
    (pharmacyController.register c env clock s n a ph u pw).2.notifications =
      s.notifications := by
  unfold pharmacyController.register
  split
  · split
    · rfl
    · split <;> rfl
  · rfl

/-! ## Claims on accounts and manual inventory -/

/-- C21, refuted: the wholesaler login issues a token to an active wholesaler
whose status is `pending`; it never reads the status. -/
theorem pending_wholesaler_gets_token :
    sampleAccounts.wholesalers.map (fun w => (w.username, w.status, w.is_active)) =
      [("bulk", "pending", true)] ∧
    wholesalerController.login sampleCollab sampleAccounts (some "bulk") (some "secret") =
      .token "WHO-2025-00001" "bulk" none := by
  decide

/-- C21, amended: a token from the pharmacy login or from the pharmacy Google
login goes to an account row, present before the call, that is active and
`approved` (a first Google sign-in therefore gets none, and a Google login that
issues a token leaves the store as it was); a token from the wholesaler login
goes to an account row that is active, whatever its status. -/
theorem token_requires_active_account (c : Collab) (env : Env) (s : AccountStore) :
    (∀ (uo pwo : Option String) (id un : String) (n : Option String),
      pharmacyController.login c s uo pwo = .token id un n →
      ∃ u row, uo = some u ∧
        (s.pharmacy.filter (fun r => r.username = u)).head? = some row ∧
        row.is_active = true ∧ row.status = "approved" ∧ row.pharmacy_id = id) ∧
    (∀ (cred : Option String) (id un : String) (n : Option String),
      (pharmacyController.googleLogin c env s cred).1 = .token id un n →
      (pharmacyController.googleLogin c env s cred).2 = s ∧
      ∃ cr email nm row, cred = some cr ∧ c.verifyIdToken cr = some (email, nm) ∧
        (s.pharmacy.filter (fun r => r.username = email)).head? = some row ∧
        row.is_active = true ∧ row.status = "approved" ∧ row.pharmacy_id = id) ∧
    (∀ (uo pwo : Option String) (id un : String) (n : Option String),
      wholesalerController.login c s uo pwo = .token id un n →
      ∃ u row, uo = some u ∧
        (s.wholesalers.filter (fun r => r.username = u)).head? = some row ∧
        row.is_active = true ∧ row.wholesaler_id = id) := by
  refine ⟨?_, ?_, ?_⟩
  · intro uo pwo id un n h
    obtain ⟨u, pw, row, h1, -, -, -, h2, -, h3, h4, h5⟩ :=
      pharmacy_login_token c s uo pwo id un n h
    exact ⟨u, row, h1, h2, h3, h4, h5⟩
  · intro cred id un n h
    exact google_login_token c env s cred id un n h
  · intro uo pwo id un n h
    exact wholesaler_login_token c s uo pwo id un n h

/-- C21, amended, at a concrete input: the login of the approved, active
pharmacy `alice`. -/
theorem token_requires_active_account_witness :
    pharmacyController.login sampleCollab sampleAccounts (some "alice") (some "secret") =
      .token "PHA-2025-00001" "alice" none ∧
    ∃ u row, some "alice" = some u ∧
      (sampleAccounts.pharmacy.filter (fun r => r.username = u)).head? = some row ∧
      row.is_active = true ∧ row.status = "approved" ∧
      row.pharmacy_id = "PHA-2025-00001" :=
  ⟨by decide,
   (token_requires_active_account sampleCollab sampleEnv sampleAccounts).1 (some "alice")
     (some "secret") "PHA-2025-00001" "alice" none (by decide)⟩

/-- C22: for a username that resolves to the row `row` and a password that
`bcrypt.compare` accepts, the pharmacy login answers 403 when the row is not
active, 403 when it is active and its status is not `approved`, and a token
otherwise; in general it returns a token exactly when username and password are
given, the password matches the row of the username, the row is active and its
status is `approved`. -/
theorem pharmacy_login_gate (c : Collab) (s : AccountStore) (u pw : String) (row : Pharmacy)
    (hu : u ≠ "") (hpw : pw ≠ "")
    (hrow : (s.pharmacy.filter (fun r => r.username = u)).head? = some row)
    (hmatch : c.compare pw row.password = true) :
    (row.is_active = false →
      pharmacyController.login c s (some u) (some pw) =
        .error 403 "Your account has been deactivated. Please contact support.") ∧
    (row.is_active = true → row.status ≠ "approved" →
      pharmacyController.login c s (some u) (some pw) =
        .error 403 "Account pending approval by admin") ∧
    (row.is_active = true → row.status = "approved" →
      pharmacyController.login c s (some u) (some pw) =
        .token row.pharmacy_id row.username none) ∧
    (∀ uo pwo : Option String,
      (∃ id un n, pharmacyController.login c s uo pwo = .token id un n) ↔
      ∃ u' pw' row', uo = some u' ∧ pwo = some pw' ∧ u' ≠ "" ∧ pw' ≠ "" ∧
        (s.pharmacy.filter (fun r => r.username = u')).head? = some row' ∧
        c.compare pw' row'.password = true ∧ row'.is_active = true ∧
        row'.status = "approved") := by
  have hlogin := pharmacy_login_of_row c s u pw row hu hpw hrow hmatch
  refine ⟨?_, ?_, ?_, ?_⟩
  · intro ha
    rw [hlogin]
    simp [ha]
  · intro ha hs
    rw [hlogin]
    simp [ha, hs]
  · intro ha hs
    rw [hlogin]
    simp [ha, hs]
  · intro uo pwo
    constructor
    · rintro ⟨id, un, n, h⟩
      obtain ⟨u', pw', row', h1, h2, h3, h4, h5, h6, h7, h8, -⟩ :=
        pharmacy_login_token c s uo pwo id un n h
      exact ⟨u', pw', row', h1, h2, h3, h4, h5, h6, h7, h8⟩
    · rintro ⟨u', pw', row', rfl, rfl, h3, h4, h5, h6, h7, h8⟩
      refine ⟨row'.pharmacy_id, row'.username, none, ?_⟩
      rw [pharmacy_login_of_row c s u' pw' row' h3 h4 h5 h6]
      simp [h7, h8]

/-- C22 at a concrete input: `alice` with her password. -/
theorem pharmacy_login_gate_witness :
    (alicePharmacy.is_active = false →
      pharmacyController.login sampleCollab sampleAccounts (some "alice") (some "secret") =
        .error 403 "Your account has been deactivated. Please contact support.") ∧
    (alicePharmacy.is_active = true → alicePharmacy.status ≠ "approved" →
      pharmacyController.login sampleCollab sampleAccounts (some "alice") (some "secret") =
        .error 403 "Account pending approval by admin") ∧
    (alicePharmacy.is_active = true → alicePharmacy.status = "approved" →
      pharmacyController.login sampleCollab sampleAccounts (some "alice") (some "secret") =
        .token alicePharmacy.pharmacy_id alicePharmacy.username none) ∧
    (∀ uo pwo : Option String,
      (∃ id un n, pharmacyController.login sampleCollab sampleAccounts uo pwo =
        .token id un n) ↔
      ∃ u' pw' row', uo = some u' ∧ pwo = some pw' ∧ u' ≠ "" ∧ pw' ≠ "" ∧
        (sampleAccounts.pharmacy.filter (fun r => r.username = u')).head? = some row' ∧
        sampleCollab.compare pw' row'.password = true ∧ row'.is_active = true ∧
        row'.status = "approved") :=
  pharmacy_login_gate sampleCollab sampleAccounts "alice" "secret" alicePharmacy
    (by decide) (by decide) (by decide) (by decide)

/-- C23: with all five fields given, registering under a username that a
pharmacy row already has answers 409 and returns the store as it was (pharmacy
and notifications tables included); under an unused username it answers 201
and appends exactly one row, `pending` and active, with the given fields. -/
theorem register_pharmacy (c : Collab) (env : Env) (clock : Nat → Nat) (s : AccountStore)
    (n a ph u pw : String) (hn : n ≠ "") (ha : a ≠ "") (hph : ph ≠ "") (hu : u ≠ "")
    (hpw : pw ≠ "") :
    ((∃ row ∈ s.pharmacy, row.username = u) →
      pharmacyController.register c env clock s (some n) (some a) (some ph) (some u)
        (some pw) = (.error 409 "Username already registered", s)) ∧
    ((∀ row ∈ s.pharmacy, row.username ≠ u) →
      ∃ pharmacyId password,
        (pharmacyController.register c env clock s (some n) (some a) (some ph) (some u)
          (some pw)).1 = .registered pharmacyId ∧
        (pharmacyController.register c env clock s (some n) (some a) (some ph) (some u)
          (some pw)).2.pharmacy = s.pharmacy ++
            [{ pharmacy_id := pharmacyId, name := n, address := a, phone_No := ph,
               username := u, password := password, status := "pending",
               is_active := true }]) := by
  have hv : ¬ (n = "" ∨ a = "" ∨ ph = "" ∨ u = "" ∨ pw = "") := by
    rintro (h | h | h | h | h)
    · exact hn h
    · exact ha h
    · exact hph h
    · exact hu h
    · exact hpw h
  constructor
  · rintro ⟨row, hrow, hru⟩
    have hpos : (s.pharmacy.filter (fun r => r.username = u)).length > 0 := by
      apply List.length_pos_of_mem (a := row)
      rw [List.mem_filter]
      exact ⟨hrow, by simp [hru]⟩
    unfold pharmacyController.register
    simp only [hv, if_false, hpos, if_true]
  · intro hnone
    have hzero : ¬ (s.pharmacy.filter (fun r => r.username = u)).length > 0 := by
      have : s.pharmacy.filter (fun r => r.username = u) = [] := by
        rw [List.filter_eq_nil_iff]
        intro r hr
        simpa using hnone r hr
      rw [this]
      simp
    unfold pharmacyController.register
    simp only [hv, if_false, hzero]
    exact ⟨_, _, rfl, rfl⟩

/-- C23 at a concrete input: the taken username `alice` and the free username
`bob`. -/
theorem register_pharmacy_witness :
    pharmacyController.register sampleCollab sampleEnv (fun k => k) sampleAccounts
        (some "Copy") (some "Main St 9") (some "0933") (some "alice") (some "pw") =
      (.error 409 "Username already registered", sampleAccounts) ∧
    ∃ pharmacyId password,
      (pharmacyController.register sampleCollab sampleEnv (fun k => k) sampleAccounts
        (some "Bob Pharmacy") (some "Side St 2") (some "0922") (some "bob")
        (some "pw")).1 = .registered pharmacyId ∧
      (pharmacyController.register sampleCollab sampleEnv (fun k => k) sampleAccounts
        (some "Bob Pharmacy") (some "Side St 2") (some "0922") (some "bob")
        (some "pw")).2.pharmacy = sampleAccounts.pharmacy ++
          [{ pharmacy_id := pharmacyId, name := "Bob Pharmacy", address := "Side St 2",
             phone_No := "0922", username := "bob", password := password,
             status := "pending", is_active := true }] :=
  ⟨(register_pharmacy sampleCollab sampleEnv (fun k => k) sampleAccounts "Copy" "Main St 9"
      "0933" "alice" "pw" (by decide) (by decide) (by decide) (by decide) (by decide)).1
      ⟨alicePharmacy, by decide, by decide⟩,
   (register_pharmacy sampleCollab sampleEnv (fun k => k) sampleAccounts "Bob Pharmacy"
      "Side St 2" "0922" "bob" "pw" (by decide) (by decide) (by decide) (by decide)
      (by decide)).2 (by decide)⟩

/-- C24: togglePharmacyActiveStatus either leaves table `pharmacy` as it was or
rewrites `is_active`, and nothing else, in the rows of the given id;
approvePharmacy and rejectPharmacy either leave the table as it was or rewrite
`status`, and nothing else, to `approved` and `rejected` in the rows of the
given id; every other row stays as it was. -/
theorem status_and_active_independent (env : Env) (clock : Nat → Nat) (s : AccountStore)
    (adminId : Option String) (pharmacyId : String) (is_active : Option Bool) :
    ((adminController.togglePharmacyActiveStatus env clock s adminId pharmacyId
        is_active).2.pharmacy = s.pharmacy ∨
      ∃ b, is_active = some b ∧
        (adminController.togglePharmacyActiveStatus env clock s adminId pharmacyId
          is_active).2.pharmacy = s.pharmacy.map (fun r =>
            if r.pharmacy_id = pharmacyId then { r with is_active := b } else r)) ∧
    ((adminController.approvePharmacy env clock s adminId pharmacyId).2.pharmacy =
        s.pharmacy ∨
      (adminController.approvePharmacy env clock s adminId pharmacyId).2.pharmacy =
        s.pharmacy.map (fun r =>
          if r.pharmacy_id = pharmacyId then { r with status := "approved" } else r)) ∧
    ((adminController.rejectPharmacy env clock s adminId pharmacyId).2.pharmacy =
        s.pharmacy ∨
      (adminController.rejectPharmacy env clock s adminId pharmacyId).2.pharmacy =
        s.pharmacy.map (fun r =>
          if r.pharmacy_id = pharmacyId then { r with status := "rejected" } else r)) := by
  refine ⟨?_, ?_, ?_⟩
  · unfold adminController.togglePharmacyActiveStatus
    split
    · exact Or.inl rfl
    · split
      · exact Or.inl rfl
      · dsimp only
        split <;> exact Or.inr ⟨_, rfl, rfl⟩
  · unfold adminController.approvePharmacy
    split
    · exact Or.inl rfl
    · dsimp only
      split <;> exact Or.inr rfl
  · unfold adminController.rejectPharmacy
    split
    · exact Or.inl rfl
    · dsimp only
      split <;> exact Or.inr rfl

/-- C25: for a pharmacy `p` and a product `d`: with a quantity of at least zero
and a row of key `(p, d)`, updateInventoryItem succeeds and every row of that
key has the given quantity, whatever it was, while the other rows and the
number of rows are unchanged; a missing or negative quantity is answered 400
with the store unchanged; with no row of that key the answer is 404 and the
store is unchanged. -/
theorem updateInventoryItem_sets (env : Env) (s : Store) (p d : String) (hp : p ≠ "") :
    (∀ q : Int, 0 ≤ q → (∃ r ∈ s.pharmacy_inventory, invKey p d r = true) →
      (pharmacyController.updateInventoryItem env s (some p) d (some q)).1 =
        .inventoryUpdated d q ∧
      inventoryQty (pharmacyController.updateInventoryItem env s (some p) d
        (some q)).2.pharmacy_inventory p d = some q ∧
      (∀ r ∈ (pharmacyController.updateInventoryItem env s (some p) d
        (some q)).2.pharmacy_inventory, invKey p d r = true → r.quantity = q) ∧
      (pharmacyController.updateInventoryItem env s (some p) d
          (some q)).2.pharmacy_inventory.filter (fun r => !invKey p d r) =
        s.pharmacy_inventory.filter (fun r => !invKey p d r) ∧
      (pharmacyController.updateInventoryItem env s (some p) d
          (some q)).2.pharmacy_inventory.length = s.pharmacy_inventory.length) ∧
    (∀ qo : Option Int, (qo = none ∨ ∃ q, qo = some q ∧ q < 0) →
      pharmacyController.updateInventoryItem env s (some p) d qo =
        (.error 400 "Quantity must be non-negative", s)) ∧
    (∀ q : Int, 0 ≤ q → (∀ r ∈ s.pharmacy_inventory, invKey p d r = false) →
      pharmacyController.updateInventoryItem env s (some p) d (some q) =
        (.error 404 "Product not found in your inventory", s)) := by
  refine ⟨?_, ?_, ?_⟩
  · intro q hq ⟨r0, hr0, hk0⟩
    have hneg : ¬ q < 0 := by omega
    have hpos : (s.pharmacy_inventory.filter (invKey p d)).length ≠ 0 := by
      intro h0
      rw [List.length_eq_zero] at h0
      have : r0 ∈ s.pharmacy_inventory.filter (invKey p d) := List.mem_filter.mpr ⟨hr0, hk0⟩
      rw [h0] at this
      exact absurd this (List.not_mem_nil _)
    have hs : (pharmacyController.updateInventoryItem env s (some p) d
        (some q)).2.pharmacy_inventory = s.pharmacy_inventory.map (fun r =>
          if invKey p d r then { r with quantity := q, last_updated := some env.now }
          else r) := by
      unfold pharmacyController.updateInventoryItem
      simp only [hp, if_false, hneg, hpos]
    have hcomp : (invKey p d ∘ fun r =>
        if invKey p d r = true then { r with quantity := q, last_updated := some env.now }
        else r) = invKey p d := by
      funext r
      show invKey p d (if invKey p d r = true then
        { r with quantity := q, last_updated := some env.now } else r) = invKey p d r
      split <;> rfl
    refine ⟨?_, ?_, ?_, ?_, ?_⟩
    · unfold pharmacyController.updateInventoryItem
      simp only [hp, if_false, hneg, hpos]
    · rw [hs]
      unfold inventoryQty
      rw [List.find?_map, hcomp]
      cases hf : s.pharmacy_inventory.find? (invKey p d) with
      | none =>
        rw [List.find?_eq_none] at hf
        exact absurd hk0 (hf r0 hr0)
      | some x =>
        have hk := List.find?_some hf
        simp [hk]
    · rw [hs]
      intro r hr hk
      rw [List.mem_map] at hr
      obtain ⟨x, hx, rfl⟩ := hr
      by_cases hkx : invKey p d x = true
      · simp [hkx]
      · simp only [hkx] at hk
        exact absurd hk hkx
    · rw [hs]
      induction s.pharmacy_inventory with
      | nil => rfl
      | cons x t ih =>
        by_cases hkx : invKey p d x = true
        · have hkx' : invKey p d
              { x with quantity := q, last_updated := some env.now } = true := by
            simpa [invKey] using hkx
          simp only [List.map_cons, hkx, if_true, List.filter_cons, hkx', Bool.not_true]
          exact ih
        · simp only [List.map_cons, hkx, List.filter_cons]
          simp only [Bool.not_eq_true] at hkx
          simp only [hkx, Bool.not_false, if_true, Bool.false_eq_true, if_false]
          rw [ih]
    · rw [hs, List.length_map]
  · intro qo hq
    unfold pharmacyController.updateInventoryItem
    rcases hq with rfl | ⟨q, rfl, hq⟩
    · simp [hp]
    · simp [hp, hq]
  · intro q hq hnone
    have hneg : ¬ q < 0 := by omega
    have h0 : (s.pharmacy_inventory.filter (invKey p d)).length = 0 := by
      rw [List.length_eq_zero, List.filter_eq_nil_iff]
      intro r hr
      simp [hnone r hr]
    unfold pharmacyController.updateInventoryItem
    simp only [hp, if_false, hneg, h0, if_true]
    rw [map_ite_of_filter_nil _ _ _ h0]

/-- C25 at a concrete input: `PH-1` sets its 10 units to 3, fails with minus
one, and fails for a product it does not hold. -/
theorem updateInventoryItem_sets_witness :
    (inventoryQty approvedStore.pharmacy_inventory "PH-1" "PROD-2025-00001" = some 10 ∧
      (pharmacyController.updateInventoryItem laterEnv approvedStore (some "PH-1")
        "PROD-2025-00001" (some 3)).1 = .inventoryUpdated "PROD-2025-00001" 3 ∧
      inventoryQty (pharmacyController.updateInventoryItem laterEnv approvedStore
        (some "PH-1") "PROD-2025-00001" (some 3)).2.pharmacy_inventory "PH-1"
        "PROD-2025-00001" = some 3) ∧
    pharmacyController.updateInventoryItem laterEnv approvedStore (some "PH-1")
        "PROD-2025-00001" (some (-1)) =
      (.error 400 "Quantity must be non-negative", approvedStore) ∧
    pharmacyController.updateInventoryItem laterEnv approvedStore (some "PH-1")
        "PROD-2025-00009" (some 3) =
      (.error 404 "Product not found in your inventory", approvedStore) :=
  ⟨⟨by decide,
    ((updateInventoryItem_sets laterEnv approvedStore "PH-1" "PROD-2025-00001"
      (by decide)).1 3 (by decide) (by decide)).1,
    ((updateInventoryItem_sets laterEnv approvedStore "PH-1" "PROD-2025-00001"
      (by decide)).1 3 (by decide) (by decide)).2.1⟩,
   (updateInventoryItem_sets laterEnv approvedStore "PH-1" "PROD-2025-00001"
      (by decide)).2.1 (some (-1)) (Or.inr ⟨-1, rfl, by decide⟩),
   (updateInventoryItem_sets laterEnv approvedStore "PH-1" "PROD-2025-00009"
      (by decide)).2.2 3 (by decide) (by decide)⟩

/-- C26: a successful registration stores no notification at all, although an
administrator exists: the helper is called without recipients and does nothing;
called with the administrator's id it would have stored the notice. -/
theorem registration_notifies_nobody :
    sampleAccounts.admins.map (fun a => a.admin_id) = ["ADM-1"] ∧
    (pharmacyController.register sampleCollab sampleEnv (fun k => 1700000000000 + k)
        sampleAccounts (some "Bob Pharmacy") (some "Side St 2") (some "0922") (some "bob")
        (some "pw")).1 = .registered "PHA-2025-00008" ∧
    (pharmacyController.register sampleCollab sampleEnv (fun k => 1700000000000 + k)
        sampleAccounts (some "Bob Pharmacy") (some "Side St 2") (some "0922") (some "bob")
        (some "pw")).2.notifications = [] ∧
    (pharmacyController.createNotification sampleEnv (fun k => 1700000000000 + k) "admin"
        "New pharmacy \"Bob Pharmacy\" registered and is awaiting approval."
        "add_pharmacy" "pharmacy" ["ADM-1"] ([], 2)).1.map
        (fun n => (n.recipient_id, n.recipient_role, n.type, n.trigger_role)) =
      [("ADM-1", "admin", "add_pharmacy", "pharmacy")] := by
  decide

/-! ## Lemmas on the growth chart, the helper copies and the frame of a call -/

theorem padStart2_length (m : Nat) (hm : m < 12) :
    (adminController.padStart2 (m + 1)).length = 2 := by
  interval_cases m <;> decide

theorem stored_eq_core (ns : List Notification) (id m t g : String) :
    stored ns id m t g = ((ns.map Notification.core).filter (fun c =>
      decide (c.1 = id) && decide (c.2.2.1 = m) && decide (c.2.2.2.1 = t) &&
        decide (c.2.2.2.2 = g))).length := by
  unfold stored
  rw [List.filter_map, List.length_map]
  rfl

theorem stored_congr (ns ns' : List Notification) (id m t g : String)
    (h : ns.map Notification.core = ns'.map Notification.core) :
    stored ns id m t g = stored ns' id m t g := by
  rw [stored_eq_core, stored_eq_core, h]

theorem foldl_insertIfAbsent_core (mk1 mk2 : Nat → String → Notification) (m t g : String)
    (hcore : ∀ k k' id, (mk1 k id).core = (mk2 k' id).core)
    (l : List String) (acc1 acc2 : List Notification × Nat)
    (h : acc1.1.map Notification.core = acc2.1.map Notification.core) :
    (l.foldl (insertIfAbsent mk1 m t g) acc1).1.map Notification.core =
      (l.foldl (insertIfAbsent mk2 m t g) acc2).1.map Notification.core := by
  induction l generalizing acc1 acc2 with
  | nil => exact h
  | cons a tl ih =>
    rw [List.foldl_cons, List.foldl_cons]
    apply ih
    unfold insertIfAbsent
    rw [stored_congr acc1.1 acc2.1 a m t g h]
    by_cases h0 : stored acc2.1 a m t g = 0
    · simp only [h0, if_true, List.map_append, List.map_cons, List.map_nil, h,
        hcore acc1.2 acc2.2 a]
    · simp only [h0, if_false, h]

theorem foldl_filter_present (mk : Nat → String → Notification) (m t g : String)
    (hmk : ∀ k id id', sameNotification id' m t g (mk k id) = decide (id' = id))
    (x : String) (l : List String) (acc : List Notification × Nat)
    (hx : stored acc.1 x m t g ≠ 0) :
    (l.filter (fun y => y ≠ x)).foldl (insertIfAbsent mk m t g) acc =
      l.foldl (insertIfAbsent mk m t g) acc := by
  induction l generalizing acc with
  | nil => rfl
  | cons y r ih =>
    by_cases hy : y = x
    · subst hy
      have hskip : insertIfAbsent mk m t g acc y = acc := by
        unfold insertIfAbsent
        simp [hx]
      simp only [List.filter_cons, ne_eq, not_true_eq_false, decide_False,
        Bool.false_eq_true, if_false, List.foldl_cons, hskip]
      exact ih acc hx
    · have hkeep : stored (insertIfAbsent mk m t g acc y).1 x m t g ≠ 0 := by
        rw [stored_insertIfAbsent mk m t g hmk]
        have hxy : ¬ x = y := fun e => hy e.symm
        simp [hxy, hx]
      simp only [List.filter_cons, ne_eq, hy, not_false_eq_true, decide_True, if_true,
        List.foldl_cons]
      exact ih _ hkeep

theorem foldl_uniqueIds (mk : Nat → String → Notification) (m t g : String)
    (hmk : ∀ k id id', sameNotification id' m t g (mk k id) = decide (id' = id))
    (l : List String) (acc : List Notification × Nat) :
    (uniqueIds l).foldl (insertIfAbsent mk m t g) acc =
      l.foldl (insertIfAbsent mk m t g) acc := by
  induction l generalizing acc with
  | nil => rfl
  | cons x r ih =>
    have hpres : stored (insertIfAbsent mk m t g acc x).1 x m t g ≠ 0 := by
      rw [stored_insertIfAbsent mk m t g hmk]
      by_cases h0 : stored acc.1 x m t g = 0
      · simp [h0]
      · simp [h0]
    simp only [uniqueIds, List.foldl_cons]
    rw [foldl_filter_present mk m t g hmk x _ _ hpres]
    exact ih _

theorem product_insert_eq (env : Env) (r m t g : String) :
    productController.insertNotification env r m t g =
      insertIfAbsent (productController.newRow env r m t g) m t g := rfl

theorem product_newRow_same (env : Env) (r m t g : String) (k : Nat) (id id' : String) :
    sameNotification id' m t g (productController.newRow env r m t g k id) =
      decide (id' = id) := by
  by_cases h : id = id'
  · subst h; simp [sameNotification, productController.newRow]
  · have h' : ¬ id' = id := fun e => h e.symm
    simp [sameNotification, productController.newRow, h, h']

theorem product_createNotification_eq (env : Env) (r m t g : String) (ids : List String)
    (acc : List Notification × Nat) :
    productController.createNotification env r m t g ids acc =
      (uniqueIds ids).foldl (insertIfAbsent (productController.newRow env r m t g) m t g)
        acc := by
  unfold productController.createNotification
  rw [product_insert_eq]
  cases ids with
  | nil => rfl
  | cons a tl => simp

theorem keptBy_refl (requestId : String) (rs : List Request) :
    List.Forall₂ (keptBy requestId) rs rs := by
  rw [List.forall₂_same]
  intro x _
  exact ⟨fun _ => rfl, rfl, rfl, rfl, rfl, rfl, rfl⟩

theorem keptBy_map (requestId w : String) (rs : List Request) (g : Request → Request)
    (hg : ∀ x, (g x).request_id = x.request_id ∧ (g x).product_name = x.product_name ∧
      (g x).quantity = x.quantity ∧ (g x).pharmacy_id = x.pharmacy_id ∧
      (g x).wholesaler_id = x.wholesaler_id ∧ (g x).request_datetime = x.request_datetime) :
    List.Forall₂ (keptBy requestId) rs
      (rs.map (fun x => if ownedBy requestId w x then g x else x)) := by
  rw [List.forall₂_map_right_iff, List.forall₂_same]
  intro x _
  by_cases hc : ownedBy requestId w x = true
  · have hid : x.request_id = requestId := by
      simp only [ownedBy, Bool.and_eq_true, decide_eq_true_eq] at hc
      exact hc.1
    simp only [hc, if_true]
    exact ⟨fun hne => absurd hid hne, hg x⟩
  · simp only [hc]
    exact ⟨fun _ => rfl, rfl, rfl, rfl, rfl, rfl, rfl⟩

/-! ## Claims on the growth chart, the helper copies, the frame and the dashboard -/

/-- C27: for a current month `month` (counted from zero) of a year of at least
one, getWholesalerGrowth returns 12 entries; entry `j` belongs to the month that
lies `11 - j` months before the current one (so the months are consecutive,
ascending and end with the current month, across year boundaries), its period
is the year, a dash and the month number padded to two digits, and its count is
the count of the first row with that period, or zero when there is none. -/
theorem getWholesalerGrowth_zero_fills (year month : Nat) (rows : List (String × Nat))
    (hy : 1 ≤ year) (hm : month < 12) :
    (adminController.getWholesalerGrowth year month rows).length = 12 ∧
    ∀ j, j < 12 → ∃ y m, m < 12 ∧ y * 12 + m + 11 = year * 12 + month + j ∧
      (adminController.padStart2 (m + 1)).length = 2 ∧
      (adminController.getWholesalerGrowth year month rows)[j]? =
        some (toString y ++ "-" ++ adminController.padStart2 (m + 1),
          match rows.find? (fun r => r.1 = toString y ++ "-" ++
              adminController.padStart2 (m + 1)) with
          | some r => r.2
          | none => 0) := by
  constructor
  · simp [adminController.getWholesalerGrowth]
  · intro j hj
    have hmlt : (year * 12 + month - (11 - j)) % 12 < 12 := Nat.mod_lt _ (by decide)
    refine ⟨(year * 12 + month - (11 - j)) / 12, (year * 12 + month - (11 - j)) % 12,
      hmlt, ?_, padStart2_length _ hmlt, ?_⟩
    · have := Nat.div_add_mod (year * 12 + month - (11 - j)) 12
      omega
    · unfold adminController.getWholesalerGrowth
      rw [List.getElem?_map, List.getElem?_range hj]
      simp only [Option.map_some', adminController.periodKey, adminController.monthsBack]
      cases rows.find? (fun r => r.1 = toString ((year * 12 + month - (11 - j)) / 12) ++ "-" ++
        adminController.padStart2 ((year * 12 + month - (11 - j)) % 12 + 1)) <;> rfl

/-- C27 at a concrete input: February 2025 with rows for December and
February. -/
theorem getWholesalerGrowth_zero_fills_witness :
    adminController.getWholesalerGrowth 2025 1 [("2024-12", 3), ("2025-02", 5)] =
      [("2024-03", 0), ("2024-04", 0), ("2024-05", 0), ("2024-06", 0), ("2024-07", 0),
       ("2024-08", 0), ("2024-09", 0), ("2024-10", 0), ("2024-11", 0), ("2024-12", 3),
       ("2025-01", 0), ("2025-02", 5)] ∧
    ((adminController.getWholesalerGrowth 2025 1 [("2024-12", 3), ("2025-02", 5)]).length =
        12 ∧
      ∀ j, j < 12 → ∃ y m, m < 12 ∧ y * 12 + m + 11 = 2025 * 12 + 1 + j ∧
        (adminController.padStart2 (m + 1)).length = 2 ∧
        (adminController.getWholesalerGrowth 2025 1 [("2024-12", 3), ("2025-02", 5)])[j]? =
          some (toString y ++ "-" ++ adminController.padStart2 (m + 1),
            match [("2024-12", 3), ("2025-02", 5)].find? (fun r => r.1 = toString y ++ "-" ++
                adminController.padStart2 (m + 1)) with
            | some r => r.2
            | none => 0)) :=
  ⟨by decide,
   getWholesalerGrowth_zero_fills 2025 1 [("2024-12", 3), ("2025-02", 5)] (by decide)
     (by decide)⟩

/-- C28: called on the same table with the same role, message, type, trigger
role and recipient list, the four copies of createNotification leave tables
whose rows agree, in order, on recipient id, recipient role, message, type and
trigger role, whatever the environments and counters of the four calls. -/
theorem helper_copies_agree (envR envP envA envF : Env) (clockA clockF : Nat → Nat)
    (role m t g : String) (ids : List String) (ns : List Notification)
    (kR kP kA kF : Nat) :
    (requestController.createNotification envR role m t g ids (ns, kR)).1.map
        Notification.core =
      (productController.createNotification envP role m t g ids (ns, kP)).1.map
        Notification.core ∧
    (requestController.createNotification envR role m t g ids (ns, kR)).1.map
        Notification.core =
      (adminController.createNotification envA clockA role m t g ids (ns, kA)).1.map
        Notification.core ∧
    (requestController.createNotification envR role m t g ids (ns, kR)).1.map
        Notification.core =
      (pharmacyController.createNotification envF clockF role m t g ids (ns, kF)).1.map
        Notification.core := by
  rw [request_createNotification_eq, product_createNotification_eq,
    admin_createNotification_eq, pharmacy_createNotification_eq,
    foldl_uniqueIds _ m t g (request_newRow_same envR role m t g),
    foldl_uniqueIds _ m t g (product_newRow_same envP role m t g)]
  exact ⟨foldl_insertIfAbsent_core (requestController.newRow envR role m t g)
      (productController.newRow envP role m t g) m t g (fun _ _ _ => rfl) ids _ _ rfl,
    foldl_insertIfAbsent_core (requestController.newRow envR role m t g)
      (adminController.newRow envA clockA role m t g) m t g (fun _ _ _ => rfl) ids _ _ rfl,
    foldl_insertIfAbsent_core (requestController.newRow envR role m t g)
      (adminController.newRow envF clockF role m t g) m t g (fun _ _ _ => rfl) ids _ _ rfl⟩

/-- C29: after approveRequest, rejectRequest or cancelRequest on `requestId` the
request table has the rows of before in the same places; a row with another id
is identical, and every row keeps its request id, product name, quantity,
pharmacy id, wholesaler id and request time. -/
theorem lifecycle_touches_only_target (env : Env) (s : Store) (v : Option String)
    (requestId : String) :
    List.Forall₂ (keptBy requestId) s.request
      (approveRequest env s v requestId).2.request ∧
    List.Forall₂ (keptBy requestId) s.request
      (rejectRequest env s v requestId).2.request ∧
    List.Forall₂ (keptBy requestId) s.request
      (cancelRequest s v requestId).2.request := by
  refine ⟨?_, ?_, ?_⟩
  · unfold approveRequest
    split
    · exact keptBy_refl _ _
    · split
      · exact keptBy_refl _ _
      · split
        · exact keptBy_refl _ _
        · dsimp only
          split
          · exact keptBy_map _ _ _ _ (fun _ => ⟨rfl, rfl, rfl, rfl, rfl, rfl⟩)
          · split <;>
              exact keptBy_map _ _ _ _ (fun _ => ⟨rfl, rfl, rfl, rfl, rfl, rfl⟩)
  · unfold rejectRequest
    split
    · exact keptBy_refl _ _
    · split
      · exact keptBy_refl _ _
      · split
        · exact keptBy_refl _ _
        · dsimp only
          split <;>
            exact keptBy_map _ _ _ _ (fun _ => ⟨rfl, rfl, rfl, rfl, rfl, rfl⟩)
  · unfold cancelRequest
    split
    · exact keptBy_refl _ _
    · split
      · exact keptBy_refl _ _
      · split
        · exact keptBy_refl _ _
        · dsimp only
          split <;>
            exact keptBy_map _ _ _ _ (fun _ => ⟨rfl, rfl, rfl, rfl, rfl, rfl⟩)

/-- C30, refuted: with the request of the scenario approved at a stored total
of 20.00, the dashboard reports 30.00 after the price was raised to 3.00, 0
after the product was deleted, and 40.00 when a second product has the same
name under the wholesaler. -/
theorem totalSpent_differs_from_stored :
    (repricedStore.request.map (fun r => (r.pharmacy_id, r.status, r.total_amount)) =
        [("PH-1", "Approved", 2000)] ∧
      pharmacyController.getDashboardStats repricedStore (some "PH-1") =
        .dashboard 1 0 3000) ∧
    (deletedProductStore.request.map (fun r => (r.pharmacy_id, r.status, r.total_amount)) =
        [("PH-1", "Approved", 2000)] ∧
      pharmacyController.getDashboardStats deletedProductStore (some "PH-1") =
        .dashboard 1 0 0) ∧
    (twinProductStore.request.map (fun r => (r.pharmacy_id, r.status, r.total_amount)) =
        [("PH-1", "Approved", 2000)] ∧
      pharmacyController.getDashboardStats twinProductStore (some "PH-1") =
        .dashboard 1 0 4000) := by
  decide

/-- C30, amended: in a store where each approved request of the pharmacy matches
exactly one product row by name and wholesaler, and the price of that row times
the quantity is the stored total amount, the dashboard's `totalSpent` is the
sum of the stored total amounts of the pharmacy's approved requests. -/
theorem totalSpent_eq_stored (s : Store) (pid : String) (hp : pid ≠ "")
    (h : ∀ r ∈ s.request, r.pharmacy_id = pid → r.status = "Approved" →
      ∃ p, selectProduct s.products r.product_name r.wholesaler_id = [p] ∧
        p.price * r.quantity = r.total_amount) :
    ∃ totalOrders pendingRequests,
      pharmacyController.getDashboardStats s (some pid) =
        .dashboard totalOrders pendingRequests
          ((s.request.filter (fun r => r.pharmacy_id = pid && r.status = "Approved")).map
            (fun r => r.total_amount)).sum := by
  have hsum : pharmacyController.totalSpent s pid =
      ((s.request.filter (fun r => r.pharmacy_id = pid && r.status = "Approved")).map
        (fun r => r.total_amount)).sum := by
    unfold pharmacyController.totalSpent
    congr 1
    apply List.map_congr_left
    intro r hr
    rw [List.mem_filter] at hr
    have hk := hr.2
    simp only [Bool.and_eq_true, decide_eq_true_eq] at hk
    obtain ⟨p, hsel, hprice⟩ := h r hr.1 hk.1 hk.2
    rw [hsel]
    simp [hprice]
  unfold pharmacyController.getDashboardStats
  simp only [hp, if_false, hsum]
  exact ⟨_, _, rfl⟩

/-- C30, amended, at a concrete input: the scenario right after the approval. -/
theorem totalSpent_eq_stored_witness :
    pharmacyController.getDashboardStats approvedStore (some "PH-1") =
      .dashboard 1 0 2000 ∧
    ∃ totalOrders pendingRequests,
      pharmacyController.getDashboardStats approvedStore (some "PH-1") =
        .dashboard totalOrders pendingRequests
          ((approvedStore.request.filter
            (fun r => r.pharmacy_id = "PH-1" && r.status = "Approved")).map
            (fun r => r.total_amount)).sum :=
  ⟨by decide,
   totalSpent_eq_stored approvedStore "PH-1" (by decide) (by
     intro r hr _ _
     have hreq : approvedStore.request = [approvedRow] := by decide
     rw [hreq, List.mem_singleton] at hr
     subst hr
     exact ⟨amoxicillin, by decide, by decide⟩)⟩

end Pscms
